import Mathlib

/-!
LJCA transport (drivers/mfd/ljca.c): shallow embedding

The wire codec, the stub registry lookup, the inbound dispatcher and the
command exchange of the La Jolla Cove Adapter USB driver, as pure functions on
an explicit state; then the bring-up sequence, the SPI controller that rides on
the transport (drivers/spi/spi-ljca.c), and two functions of the MEI driver of
the vision sensing controller (drivers/misc/mei/hw-vsc.c): the boot image
download loop and the message read.

Modelling conventions
* C pointers into caller memory (`ibuf`, `ibuf_len`) are addresses of type
  `Nat`, `0` being `NULL`.  Caller memory is `ljca_mem`: a byte store for the
  reply buffers and a store of `unsigned int` objects for the capacity variables.
* A `struct ljca_stub *` is the position of the stub in `dev->stubs_list`.
* Everything the driver does to the outside (writes on the outbound pipe,
  sleeping on `ack_wq`, event callbacks, URB resubmission) is appended to a
  trace of `ljca_io` events.
* What the outside does to the driver during one call (allocation result, the
  result of `usb_bulk_msg`, the receive completions that run while the caller
  is inside `usb_bulk_msg` or asleep in `wait_event_timeout`) is an explicit
  argument, `ljca_write_env`.
* `u8` / `unsigned int` / `size_t` / `int` arithmetic is done on `Nat` / `Int`
  with explicit `% 2^w` (`size_t` is 64 bit, `unsigned int` and `int` 32 bit).
* A loop whose termination is not evident from its shape takes a bound on the
  number of iterations as its first argument and returns `none` when the bound
  is reached before the loop condition fails.
-/

namespace LJCA

/-! ## Constants -/

/-! The errno values are those of the Linux headers the driver is compiled against
(include/uapi/asm-generic/errno-base.h and errno.h); the driver always returns them
negated. -/

/-- Errno `ENOENT`: URB unlinked synchronously. -/
def ENOENT : Int := 2
/-- Errno `ENOMEM`: allocation failure. -/
def ENOMEM : Int := 12
/-- Errno `EBUSY`: event callback identity already registered. -/
def EBUSY : Int := 16
/-- Errno `ENODEV`: stub not found, or transport not started. -/
def ENODEV : Int := 19
/-- Errno `EINVAL`: oversized frame, short write, command mismatch. -/
def EINVAL : Int := 22
/-- Errno `ECONNRESET`: URB unlinked asynchronously. -/
def ECONNRESET : Int := 104
/-- Errno `ESHUTDOWN`: endpoint shut down. -/
def ESHUTDOWN : Int := 108
/-- Errno `ETIMEDOUT`: no acknowledgement within the timeout. -/
def ETIMEDOUT : Int := 110

/-- Flag `LJCA_ACK_FLAG`, `BIT(0)`. -/
def LJCA_ACK_FLAG : Nat := 1
/-- Flag `LJCA_RESP_FLAG`, `BIT(1)`. -/
def LJCA_RESP_FLAG : Nat := 2
/-- Flag `LJCA_CMPL_FLAG`, `BIT(2)`. -/
def LJCA_CMPL_FLAG : Nat := 4

/-- Maximum size of a frame, envelope included. -/
def LJCA_MAX_PACKET_SIZE : Nat := 64
/-- Timeout of the bulk-out write, in milliseconds. -/
def LJCA_USB_WRITE_TIMEOUT_MS : Nat := 200
/-- Timeout of the ack wait for normal operations, in milliseconds. -/
def LJCA_USB_WRITE_ACK_TIMEOUT_MS : Nat := 500
/-- Timeout of the ack wait for the enumeration commands, in milliseconds. -/
def LJCA_USB_ENUM_STUB_TIMEOUT_MS : Nat := 20

/-! ## Data model -/

/-- The `struct ljca_msg` view of a buffer: four `u8` fields, then the flexible `data[]`. -/
structure ljca_msg where
  type : Nat
  cmd : Nat
  flags : Nat
  len : Nat
  data : List Nat
deriving DecidableEq, Repr

/-- Size of the fixed part of `struct ljca_msg` (packed, four `u8`): `sizeof(*header)`. -/
def sizeof_ljca_msg : Nat := 4

/-- The bytes of a packed `struct ljca_msg` followed by its `data[]`. -/
def ljca_msg.bytes (m : ljca_msg) : List Nat :=
  m.type :: m.cmd :: m.flags :: m.len :: m.data

/-- Overlay of `struct ljca_msg` on a byte buffer (`header = urb->transfer_buffer`). -/
def ljca_msg_of_buf (buf : List Nat) : ljca_msg :=
  { type := buf.getD 0 0, cmd := buf.getD 1 0, flags := buf.getD 2 0, len := buf.getD 3 0,
    data := buf.drop 4 }

/-- The `struct ljca_event_cb_entry`: `notify` is a function pointer (`0` is `NULL`). -/
structure ljca_event_cb_entry where
  id : Nat
  notify : Nat
  context : Nat
deriving DecidableEq, Repr

/-- The `struct ljca_stub_packet`: both fields are pointers (`0` is `NULL`). -/
structure ljca_stub_packet where
  ibuf_len : Nat
  ibuf : Nat
deriving DecidableEq, Repr

/-- The `struct ljca_stub` (list linkage, `intf` and the spinlock left out). -/
structure ljca_stub where
  ipacket : ljca_stub_packet
  type : Nat
  acked : Bool
  cur_cmd : Int
  event_entrys : List ljca_event_cb_entry
  priv : List Nat
deriving DecidableEq, Repr

instance : Inhabited ljca_stub :=
  ⟨{ ipacket := { ibuf_len := 0, ibuf := 0 }, type := 0, acked := false, cur_cmd := 0,
     event_entrys := [], priv := [] }⟩

/-- The `struct ljca_gpio_info` handed to the GPIO child: pin count, and the 64-bit
`valid_pin_map` as a number. -/
structure ljca_gpio_info where
  num : Nat
  valid_pin_map : Nat
deriving DecidableEq, Repr

/-- The `struct ljca_i2c_info` handed to an I2C child. -/
structure ljca_i2c_info where
  id : Nat
  capacity : Nat
  intr_pin : Nat
deriving DecidableEq, Repr

/-- The `struct ljca_spi_info` handed to an SPI child. -/
structure ljca_spi_info where
  id : Nat
  capacity : Nat
deriving DecidableEq, Repr

/-- What `auxdev->dev.platform_data` points to: the `kmemdup` copy of one of the three info
structures (`none` before it is set). -/
inductive ljca_platform_data where
  | none
  | gpio (info : ljca_gpio_info)
  | i2c (info : ljca_i2c_info)
  | spi (info : ljca_spi_info)
deriving DecidableEq, Repr

/-- The three device names given to `ljca_add_aux_dev`: "ljca-gpio", "ljca-i2c" and
"ljca-spi" (`unnamed` before the name is set). -/
inductive ljca_aux_name where
  | unnamed
  | ljca_gpio
  | ljca_i2c
  | ljca_spi
deriving DecidableEq, Repr

/-- The fields of `struct auxiliary_device` the driver fills in. -/
structure auxiliary_device where
  name : ljca_aux_name
  id : Nat
  platform_data : ljca_platform_data
deriving DecidableEq, Repr

instance : Inhabited auxiliary_device :=
  ⟨{ name := ljca_aux_name.unnamed, id := 0, platform_data := ljca_platform_data.none }⟩

/-- The `struct ljca` handle of a child device. -/
structure ljca where
  type : Nat
  id : Nat
  auxdev : auxiliary_device := default
deriving DecidableEq, Repr

/-- The `struct ljca_dev`: the fields the transport logic reads and writes. -/
structure ljca_dev where
  started : Bool
  stubs_list : List ljca_stub
  ljcas : List ljca
deriving DecidableEq, Repr

/-- Caller memory reachable through the pointers installed in a stub. -/
structure ljca_mem where
  bytes : Nat → Nat
  words : Nat → Nat

/-- Observable actions of the driver. -/
inductive ljca_io where
  | bulk_out (frame : List Nat)
  | ack_wait (timeout : Nat)
  | wake_up
  | event_cb (notify context cmd : Nat) (evt_data : List Nat) (len : Nat)
  | submit_urb
deriving DecidableEq, Repr

/-- Driver state, caller memory and the trace of actions so far. -/
structure ljca_state where
  dev : ljca_dev
  mem : ljca_mem
  trace : List ljca_io

/-- The fields of `struct urb` read by the completion handler. -/
structure urb where
  status : Int
  transfer_buffer : List Nat
  actual_length : Nat
deriving DecidableEq, Repr

/-- What the environment contributes to one call of `ljca_stub_write`. -/
structure ljca_write_env where
  kmalloc_ok : Bool
  uninit : List Nat
  bulk_ret : Int
  bulk_actual : Int
  rx_write : List urb
  rx_wait : List urb
  remaining : Nat

/-! ## Machine arithmetic -/

/-- Addition in `size_t`. -/
def size_t_add (a b : Nat) : Nat := (a + b) % 2 ^ 64

/-- Conversion to `unsigned int`. -/
def to_uint (a : Int) : Nat := (a % 2 ^ 32).toNat

/-- Conversion of a `long` value to `int`. -/
def long_to_int (a : Nat) : Int := ((a : Int) + 2 ^ 31) % 2 ^ 32 - 2 ^ 31

/-! ## Caller memory -/

/-- The `memcpy(dst, src, n)` into the byte store. -/
def ljca_mem.memcpy (m : ljca_mem) (dst : Nat) (src : List Nat) (n : Nat) : ljca_mem :=
  { m with bytes := fun a => if dst ≤ a ∧ a < dst + n then src.getD (a - dst) 0 else m.bytes a }

/-- The `*p = v` for an `unsigned int *p`. -/
def ljca_mem.store (m : ljca_mem) (p v : Nat) : ljca_mem :=
  { m with words := fun a => if a = p then v else m.words a }

/-! ## Wire codec -/

/-- Function `ljca_validate`: `header->len + sizeof(*header) == data_len`. -/
def ljca_validate (header : ljca_msg) (data_len : Nat) : Bool :=
  size_t_add header.len sizeof_ljca_msg == data_len

/-! ## Stub registry -/

/-- The loop of `ljca_stub_find`: position and value of the first stub of the given type. -/
def ljca_stub_find_loop (type : Nat) : List ljca_stub → Option (Nat × ljca_stub)
  | [] => none
  | stub :: rest =>
    if stub.type = type then some (0, stub)
    else match ljca_stub_find_loop type rest with
      | some (i, s) => some (i + 1, s)
      | none => none

/-- Function `ljca_stub_find`: the first stub of the given type, else `ERR_PTR(-ENODEV)`. -/
def ljca_stub_find (dev : ljca_dev) (type : Nat) : Except Int (Nat × ljca_stub) :=
  match ljca_stub_find_loop type dev.stubs_list with
  | some r => .ok r
  | none => .error (-ENODEV)

/-- Reading through a `struct ljca_stub *`. -/
def ljca_dev.stub (dev : ljca_dev) (i : Nat) : ljca_stub :=
  dev.stubs_list.getD i default

/-- Writing through a `struct ljca_stub *`. -/
def ljca_dev.set_stub (dev : ljca_dev) (i : Nat) (s : ljca_stub) : ljca_dev :=
  { dev with stubs_list := dev.stubs_list.set i s }

/-! ## Event fan-out and inbound dispatcher -/

/-- Function `ljca_stub_notify`: the callback invocations, in list order, skipping `NULL` callbacks. -/
def ljca_stub_notify (stub : ljca_stub) (cmd : Nat) (evt_data : List Nat) (len : Nat) :
    List ljca_io :=
  (stub.event_entrys.filter (fun e => e.notify != 0)).map
    (fun e => ljca_io.event_cb e.notify e.context cmd evt_data len)

/-- Function `ljca_parse`: dispatch of one validated inbound frame. -/
def ljca_parse (st : ljca_state) (header : ljca_msg) : Int × ljca_state :=
  match ljca_stub_find st.dev header.type with
  | .error e => (e, st)
  | .ok (i, stub) =>
    if header.flags &&& LJCA_ACK_FLAG = 0 then
      (0, { st with trace := st.trace ++ ljca_stub_notify stub header.cmd header.data header.len })
    else if stub.cur_cmd ≠ (header.cmd : Int) then
      (-EINVAL, st)
    else
      let ibuf_len := stub.ipacket.ibuf_len
      let ibuf := stub.ipacket.ibuf
      let mem :=
        if ibuf ≠ 0 ∧ ibuf_len ≠ 0 then
          let newlen := min (header.len % 2 ^ 32) (st.mem.words ibuf_len % 2 ^ 32)
          (st.mem.store ibuf_len newlen).memcpy ibuf header.data newlen
        else st.mem
      (0, { dev := st.dev.set_stub i { stub with acked := true }, mem := mem,
            trace := st.trace ++ [ljca_io.wake_up] })

/-- Function `ljca_read_complete`: the completion handler of the inbound URB. -/
def ljca_read_complete (st : ljca_state) (u : urb) : ljca_state :=
  let header := ljca_msg_of_buf u.transfer_buffer
  let len := u.actual_length
  let resubmit := fun (s : ljca_state) => { s with trace := s.trace ++ [ljca_io.submit_urb] }
  if u.status ≠ 0 then
    if u.status = -ENOENT ∨ u.status = -ECONNRESET ∨ u.status = -ESHUTDOWN then st
    else resubmit st
  else if !ljca_validate header len then resubmit st
  else resubmit (ljca_parse st header).2

/-- Receive completions handled one after the other. -/
def ljca_rx (st : ljca_state) (us : List urb) : ljca_state :=
  us.foldl ljca_read_complete st

/-! ## Command exchange -/

/-- The `unsigned int msg_len = sizeof(*header) + obuf_len` of `ljca_stub_write`. -/
def ljca_msg_len (obuf_len : Nat) : Nat :=
  size_t_add sizeof_ljca_msg obuf_len % 2 ^ 32

/-- The `u8 flags` of `ljca_stub_write`. -/
def ljca_stub_write_flags (wait_ack : Bool) : Nat :=
  if wait_ack then LJCA_CMPL_FLAG ||| LJCA_ACK_FLAG else LJCA_CMPL_FLAG

/-- The message `ljca_stub_write` builds in the allocated buffer: `obuf` is `none` for a
`NULL` pointer, in which case `data[]` keeps the allocation's previous contents. -/
def ljca_stub_write_msg (type cmd : Nat) (obuf : Option (List Nat)) (obuf_len : Nat)
    (wait_ack : Bool) (uninit : List Nat) : ljca_msg :=
  { type := type, cmd := cmd, flags := ljca_stub_write_flags wait_ack, len := obuf_len % 256,
    data := match obuf with
      | some b => b.take obuf_len
      | none => uninit.take obuf_len }

/-- The kernel's `wait_event_timeout(dev->ack_wq, stub->acked, ...)` as the driver sees it:
`0` when the condition is still false at the end of the wait, else the remaining jiffies,
at least `1`.  The condition is read after the receive completions of the wait have run. -/
def wait_event_timeout (condition : Bool) (remaining : Nat) : Nat :=
  if condition then max 1 remaining else 0

/-- The `error_unlock:` label of `ljca_stub_write`. -/
def ljca_stub_write_unlock (st : ljca_state) (stub : Nat) (ret : Int) : Int × ljca_state :=
  (ret, { st with dev := (st.dev.set_stub stub
            { (st.dev.stub stub) with ipacket := { ibuf_len := 0, ibuf := 0 } }) })

/-- Function `ljca_stub_write`: one command exchange on the stub at position `stub`. -/
def ljca_stub_write (st : ljca_state) (stub : Nat) (cmd : Nat) (obuf : Option (List Nat))
    (obuf_len : Nat) (ibuf : Nat) (ibuf_len : Nat) (wait_ack : Bool) (timeout : Nat)
    (env : ljca_write_env) : Int × ljca_state :=
  let msg_len := ljca_msg_len obuf_len
  if msg_len > LJCA_MAX_PACKET_SIZE then (-EINVAL, st)
  else if !env.kmalloc_ok then (-ENOMEM, st)
  else
    let header := ljca_stub_write_msg (st.dev.stub stub).type cmd obuf obuf_len wait_ack env.uninit
    if !st.dev.started then (-ENODEV, st)
    else
      let s1 : ljca_state :=
        { st with dev := (st.dev.set_stub stub
            { (st.dev.stub stub) with
              cur_cmd := (cmd : Int), ipacket := { ibuf_len := ibuf_len, ibuf := ibuf },
              acked := false }) }
      let s2 : ljca_state :=
        ljca_rx { s1 with trace := s1.trace ++ [ljca_io.bulk_out (header.bytes.take msg_len)] }
          env.rx_write
      if env.bulk_ret ≠ 0 then ljca_stub_write_unlock s2 stub env.bulk_ret
      else if to_uint env.bulk_actual ≠ msg_len then ljca_stub_write_unlock s2 stub (-EINVAL)
      else if wait_ack then
        let s3 : ljca_state :=
          ljca_rx { s2 with trace := s2.trace ++ [ljca_io.ack_wait timeout] } env.rx_wait
        let ret := long_to_int (wait_event_timeout (s3.dev.stub stub).acked env.remaining)
        if ret = 0 then ljca_stub_write_unlock s3 stub (-ETIMEDOUT)
        else ljca_stub_write_unlock s3 stub 0
      else ljca_stub_write_unlock s2 stub 0

/-- State of `ljca_stub_write` right after the four assignments under the mutex. -/
def ljca_stub_write_s1 (st : ljca_state) (stub cmd ibuf ibuf_len : Nat) : ljca_state :=
  { st with dev := (st.dev.set_stub stub
      { (st.dev.stub stub) with
        cur_cmd := (cmd : Int), ipacket := { ibuf_len := ibuf_len, ibuf := ibuf },
        acked := false }) }

/-- State of `ljca_stub_write` when `usb_bulk_msg` has returned. -/
def ljca_stub_write_s2 (st : ljca_state) (stub cmd : Nat) (obuf : Option (List Nat))
    (obuf_len ibuf ibuf_len : Nat) (wait_ack : Bool) (env : ljca_write_env) : ljca_state :=
  ljca_rx
    { (ljca_stub_write_s1 st stub cmd ibuf ibuf_len) with
      trace := st.trace ++ [ljca_io.bulk_out
        ((ljca_stub_write_msg (st.dev.stub stub).type cmd obuf obuf_len wait_ack
            env.uninit).bytes.take (ljca_msg_len obuf_len))] }
    env.rx_write

/-- State of `ljca_stub_write` when `wait_event_timeout` has returned. -/
def ljca_stub_write_s3 (st : ljca_state) (stub cmd : Nat) (obuf : Option (List Nat))
    (obuf_len ibuf ibuf_len : Nat) (wait_ack : Bool) (timeout : Nat) (env : ljca_write_env) :
    ljca_state :=
  ljca_rx
    { (ljca_stub_write_s2 st stub cmd obuf obuf_len ibuf ibuf_len wait_ack env) with
      trace := (ljca_stub_write_s2 st stub cmd obuf obuf_len ibuf ibuf_len wait_ack env).trace
        ++ [ljca_io.ack_wait timeout] }
    env.rx_wait

/-- Function `ljca_transfer_internal`: look the child's stub up by type, then exchange. -/
def ljca_transfer_internal (st : ljca_state) (l : ljca) (cmd : Nat) (obuf : Option (List Nat))
    (obuf_len : Nat) (ibuf : Nat) (ibuf_len : Nat) (wait_ack : Bool) (env : ljca_write_env) :
    Int × ljca_state :=
  match ljca_stub_find st.dev l.type with
  | .error e => (e, st)
  | .ok (i, _) =>
    ljca_stub_write st i cmd obuf obuf_len ibuf ibuf_len wait_ack LJCA_USB_WRITE_ACK_TIMEOUT_MS env

/-- Function `ljca_transfer`: acknowledged exchange. -/
def ljca_transfer (st : ljca_state) (l : ljca) (cmd : Nat) (obuf : Option (List Nat))
    (obuf_len : Nat) (ibuf : Nat) (ibuf_len : Nat) (env : ljca_write_env) : Int × ljca_state :=
  ljca_transfer_internal st l cmd obuf obuf_len ibuf ibuf_len true env

/-- Function `ljca_transfer_noack`: exchange without acknowledgement, no reply buffer. -/
def ljca_transfer_noack (st : ljca_state) (l : ljca) (cmd : Nat) (obuf : Option (List Nat))
    (obuf_len : Nat) (env : ljca_write_env) : Int × ljca_state :=
  ljca_transfer_internal st l cmd obuf obuf_len 0 0 false env

/-- Number of sleeps on `ack_wq` recorded in a trace. -/
def ljca_waits (t : List ljca_io) : Nat :=
  (t.filter (fun e => match e with | ljca_io.ack_wait _ => true | _ => false)).length

/-- Number of writes on the outbound pipe recorded in a trace. -/
def ljca_writes (t : List ljca_io) : Nat :=
  (t.filter (fun e => match e with | ljca_io.bulk_out _ => true | _ => false)).length

/-- The trace events produced by the receive path. -/
def ljca_io.from_rx : ljca_io → Bool
  | ljca_io.wake_up => true
  | ljca_io.event_cb _ _ _ _ _ => true
  | ljca_io.submit_urb => true
  | _ => false

/-- The frames written on the outbound pipe, in order. -/
def ljca_frames : List ljca_io → List (List Nat)
  | [] => []
  | ljca_io.bulk_out f :: t => f :: ljca_frames t
  | _ :: t => ljca_frames t

/-- The timeouts of the sleeps on `ack_wq`, in order. -/
def ljca_wait_timeouts : List ljca_io → List Nat
  | [] => []
  | ljca_io.ack_wait w :: t => w :: ljca_wait_timeouts t
  | _ :: t => ljca_wait_timeouts t

/-- The callback invocations recorded in a trace, in order. -/
def ljca_callbacks : List ljca_io → List ljca_io
  | [] => []
  | ljca_io.event_cb n c cmd d len :: t => ljca_io.event_cb n c cmd d len :: ljca_callbacks t
  | _ :: t => ljca_callbacks t

/-! ## Event fan-out: registration -/

/-- The search loop of `ljca_register_event_cb`: `ret` becomes `-EBUSY` at the first entry
with the caller's identity, and keeps its value otherwise. -/
def ljca_register_event_cb_loop (id : Nat) (ret : Int) : List ljca_event_cb_entry → Int
  | [] => ret
  | iter :: rest => if iter.id = id then -EBUSY else ljca_register_event_cb_loop id ret rest

/-- Function `ljca_register_event_cb`.  The local `int ret` has no initialiser in the
source, so the value it holds when the loop starts is an argument, `ret_uninit`;
`kzalloc_ok` is the result of the entry allocation. -/
def ljca_register_event_cb (dev : ljca_dev) (l : ljca) (event_cb context : Nat)
    (kzalloc_ok : Bool) (ret_uninit : Int) : Int × ljca_dev :=
  match ljca_stub_find dev l.type with
  | .error e => (e, dev)
  | .ok (i, stub) =>
    if !kzalloc_ok then (-ENOMEM, dev)
    else
      let entry : ljca_event_cb_entry := { id := l.id, notify := event_cb, context := context }
      let ret := ljca_register_event_cb_loop l.id ret_uninit stub.event_entrys
      if ret = 0 then
        (ret, dev.set_stub i { stub with event_entrys := stub.event_entrys ++ [entry] })
      else (ret, dev)

/-- The loop of `ljca_unregister_event_cb`: the first entry with the caller's identity is
unlinked and the loop stops. -/
def ljca_unregister_event_cb_loop (id : Nat) : List ljca_event_cb_entry → List ljca_event_cb_entry
  | [] => []
  | iter :: rest => if iter.id = id then rest else iter :: ljca_unregister_event_cb_loop id rest

/-- Function `ljca_unregister_event_cb`. -/
def ljca_unregister_event_cb (dev : ljca_dev) (l : ljca) : ljca_dev :=
  match ljca_stub_find dev l.type with
  | .error _ => dev
  | .ok (i, stub) =>
    dev.set_stub i
      { stub with event_entrys := ljca_unregister_event_cb_loop l.id stub.event_entrys }

/-! ## Bring-up: constants and descriptors -/

/-- Stub type `LJCA_MNG_STUB`. -/
def LJCA_MNG_STUB : Nat := 1
/-- Stub type `LJCA_DIAG_STUB`. -/
def LJCA_DIAG_STUB : Nat := 2
/-- Stub type `LJCA_GPIO_STUB`. -/
def LJCA_GPIO_STUB : Nat := 3
/-- Stub type `LJCA_I2C_STUB`. -/
def LJCA_I2C_STUB : Nat := 4
/-- Stub type `LJCA_SPI_STUB`. -/
def LJCA_SPI_STUB : Nat := 5

/-- Management command `LJCA_MNG_RESET_NOTIFY`. -/
def LJCA_MNG_RESET_NOTIFY : Nat := 2
/-- Management command `LJCA_MNG_ENUM_GPIO`. -/
def LJCA_MNG_ENUM_GPIO : Nat := 4
/-- Management command `LJCA_MNG_ENUM_I2C`. -/
def LJCA_MNG_ENUM_I2C : Nat := 5
/-- Management command `LJCA_MNG_ENUM_SPI`. -/
def LJCA_MNG_ENUM_SPI : Nat := 8

/-- Value of `LJCA_ACPI_MATCH_GPIO`. -/
def LJCA_ACPI_MATCH_GPIO : Nat := 0
/-- Value of `LJCA_ACPI_MATCH_I2C1`. -/
def LJCA_ACPI_MATCH_I2C1 : Nat := 1
/-- Value of `LJCA_ACPI_MATCH_SPI1`. -/
def LJCA_ACPI_MATCH_SPI1 : Nat := 3
/-- Value of `LJCA_ACPI_MATCH_MAX`, the size of `dev->ljcas[]`. -/
def LJCA_ACPI_MATCH_MAX : Nat := 5

/-- Payload budget `LJCA_MAX_PAYLOAD_SIZE`: `LJCA_MAX_PACKET_SIZE - sizeof(struct ljca_msg)`. -/
def LJCA_MAX_PAYLOAD_SIZE : Nat := LJCA_MAX_PACKET_SIZE - sizeof_ljca_msg

/-- Limit `LJCA_MAX_GPIO_NUM`. -/
def LJCA_MAX_GPIO_NUM : Nat := 64

/-- The `struct ljca_bank_descriptor` (packed: `u8`, `u8`, `u32`). -/
structure ljca_bank_descriptor where
  bank_id : Nat
  pin_num : Nat
  valid_pins : Nat

/-- The `struct ljca_gpio_descriptor`; the flexible array is a function of the index. -/
structure ljca_gpio_descriptor where
  pins_per_bank : Nat
  bank_num : Nat
  bank_desc : Nat → ljca_bank_descriptor

/-- The `struct ljca_i2c_ctr_info` (packed, three `u8`). -/
structure ljca_i2c_ctr_info where
  id : Nat
  capacity : Nat
  intr_pin : Nat

/-- The `struct ljca_i2c_descriptor`; the flexible array is a function of the index. -/
structure ljca_i2c_descriptor where
  num : Nat
  info : Nat → ljca_i2c_ctr_info

/-- The `struct ljca_spi_ctr_info` (packed, two `u8`). -/
structure ljca_spi_ctr_info where
  id : Nat
  capacity : Nat

/-- The `struct ljca_spi_descriptor`; the flexible array is a function of the index. -/
structure ljca_spi_descriptor where
  num : Nat
  info : Nat → ljca_spi_ctr_info

/-- A `u32` read from byte memory (little endian, as on the hosts the driver runs on). -/
def ljca_mem.u32 (m : ljca_mem) (a : Nat) : Nat :=
  m.bytes a + 256 * m.bytes (a + 1) + 65536 * m.bytes (a + 2) + 16777216 * m.bytes (a + 3)

/-- Four consecutive bytes of byte memory. -/
def ljca_mem.read4 (m : ljca_mem) (a : Nat) : List Nat :=
  [m.bytes a, m.bytes (a + 1), m.bytes (a + 2), m.bytes (a + 3)]

/-- The bytes of `cpu_to_le32(v)`. -/
def cpu_to_le32 (v : Nat) : List Nat :=
  [v % 256, v / 256 % 256, v / 65536 % 256, v / 16777216 % 256]

/-- The cast `(struct ljca_gpio_descriptor *)buf`. -/
def ljca_gpio_descriptor_at (m : ljca_mem) (buf : Nat) : ljca_gpio_descriptor :=
  { pins_per_bank := m.bytes buf, bank_num := m.bytes (buf + 1),
    bank_desc := fun i =>
      { bank_id := m.bytes (buf + 2 + 6 * i), pin_num := m.bytes (buf + 2 + 6 * i + 1),
        valid_pins := m.u32 (buf + 2 + 6 * i + 2) } }

/-- The cast `(struct ljca_i2c_descriptor *)buf`. -/
def ljca_i2c_descriptor_at (m : ljca_mem) (buf : Nat) : ljca_i2c_descriptor :=
  { num := m.bytes buf,
    info := fun i =>
      { id := m.bytes (buf + 1 + 3 * i), capacity := m.bytes (buf + 1 + 3 * i + 1),
        intr_pin := m.bytes (buf + 1 + 3 * i + 2) } }

/-- The cast `(struct ljca_spi_descriptor *)buf`. -/
def ljca_spi_descriptor_at (m : ljca_mem) (buf : Nat) : ljca_spi_descriptor :=
  { num := m.bytes buf,
    info := fun i =>
      { id := m.bytes (buf + 1 + 2 * i), capacity := m.bytes (buf + 1 + 2 * i + 1) } }

/-- The `struct_size(desc, bank_desc, n)` of a GPIO descriptor: 2 bytes plus 6 per bank. -/
def ljca_gpio_descriptor_size (n : Nat) : Nat := 2 + 6 * n

/-- The declared size of an I2C descriptor: 1 byte plus 3 per controller. -/
def ljca_i2c_descriptor_size (n : Nat) : Nat := 1 + 3 * n

/-- The declared size of an SPI descriptor: 1 byte plus 2 per controller. -/
def ljca_spi_descriptor_size (n : Nat) : Nat := 1 + 2 * n

/-! ## Bring-up: environment -/

/-- Outcome of the four fallible steps of one `ljca_add_aux_dev` call. -/
structure ljca_aux_env where
  kzalloc_ok : Bool
  kmemdup_ok : Bool
  init_ret : Int
  add_ret : Int

/-- Environment of a `*_stub_init` call: the result of the stub allocation, the
indeterminate initial contents of the stack words from `&valid_pin[0]` on (GPIO only; words
0 and 1 are the local `u32 valid_pin[2]`), and the outcome of the `i`-th child addition. -/
structure ljca_init_env where
  stub_alloc_ok : Bool
  valid_pin : Nat → Nat
  aux : Nat → ljca_aux_env

/-- Environment of an `ljca_mng_enum_*` call: the addresses of the locals `buf` and `len`,
the environment of the exchange and of the stub initialisation. -/
structure ljca_enum_env where
  buf : Nat
  len : Nat
  write : ljca_write_env
  init : ljca_init_env

/-- Environment of `ljca_mng_link`: the addresses of the handshake locals `reset_id_ret`
and `ilen`, the environment of the handshake exchange and of the three enumerations. -/
structure ljca_link_env where
  reset_id_ret : Nat
  ilen : Nat
  reset : ljca_write_env
  gpio : ljca_enum_env
  i2c : ljca_enum_env
  spi : ljca_enum_env

/-! ## Bring-up: stubs and children -/

/-- Function `ljca_stub_alloc`: a zeroed stub of the given type at the tail of the
registry; the result is the new stub's position. -/
def ljca_stub_alloc (dev : ljca_dev) (type priv_size : Nat) (kzalloc_ok : Bool) :
    Except Int (Nat × ljca_dev) :=
  if !kzalloc_ok then .error (-ENOMEM)
  else
    .ok (dev.stubs_list.length,
      { dev with stubs_list := dev.stubs_list ++
          [{ ipacket := { ibuf_len := 0, ibuf := 0 }, type := type, acked := false,
             cur_cmd := 0, event_entrys := [], priv := List.replicate priv_size 0 }] })

/-- Function `ljca_stub_destroy`: the stub is unlinked from the registry and freed. -/
def ljca_stub_destroy (dev : ljca_dev) (stub : Nat) : ljca_dev :=
  { dev with stubs_list := dev.stubs_list.eraseIdx stub }

/-- Function `ljca_add_aux_dev`: `dev->ljca_count` is the length of `ljcas`; the ACPI
companion lookup for `adr` has no effect on the transport state. -/
def ljca_add_aux_dev (dev : ljca_dev) (name : ljca_aux_name) (type id _adr : Nat)
    (data : ljca_platform_data) (env : ljca_aux_env) : Int × ljca_dev :=
  if dev.ljcas.length ≥ LJCA_ACPI_MATCH_MAX then (-EINVAL, dev)
  else if !env.kzalloc_ok then (-ENOMEM, dev)
  else if !env.kmemdup_ok then (-ENOMEM, dev)
  else if env.init_ret ≠ 0 then (env.init_ret, dev)
  else if env.add_ret ≠ 0 then (env.add_ret, dev)
  else
    (0, { dev with ljcas := dev.ljcas ++
            [{ type := type, id := id,
               auxdev := { name := name, id := id, platform_data := data } }] })

/-- The `bitmap_from_arr32(map, valid_pin, nbits)` for `nbits ≤ 64`: the low `nbits` bits
of the two 32-bit words. -/
def bitmap_from_arr32 (valid_pin : List Nat) (nbits : Nat) : Nat :=
  (valid_pin.getD 0 0 % 2 ^ 32 + 2 ^ 32 * (valid_pin.getD 1 0 % 2 ^ 32)) % 2 ^ nbits

/-- The loop `for (i = 0; i < desc->bank_num; i++) valid_pin[i] = ...` of
`ljca_gpio_stub_init`, from index `i` for `n` more rounds, on the stack words from
`&valid_pin[0]` on.  Every store takes effect at its index: the stores at the indices 0
and 1 go into the array, a store at an index `i ≥ 2` goes into the word `i` behind it (out
of bounds; `ljca_gpio_valid_pin_loop_checked` reports it). -/
def ljca_gpio_valid_pin_loop (desc : ljca_gpio_descriptor) :
    Nat → Nat → (Nat → Nat) → (Nat → Nat)
  | 0, _, valid_pin => valid_pin
  | n + 1, i, valid_pin =>
    ljca_gpio_valid_pin_loop desc n (i + 1)
      (fun j => if j = i then (desc.bank_desc i).valid_pins else valid_pin j)

/-- Function `ljca_gpio_stub_init`.  `bitmap_from_arr32` reads the two words of the array.
The words behind the array belong to other objects of the stack frame, which the model does
not lay out: for a descriptor with more than two banks the result stands for the program
only as far as the overrun leaves those objects usable (`ljca_gpio_stub_init_checked` has
no result there). -/
def ljca_gpio_stub_init (dev : ljca_dev) (desc : ljca_gpio_descriptor) (env : ljca_init_env) :
    Int × ljca_dev :=
  let gpio_num := desc.pins_per_bank * desc.bank_num
  if gpio_num > LJCA_MAX_GPIO_NUM then (-EINVAL, dev)
  else
    match ljca_stub_alloc dev LJCA_GPIO_STUB (desc.bank_num * 8) env.stub_alloc_ok with
    | .error e => (e, dev)
    | .ok (stub, dev1) =>
      let valid_pin := ljca_gpio_valid_pin_loop desc desc.bank_num 0 env.valid_pin
      let gpio_info : ljca_gpio_info :=
        { num := gpio_num,
          valid_pin_map := bitmap_from_arr32 [valid_pin 0, valid_pin 1] gpio_num }
      let r := ljca_add_aux_dev dev1 ljca_aux_name.ljca_gpio (dev1.stub stub).type 0
        LJCA_ACPI_MATCH_GPIO (ljca_platform_data.gpio gpio_info) (env.aux 0)
      if r.1 ≠ 0 then (r.1, ljca_stub_destroy r.2 stub) else (r.1, r.2)

/-- The loop of `ljca_i2c_stub_init`, from index `i` for `n` more rounds: one child per
controller; the first failing addition destroys the stub and ends the function. -/
def ljca_i2c_stub_init_loop (desc : ljca_i2c_descriptor) (stub : Nat) (env : ljca_init_env) :
    Nat → Nat → ljca_dev → Int × ljca_dev
  | 0, _, dev => (0, dev)
  | n + 1, i, dev =>
    let i2c_info : ljca_i2c_info :=
      { id := (desc.info i).id, capacity := (desc.info i).capacity,
        intr_pin := (desc.info i).intr_pin }
    let r := ljca_add_aux_dev dev ljca_aux_name.ljca_i2c (dev.stub stub).type (i % 256)
      ((LJCA_ACPI_MATCH_I2C1 + i) % 256) (ljca_platform_data.i2c i2c_info) (env.aux i)
    if r.1 ≠ 0 then (r.1, ljca_stub_destroy r.2 stub)
    else ljca_i2c_stub_init_loop desc stub env n (i + 1) r.2

/-- Function `ljca_i2c_stub_init`. -/
def ljca_i2c_stub_init (dev : ljca_dev) (desc : ljca_i2c_descriptor) (env : ljca_init_env) :
    Int × ljca_dev :=
  match ljca_stub_alloc dev LJCA_I2C_STUB 0 env.stub_alloc_ok with
  | .error e => (e, dev)
  | .ok (stub, dev1) => ljca_i2c_stub_init_loop desc stub env desc.num 0 dev1

/-- The loop of `ljca_spi_stub_init`, from index `i` for `n` more rounds. -/
def ljca_spi_stub_init_loop (desc : ljca_spi_descriptor) (stub : Nat) (env : ljca_init_env) :
    Nat → Nat → ljca_dev → Int × ljca_dev
  | 0, _, dev => (0, dev)
  | n + 1, i, dev =>
    let spi_info : ljca_spi_info :=
      { id := (desc.info i).id, capacity := (desc.info i).capacity }
    let r := ljca_add_aux_dev dev ljca_aux_name.ljca_spi (dev.stub stub).type (i % 256)
      ((LJCA_ACPI_MATCH_SPI1 + i) % 256) (ljca_platform_data.spi spi_info) (env.aux i)
    if r.1 ≠ 0 then (r.1, ljca_stub_destroy r.2 stub)
    else ljca_spi_stub_init_loop desc stub env n (i + 1) r.2

/-- Function `ljca_spi_stub_init`. -/
def ljca_spi_stub_init (dev : ljca_dev) (desc : ljca_spi_descriptor) (env : ljca_init_env) :
    Int × ljca_dev :=
  match ljca_stub_alloc dev LJCA_SPI_STUB 0 env.stub_alloc_ok with
  | .error e => (e, dev)
  | .ok (stub, dev1) => ljca_spi_stub_init_loop desc stub env desc.num 0 dev1

/-! ## Bring-up: handshake and enumeration -/

/-- Function `ljca_mng_enum_gpio`: `len` is set to the payload budget, the exchange runs
with the probe timeout, the reply length is compared with the descriptor's declared size. -/
def ljca_mng_enum_gpio (st : ljca_state) (stub : Nat) (env : ljca_enum_env) : Int × ljca_state :=
  let r := ljca_stub_write { st with mem := st.mem.store env.len LJCA_MAX_PAYLOAD_SIZE } stub
    LJCA_MNG_ENUM_GPIO none 0 env.buf env.len true LJCA_USB_ENUM_STUB_TIMEOUT_MS env.write
  if r.1 ≠ 0 then r
  else
    let desc := ljca_gpio_descriptor_at r.2.mem env.buf
    if r.2.mem.words env.len ≠ ljca_gpio_descriptor_size desc.bank_num then (-EINVAL, r.2)
    else
      let i := ljca_gpio_stub_init r.2.dev desc env.init
      (i.1, { r.2 with dev := i.2 })

/-- Function `ljca_mng_enum_i2c`: no comparison of the reply length with the descriptor. -/
def ljca_mng_enum_i2c (st : ljca_state) (stub : Nat) (env : ljca_enum_env) : Int × ljca_state :=
  let r := ljca_stub_write { st with mem := st.mem.store env.len LJCA_MAX_PAYLOAD_SIZE } stub
    LJCA_MNG_ENUM_I2C none 0 env.buf env.len true LJCA_USB_ENUM_STUB_TIMEOUT_MS env.write
  if r.1 ≠ 0 then r
  else
    let desc := ljca_i2c_descriptor_at r.2.mem env.buf
    let i := ljca_i2c_stub_init r.2.dev desc env.init
    (i.1, { r.2 with dev := i.2 })

/-- Function `ljca_mng_enum_spi`: no comparison of the reply length with the descriptor. -/
def ljca_mng_enum_spi (st : ljca_state) (stub : Nat) (env : ljca_enum_env) : Int × ljca_state :=
  let r := ljca_stub_write { st with mem := st.mem.store env.len LJCA_MAX_PAYLOAD_SIZE } stub
    LJCA_MNG_ENUM_SPI none 0 env.buf env.len true LJCA_USB_ENUM_STUB_TIMEOUT_MS env.write
  if r.1 ≠ 0 then r
  else
    let desc := ljca_spi_descriptor_at r.2.mem env.buf
    let i := ljca_spi_stub_init r.2.dev desc env.init
    (i.1, { r.2 with dev := i.2 })

/-- The `u32` counter at the start of the management stub's `priv`. -/
def ljca_stub.reset_id (s : ljca_stub) : Nat := s.priv.getD 0 0 % 2 ^ 32

/-- Function `ljca_mng_reset_handshake`: `reset_id_ret` (4 bytes at address `p_ret`) is
zeroed, `ilen` (at address `p_ilen`) is set to 4, the counter is sent and incremented, and
the reply is compared with what was sent. -/
def ljca_mng_reset_handshake (st : ljca_state) (stub p_ret p_ilen : Nat) (env : ljca_write_env) :
    Int × ljca_state :=
  let reset_id := cpu_to_le32 (st.dev.stub stub).reset_id
  let st1 : ljca_state :=
    { st with
      dev := (st.dev.set_stub stub
        { (st.dev.stub stub) with
          priv := (st.dev.stub stub).priv.set 0 (((st.dev.stub stub).reset_id + 1) % 2 ^ 32) }),
      mem := ((st.mem.memcpy p_ret [0, 0, 0, 0] 4).store p_ilen 4) }
  let r := ljca_stub_write st1 stub LJCA_MNG_RESET_NOTIFY (some reset_id) 4 p_ret p_ilen true
    LJCA_USB_WRITE_ACK_TIMEOUT_MS env
  if r.1 ≠ 0 then r
  else if r.2.mem.words p_ilen ≠ 4 ∨ r.2.mem.read4 p_ret ≠ reset_id then (-EINVAL, r.2)
  else (0, r.2)

/-- Function `ljca_mng_link`. -/
def ljca_mng_link (st : ljca_state) (stub : Nat) (env : ljca_link_env) : Int × ljca_state :=
  let r := ljca_mng_reset_handshake st stub env.reset_id_ret env.ilen env.reset
  if r.1 ≠ 0 then r
  else
    let g := ljca_mng_enum_gpio r.2 stub env.gpio
    let i := ljca_mng_enum_i2c g.2 stub env.i2c
    let s := ljca_mng_enum_spi i.2 stub env.spi
    (0, s.2)

/-- Two registries that differ at most in the exchange fields (`ipacket`, `acked`,
`cur_cmd`) of their stubs: same `started`, same children, same number of stubs, and stub by
stub the same type, private data and listeners. -/
def ljca_dev.same_shape (a b : ljca_dev) : Prop :=
  a.started = b.started ∧ a.ljcas = b.ljcas ∧ a.stubs_list.length = b.stubs_list.length ∧
  ∀ j, (a.stub j).type = (b.stub j).type ∧ (a.stub j).priv = (b.stub j).priv ∧
    (a.stub j).event_entrys = (b.stub j).event_entrys

/-- Every fallible step of a child addition succeeds. -/
def ljca_aux_env.all_ok (e : ljca_aux_env) : Bool :=
  e.kzalloc_ok && e.kmemdup_ok && decide (e.init_ret = 0) && decide (e.add_ret = 0)

/-- The zeroed stub `ljca_stub_alloc` links at the tail of the registry. -/
def ljca_stub_fresh (type priv_size : Nat) : ljca_stub :=
  { ipacket := { ibuf_len := 0, ibuf := 0 }, type := type, acked := false, cur_cmd := 0,
    event_entrys := [], priv := List.replicate priv_size 0 }

/-- The child handle of the `k`-th I2C controller of a descriptor: identity `k`, the
capability fields of descriptor entry `k`. -/
def ljca_i2c_child (desc : ljca_i2c_descriptor) (type k : Nat) : ljca :=
  { type := type, id := k,
    auxdev :=
      { name := ljca_aux_name.ljca_i2c, id := k,
        platform_data := ljca_platform_data.i2c
          { id := (desc.info k).id, capacity := (desc.info k).capacity,
            intr_pin := (desc.info k).intr_pin } } }

/-- The child handle of the `k`-th SPI controller of a descriptor: identity `k`, the
capability fields of descriptor entry `k`. -/
def ljca_spi_child (desc : ljca_spi_descriptor) (type k : Nat) : ljca :=
  { type := type, id := k,
    auxdev :=
      { name := ljca_aux_name.ljca_spi, id := k,
        platform_data := ljca_platform_data.spi
          { id := (desc.info k).id, capacity := (desc.info k).capacity } } }

/-- The child handle of the GPIO controller: identity 0, pin count and validity map. -/
def ljca_gpio_child (type num valid_pin_map : Nat) : ljca :=
  { type := type, id := 0,
    auxdev :=
      { name := ljca_aux_name.ljca_gpio, id := 0,
        platform_data := ljca_platform_data.gpio
          { num := num, valid_pin_map := valid_pin_map } } }

/-- State `a` continues state `b` with the same trace and the same `started`, a registry
that has grown at the tail at most, and children that have grown at the tail at most. -/
def ljca_state.grows_from (a b : ljca_state) : Prop :=
  a.trace = b.trace ∧ a.dev.started = b.dev.started ∧
  (∃ l, a.dev.stubs_list = b.dev.stubs_list ++ l) ∧ ∃ c, a.dev.ljcas = b.dev.ljcas ++ c

/-! ## Receive path, registration calls, and the stores into `valid_pin` -/

/-- Number of URB submissions recorded in a trace. -/
def ljca_submits (t : List ljca_io) : Nat :=
  (t.filter (fun e => match e with | ljca_io.submit_urb => true | _ => false)).length

/-- The three completion statuses of an unlinked URB: `-ENOENT`, `-ECONNRESET`,
`-ESHUTDOWN`. -/
def urb.unlinked (u : urb) : Prop :=
  u.status = -ENOENT ∨ u.status = -ECONNRESET ∨ u.status = -ESHUTDOWN

instance (u : urb) : Decidable u.unlinked := by
  unfold urb.unlinked
  infer_instance

/-- One call on the registration interface of the event fan-out, with what the environment
contributes to it (`kzalloc` result and the indeterminate initial value of `ret`). -/
inductive ljca_event_call where
  | register (l : ljca) (event_cb context : Nat) (kzalloc_ok : Bool) (ret_uninit : Int)
  | unregister (l : ljca)

/-- The registry after one registration call. -/
def ljca_event_call.apply (dev : ljca_dev) : ljca_event_call → ljca_dev
  | ljca_event_call.register l event_cb context kzalloc_ok ret_uninit =>
    (ljca_register_event_cb dev l event_cb context kzalloc_ok ret_uninit).2
  | ljca_event_call.unregister l => ljca_unregister_event_cb dev l

/-- The registry after a sequence of registration calls, made one after the other. -/
def ljca_event_calls (dev : ljca_dev) (calls : List ljca_event_call) : ljca_dev :=
  calls.foldl ljca_event_call.apply dev

/-- No two entries of any stub's listener list have the same identity. -/
def ljca_dev.listeners_nodup (dev : ljca_dev) : Prop :=
  ∀ s ∈ dev.stubs_list, (s.event_entrys.map (fun e => e.id)).Nodup

/-- Number of elements of the local `u32 valid_pin[LJCA_MAX_GPIO_NUM / BITS_PER_TYPE(u32)]`
of `ljca_gpio_stub_init`. -/
def ljca_gpio_valid_pin_size : Nat := LJCA_MAX_GPIO_NUM / 32

/-- The indices `i` of the stores `valid_pin[i] = desc->bank_desc[i].valid_pins` made by the
loop `for (i = 0; i < desc->bank_num; i++)`, from index `i` for `n` more rounds, in order. -/
def ljca_gpio_valid_pin_stores : Nat → Nat → List Nat
  | 0, _ => []
  | n + 1, i => i :: ljca_gpio_valid_pin_stores n (i + 1)

/-- The loop of `ljca_gpio_stub_init` with every store checked against the bounds of the
array: `none` as soon as an index falls outside it. -/
def ljca_gpio_valid_pin_loop_checked (desc : ljca_gpio_descriptor) :
    Nat → Nat → List Nat → Option (List Nat)
  | 0, _, valid_pin => some valid_pin
  | n + 1, i, valid_pin =>
    if i < valid_pin.length then
      ljca_gpio_valid_pin_loop_checked desc n (i + 1)
        (valid_pin.set i (desc.bank_desc i).valid_pins)
    else none

/-- Function `ljca_gpio_stub_init` with every store into `valid_pin` checked against the
bounds of the array: `none` where the C function stores outside the array and so has no
defined result, else the result of the function. -/
def ljca_gpio_stub_init_checked (dev : ljca_dev) (desc : ljca_gpio_descriptor)
    (env : ljca_init_env) : Option (Int × ljca_dev) :=
  let gpio_num := desc.pins_per_bank * desc.bank_num
  if gpio_num > LJCA_MAX_GPIO_NUM then some (-EINVAL, dev)
  else
    match ljca_stub_alloc dev LJCA_GPIO_STUB (desc.bank_num * 8) env.stub_alloc_ok with
    | .error e => some (e, dev)
    | .ok (stub, dev1) =>
      match ljca_gpio_valid_pin_loop_checked desc desc.bank_num 0
          [env.valid_pin 0, env.valid_pin 1] with
      | none => none
      | some valid_pin =>
        let gpio_info : ljca_gpio_info :=
          { num := gpio_num, valid_pin_map := bitmap_from_arr32 valid_pin gpio_num }
        let r := ljca_add_aux_dev dev1 ljca_aux_name.ljca_gpio (dev1.stub stub).type 0
          LJCA_ACPI_MATCH_GPIO (ljca_platform_data.gpio gpio_info) (env.aux 0)
        if r.1 ≠ 0 then some (r.1, ljca_stub_destroy r.2 stub) else some (r.1, r.2)

/-! ## Boot image download (drivers/misc/mei/hw-vsc.c) -/

/-- Frame magic `VSC_MAGIC_NUM`. -/
def VSC_MAGIC_NUM : Nat := 0x49505343
/-- Size `VSC_ROM_PKG_SIZE` of a frame sent to the boot ROM. -/
def VSC_ROM_PKG_SIZE : Nat := 256
/-- Command `VSC_CMD_DL_CONT` (fourth enumerator, counted from 0). -/
def VSC_CMD_DL_CONT : Nat := 3

/-- The `sizeof(frame->data.dl_cont.payload)`: `VSC_ROM_PKG_SIZE - 8`. -/
def sizeof_dl_cont_payload : Nat := VSC_ROM_PKG_SIZE - 8

/-- The fields of `struct vsc_rom_master_frame` that `load_boot` fills in: `magic`, `cmd`
and the `dl_cont` member of the union (`end_flag`, `len`, `payload[248]`). -/
structure vsc_rom_master_frame where
  magic : Nat
  cmd : Nat
  end_flag : Nat
  len : Nat
  payload : List Nat
deriving DecidableEq, Repr

/-- The kernel's `min_t(u16, a, b)`: both operands are converted to `u16`, then compared. -/
def min_t_u16 (a b : Nat) : Nat := min (a % 2 ^ 16) (b % 2 ^ 16)

/-- The kernel's `min_t(unsigned int, a, b)`. -/
def min_t_uint (a b : Nat) : Nat := min (a % 2 ^ 32) (b % 2 ^ 32)

/-- Subtraction in `u32`. -/
def u32_sub (a b : Nat) : Nat := (a + 2 ^ 32 - b % 2 ^ 32) % 2 ^ 32

/-- The frame one iteration of `load_boot` builds: zeroed by `memset`, then `magic`, `cmd`,
`len`, `end_flag = (remain == len)` and the first `len` payload bytes copied from `ptr`. -/
def load_boot_frame (image : Nat → Nat) (ptr remain len : Nat) : vsc_rom_master_frame :=
  { magic := VSC_MAGIC_NUM, cmd := VSC_CMD_DL_CONT,
    end_flag := if remain = len then 1 else 0, len := len,
    payload := (List.range len).map (fun k => image (ptr + k))
      ++ List.replicate (sizeof_dl_cont_payload - len) 0 }

/-- The `while (remain > 0)` loop of `load_boot`.  `image` is the memory `data` points
into, `xfer i` the result of the `i`-th call of `vsctp_rom_xfer` (counted from 0), `sent`
the frames handed to `vsctp_rom_xfer` so far.  The first argument bounds the number of
iterations: the result is `none` when the bound is reached with `remain` still positive. -/
def load_boot_loop (image : Nat → Nat) (xfer : Nat → Int) :
    Nat → Nat → Nat → List vsc_rom_master_frame → Option (Int × List vsc_rom_master_frame)
  | 0, _, remain, sent => if remain > 0 then none else some (0, sent)
  | fuel + 1, ptr, remain, sent =>
    if remain > 0 then
      let len := min_t_u16 remain sizeof_dl_cont_payload
      let frame := load_boot_frame image ptr remain len
      let ret := xfer sent.length
      if ret ≠ 0 then some (ret, sent ++ [frame])
      else load_boot_loop image xfer fuel (ptr + len) (u32_sub remain len) (sent ++ [frame])
    else some (0, sent)

/-- Function `load_boot`: `data` is an address (`0` is `NULL`), `size` an `int`; the
result is the return value and the frames sent, in order. -/
def load_boot (fuel : Nat) (image : Nat → Nat) (xfer : Nat → Int) (data : Nat) (size : Int) :
    Option (Int × List vsc_rom_master_frame) :=
  if data = 0 ∨ size = 0 then some (-EINVAL, [])
  else load_boot_loop image xfer fuel data (to_uint size) []

/-- Number of frames of the download of a `size`-byte image: `size / 248` rounded up. -/
def load_boot_frame_count (size : Nat) : Nat := (size + 247) / 248

/-- Frame `j` of the download of the `size`-byte image at `data`, in closed form: the
bytes from offset `248 * j` on, 248 of them or what is left, the end flag on the last frame
only. -/
def load_boot_frame_at (image : Nat → Nat) (data size j : Nat) : vsc_rom_master_frame :=
  { magic := VSC_MAGIC_NUM, cmd := VSC_CMD_DL_CONT,
    end_flag := if j + 1 = load_boot_frame_count size then 1 else 0,
    len := min 248 (size - 248 * j),
    payload := (List.range (min 248 (size - 248 * j))).map (fun k => image (data + 248 * j + k))
      ++ List.replicate (248 - min 248 (size - 248 * j)) 0 }

/-! ## SPI controller (drivers/spi/spi-ljca.c) -/

/-- Bus clock `LJCA_SPI_BUS_MAX_HZ`, the controller's `max_speed_hz`. -/
def LJCA_SPI_BUS_MAX_HZ : Nat := 48000000

/-- Speed index `LJCA_SPI_BUS_SPEED_24M`. -/
def LJCA_SPI_BUS_SPEED_24M : Nat := 0
/-- Speed index `LJCA_SPI_BUS_SPEED_12M`. -/
def LJCA_SPI_BUS_SPEED_12M : Nat := 1
/-- Speed index `LJCA_SPI_BUS_SPEED_8M`. -/
def LJCA_SPI_BUS_SPEED_8M : Nat := 2
/-- Speed index `LJCA_SPI_BUS_SPEED_6M`. -/
def LJCA_SPI_BUS_SPEED_6M : Nat := 3
/-- Speed index `LJCA_SPI_BUS_SPEED_4_8M`. -/
def LJCA_SPI_BUS_SPEED_4_8M : Nat := 4
/-- Speed index `LJCA_SPI_BUS_SPEED_MIN`, the slowest bus speed. -/
def LJCA_SPI_BUS_SPEED_MIN : Nat := LJCA_SPI_BUS_SPEED_4_8M

/-- The kernel's `DIV_ROUND_UP(n, d)`, `((n) + (d) - 1) / (d)`, on `u32` operands
(the driver never calls it with `d = 0`). -/
def DIV_ROUND_UP (n d : Nat) : Nat := u32_sub ((n + d) % 2 ^ 32) 1 / d

/-- The kernel's `min_t(u8, a, b)`: both operands are converted to `u8`, then compared. -/
def min_t_u8 (a b : Nat) : Nat := min (a % 2 ^ 8) (b % 2 ^ 8)

/-- The `u8 div` of `ljca_spi_transfer_one`:
`min_t(u8, LJCA_SPI_BUS_SPEED_MIN, DIV_ROUND_UP(max_speed_hz, speed_hz) / 2 - 1)`, the
second operand being computed in `unsigned int`. -/
def ljca_spi_transfer_one_div (max_speed_hz speed_hz : Nat) : Nat :=
  min_t_u8 LJCA_SPI_BUS_SPEED_MIN (u32_sub (DIV_ROUND_UP max_speed_hz speed_hz / 2) 1)

/-- Errno `EIO`: malformed SPI reply. -/
def EIO : Int := 5

/-- SPI command `LJCA_SPI_INIT`. -/
def LJCA_SPI_INIT : Nat := 1
/-- SPI command `LJCA_SPI_READ`. -/
def LJCA_SPI_READ : Nat := 2
/-- SPI command `LJCA_SPI_WRITE`. -/
def LJCA_SPI_WRITE : Nat := 3
/-- SPI command `LJCA_SPI_WRITEREAD`. -/
def LJCA_SPI_WRITEREAD : Nat := 4
/-- SPI command `LJCA_SPI_DEINIT`. -/
def LJCA_SPI_DEINIT : Nat := 5

/-- Size `LJCA_SPI_BUF_SIZE` of the `obuf` and `ibuf` arrays of `struct ljca_spi_dev`. -/
def LJCA_SPI_BUF_SIZE : Nat := 60
/-- Size of the fixed part of `struct spi_xfer_packet` (packed: `u8 indicator`, `s8 len`). -/
def sizeof_spi_xfer_packet : Nat := 2
/-- Limit `LJCA_SPI_MAX_XFER_SIZE`: `LJCA_SPI_BUF_SIZE - sizeof(struct spi_xfer_packet)`. -/
def LJCA_SPI_MAX_XFER_SIZE : Nat := LJCA_SPI_BUF_SIZE - sizeof_spi_xfer_packet

/-- Mask `LJCA_SPI_XFER_INDICATOR_ID`, `GENMASK(5, 0)`. -/
def LJCA_SPI_XFER_INDICATOR_ID : Nat := 63
/-- Mask `LJCA_SPI_XFER_INDICATOR_CMPL`, `BIT(6)`. -/
def LJCA_SPI_XFER_INDICATOR_CMPL : Nat := 64
/-- Mask `LJCA_SPI_XFER_INDICATOR_INDEX`, `BIT(7)`. -/
def LJCA_SPI_XFER_INDICATOR_INDEX : Nat := 128

/-- The kernel's `FIELD_PREP(mask, val)`: `val` shifted to the position of the lowest set
bit of `mask` (`shift`), then masked. -/
def FIELD_PREP (mask shift val : Nat) : Nat := (val <<< shift) &&& mask

/-- The value of an `s8` object holding the byte `b`. -/
def s8_of_byte (b : Nat) : Int :=
  if b % 256 < 128 then ((b % 256 : Nat) : Int) else ((b % 256 : Nat) : Int) - 256

/-- The kernel's `struct_size(w_packet, data, count)` for `struct spi_xfer_packet`, one
byte per element: `count` is converted to `size_t` and the sum saturates at `SIZE_MAX`. -/
def spi_xfer_packet_struct_size (count : Int) : Nat :=
  if (count % 2 ^ 64).toNat + sizeof_spi_xfer_packet ≥ 2 ^ 64 then 2 ^ 64 - 1
  else (count % 2 ^ 64).toNat + sizeof_spi_xfer_packet

/-- The bytes `n` bytes long at address `a` of byte memory. -/
def ljca_mem.read (m : ljca_mem) (a n : Nat) : List Nat :=
  (List.range n).map (fun k => m.bytes (a + k))

/-- A one-byte store into byte memory. -/
def ljca_mem.store_byte (m : ljca_mem) (a v : Nat) : ljca_mem :=
  { m with bytes := fun x => if x = a then v else m.bytes x }

/-- The fields of `struct ljca_spi_dev` the transfer path uses.  The arrays `obuf` and
`ibuf` live in byte memory: the fields hold their addresses. -/
structure ljca_spi_dev where
  ljca : ljca
  spi_info : ljca_spi_info
  speed : Nat
  mode : Nat
  obuf : Nat
  ibuf : Nat

/-- The `u8 indicator` of an outgoing `struct spi_xfer_packet`. -/
def ljca_spi_indicator (ljca_spi : ljca_spi_dev) (id complete : Nat) : Nat :=
  (FIELD_PREP LJCA_SPI_XFER_INDICATOR_ID 0 id |||
    FIELD_PREP LJCA_SPI_XFER_INDICATOR_CMPL 6 complete |||
    FIELD_PREP LJCA_SPI_XFER_INDICATOR_INDEX 7 ljca_spi.spi_info.id) % 256

/-- Byte memory after `ljca_spi_read_write` has filled in `w_packet` (at `obuf`): the
indicator, then for a read `len = sizeof(u16)` and `cpu_to_le16(len)` as data, for the
other commands `len` itself (stored into an `s8`) and `len` bytes copied from `w_data`. -/
def ljca_spi_w_packet (mem : ljca_mem) (ljca_spi : ljca_spi_dev)
    (w_data len id complete cmd : Nat) : ljca_mem :=
  let m1 := mem.store_byte ljca_spi.obuf (ljca_spi_indicator ljca_spi id complete)
  if cmd = LJCA_SPI_READ then
    ((m1.store_byte (ljca_spi.obuf + 1) 2).store_byte (ljca_spi.obuf + 2) (len % 256)).store_byte
      (ljca_spi.obuf + 3) (len / 256 % 256)
  else
    (m1.store_byte (ljca_spi.obuf + 1) (len % 256)).memcpy (ljca_spi.obuf + 2)
      ((m1.store_byte (ljca_spi.obuf + 1) (len % 256)).read w_data len) len

/-- The `obuf_len` argument `ljca_spi_read_write` passes to `ljca_transfer`:
`struct_size(w_packet, data, w_packet->len)` converted to `unsigned int`. -/
def ljca_spi_obuf_len (mem : ljca_mem) (ljca_spi : ljca_spi_dev) : Nat :=
  spi_xfer_packet_struct_size (s8_of_byte (mem.bytes (ljca_spi.obuf + 1))) % 2 ^ 32

/-- The `s8` field `r_packet->len` of the reply, `r_packet` being the array `ibuf`. -/
def ljca_spi_r_packet_len (mem : ljca_mem) (ljca_spi : ljca_spi_dev) : Int :=
  s8_of_byte (mem.bytes (ljca_spi.ibuf + 1))

/-- Function `ljca_spi_read_write`.  The `int` arguments `len`, `id`, `complete` and `cmd`
are natural numbers (the caller passes no negative value); `w_data` and `r_data` are
addresses (`0` is `NULL`); `p_ibuf_len` is the address of the local `ibuf_len`. -/
def ljca_spi_read_write (st : ljca_state) (ljca_spi : ljca_spi_dev) (w_data r_data : Nat)
    (len id complete cmd : Nat) (p_ibuf_len : Nat) (env : ljca_write_env) : Int × ljca_state :=
  let mem1 := (ljca_spi_w_packet st.mem ljca_spi w_data len id complete cmd).store p_ibuf_len
    LJCA_SPI_BUF_SIZE
  let obuf_len := ljca_spi_obuf_len mem1 ljca_spi
  let r := ljca_transfer { st with mem := mem1 } ljca_spi.ljca (cmd % 256)
    (some (mem1.read ljca_spi.obuf obuf_len)) obuf_len ljca_spi.ibuf p_ibuf_len env
  if r.1 ≠ 0 then r
  else if r.2.mem.words p_ibuf_len < sizeof_spi_xfer_packet ∨
      ljca_spi_r_packet_len r.2.mem ljca_spi ≤ 0 then (- EIO, r.2)
  else if r_data ≠ 0 then
    (0, { r.2 with
          mem := r.2.mem.memcpy r_data
            (r.2.mem.read (ljca_spi.ibuf + 2) (ljca_spi_r_packet_len r.2.mem ljca_spi).toNat)
            (ljca_spi_r_packet_len r.2.mem ljca_spi).toNat })
  else (0, r.2)

/-- The `for (i = 0; remaining > 0; i++)` loop of `ljca_spi_transfer`.  `envs i` is what
the environment contributes to the exchange of iteration `i`.  The first argument bounds
the number of iterations: the result is `none` when the bound is reached with `remaining`
still positive. -/
def ljca_spi_transfer_loop (ljca_spi : ljca_spi_dev) (tx_data rx_data cmd p_ibuf_len : Nat)
    (envs : Nat → ljca_write_env) :
    Nat → Nat → Nat → Nat → ljca_state → Option (Int × ljca_state)
  | 0, _, remaining, _, st => if remaining > 0 then none else some (0, st)
  | fuel + 1, i, remaining, offset, st =>
    if remaining > 0 then
      let cur_len := min_t_uint remaining LJCA_SPI_MAX_XFER_SIZE
      let complete := if cur_len = remaining then 1 else 0
      let r := ljca_spi_read_write st ljca_spi
        (if tx_data ≠ 0 then tx_data + offset else 0)
        (if rx_data ≠ 0 then rx_data + offset else 0)
        cur_len i complete cmd p_ibuf_len (envs i)
      if r.1 ≠ 0 then some r
      else
        ljca_spi_transfer_loop ljca_spi tx_data rx_data cmd p_ibuf_len envs fuel (i + 1)
          (remaining - cur_len) (offset + cur_len) r.2
    else some (0, st)

/-- Function `ljca_spi_transfer`: `tx_data` and `rx_data` are addresses (`0` is `NULL`),
`len` is a `u16`. -/
def ljca_spi_transfer (fuel : Nat) (st : ljca_state) (ljca_spi : ljca_spi_dev)
    (tx_data rx_data len p_ibuf_len : Nat) (envs : Nat → ljca_write_env) :
    Option (Int × ljca_state) :=
  if tx_data ≠ 0 ∧ rx_data ≠ 0 then
    ljca_spi_transfer_loop ljca_spi tx_data rx_data LJCA_SPI_WRITEREAD p_ibuf_len envs fuel 0
      (len % 2 ^ 16) 0 st
  else if tx_data ≠ 0 then
    ljca_spi_transfer_loop ljca_spi tx_data rx_data LJCA_SPI_WRITE p_ibuf_len envs fuel 0
      (len % 2 ^ 16) 0 st
  else if rx_data ≠ 0 then
    ljca_spi_transfer_loop ljca_spi tx_data rx_data LJCA_SPI_READ p_ibuf_len envs fuel 0
      (len % 2 ^ 16) 0 st
  else some (-EINVAL, st)

/-- Mode bit `SPI_CPHA` of the SPI core (`BIT(0)`). -/
def SPI_CPHA : Nat := 1
/-- Mode bit `SPI_CPOL` of the SPI core (`BIT(1)`). -/
def SPI_CPOL : Nat := 2
/-- Mask `LJCA_SPI_CLK_MODE_POLARITY`, `BIT(0)`. -/
def LJCA_SPI_CLK_MODE_POLARITY : Nat := 1
/-- Mask `LJCA_SPI_CLK_MODE_PHASE`, `BIT(1)`. -/
def LJCA_SPI_CLK_MODE_PHASE : Nat := 2

/-- The bytes of the `struct spi_init_packet` (packed: `index`, `speed`, `mode`) that
`ljca_spi_init` sends. -/
def ljca_spi_init_packet (ljca_spi : ljca_spi_dev) (div mode : Nat) : List Nat :=
  [ljca_spi.spi_info.id % 256, div % 256,
   (FIELD_PREP LJCA_SPI_CLK_MODE_POLARITY 0 (if mode &&& SPI_CPOL ≠ 0 then 1 else 0) |||
     FIELD_PREP LJCA_SPI_CLK_MODE_PHASE 1 (if mode &&& SPI_CPHA ≠ 0 then 1 else 0)) % 256]

/-- Function `ljca_spi_init`: nothing is sent when mode and speed are the current ones;
else the init packet is sent and, when the exchange succeeds, mode and speed are recorded. -/
def ljca_spi_init (st : ljca_state) (ljca_spi : ljca_spi_dev) (div mode : Nat)
    (env : ljca_write_env) : Int × ljca_spi_dev × ljca_state :=
  if ljca_spi.mode = mode ∧ ljca_spi.speed = div then (0, ljca_spi, st)
  else
    let r := ljca_transfer st ljca_spi.ljca LJCA_SPI_INIT
      (some (ljca_spi_init_packet ljca_spi div mode)) 3 0 0 env
    if r.1 ≠ 0 then (r.1, ljca_spi, r.2)
    else (0, { ljca_spi with mode := mode, speed := div }, r.2)

/-- The fields of `struct spi_transfer` the driver reads. -/
structure spi_transfer where
  tx_buf : Nat
  rx_buf : Nat
  len : Nat
  speed_hz : Nat

/-- Function `ljca_spi_transfer_one`: `max_speed_hz` is the controller's, `mode` the
device's `spi->mode`; `env_init` is the environment of the init exchange, `envs` that of
the fragments. -/
def ljca_spi_transfer_one (fuel : Nat) (st : ljca_state) (ljca_spi : ljca_spi_dev)
    (max_speed_hz mode : Nat) (xfer : spi_transfer) (p_ibuf_len : Nat)
    (env_init : ljca_write_env) (envs : Nat → ljca_write_env) :
    Option (Int × ljca_spi_dev × ljca_state) :=
  let div := ljca_spi_transfer_one_div max_speed_hz xfer.speed_hz
  let r := ljca_spi_init st ljca_spi div (mode % 256) env_init
  if r.1 ≠ 0 then some r
  else
    (ljca_spi_transfer fuel r.2.2 r.2.1 xfer.tx_buf xfer.rx_buf xfer.len p_ibuf_len envs).map
      (fun t => (t.1, r.2.1, t.2))

/-- The command `ljca_spi_transfer` selects from the two buffer pointers (both `NULL`
excluded). -/
def ljca_spi_transfer_cmd (tx_data rx_data : Nat) : Nat :=
  if tx_data ≠ 0 ∧ rx_data ≠ 0 then LJCA_SPI_WRITEREAD
  else if tx_data ≠ 0 then LJCA_SPI_WRITE
  else LJCA_SPI_READ

/-- One fragment of a transfer as the specification describes it: its number, the offset
of its data in the transfer, its length, and the complete indicator. -/
structure ljca_spi_fragment where
  id : Nat
  offset : Nat
  len : Nat
  complete : Nat
deriving DecidableEq, Repr

/-- Number of fragments of a transfer of `len` bytes: `len / 58` rounded up. -/
def ljca_spi_fragment_count (len : Nat) : Nat := (len + 57) / 58

/-- Fragment `j` of a transfer of `len` bytes as the specification describes it: it starts
at offset `58 * j` and carries 58 bytes, the last one what is left; the complete indicator
is set on the last fragment and on no other. -/
def ljca_spi_fragment_at (len j : Nat) : ljca_spi_fragment :=
  { id := j, offset := 58 * j, len := min 58 (len - 58 * j),
    complete := if j + 1 = ljca_spi_fragment_count len then 1 else 0 }

/-- The fragments of a transfer of `len` bytes as the specification describes them, in
order. -/
def ljca_spi_fragments (len : Nat) : List ljca_spi_fragment :=
  (List.range (ljca_spi_fragment_count len)).map (ljca_spi_fragment_at len)

/-- The call of `ljca_spi_read_write` for one fragment of a transfer. -/
def ljca_spi_fragment.issue (f : ljca_spi_fragment) (st : ljca_state) (ljca_spi : ljca_spi_dev)
    (tx_data rx_data p_ibuf_len : Nat) (envs : Nat → ljca_write_env) : Int × ljca_state :=
  ljca_spi_read_write st ljca_spi
    (if tx_data ≠ 0 then tx_data + f.offset else 0)
    (if rx_data ≠ 0 then rx_data + f.offset else 0)
    f.len f.id f.complete (ljca_spi_transfer_cmd tx_data rx_data) p_ibuf_len (envs f.id)

/-- The fragments of a list issued one after the other, up to and including the first one
that fails; the result is 0 when every fragment succeeded, else the error of the one that
failed. -/
def ljca_spi_issue (ljca_spi : ljca_spi_dev) (tx_data rx_data p_ibuf_len : Nat)
    (envs : Nat → ljca_write_env) : List ljca_spi_fragment → ljca_state → Int × ljca_state
  | [], st => (0, st)
  | f :: fs, st =>
    if (f.issue st ljca_spi tx_data rx_data p_ibuf_len envs).1 ≠ 0 then
      f.issue st ljca_spi tx_data rx_data p_ibuf_len envs
    else
      ljca_spi_issue ljca_spi tx_data rx_data p_ibuf_len envs fs
        (f.issue st ljca_spi tx_data rx_data p_ibuf_len envs).2

/-! ## MEI message read (drivers/misc/mei/hw-vsc.c) -/

/-- What `mei_vsc_read_slots` uses of `struct mei_msg_hdr`, which is declared by the MEI
core and not by this driver: `sizeof(*hdr)` and the value of the bit-field `hdr->length`
read through the cast `(struct mei_msg_hdr *)hw->rx_buf`. -/
structure mei_msg_hdr_decl where
  size : Nat
  length : List Nat → Nat

/-- The fields of `struct mei_vsc_hw` read by `mei_vsc_read_slots`: the `u32 rx_len` and
the bytes of `rx_buf`. -/
structure mei_vsc_hw where
  rx_len : Nat
  rx_buf : List Nat

/-- Function `mei_vsc_read_slots`: `buf` is an address in the byte memory `mem`, `len` an
`unsigned long`; the result is the return value and the memory after the call. -/
def mei_vsc_read_slots (hdr : mei_msg_hdr_decl) (hw : mei_vsc_hw) (mem : Nat → Nat)
    (buf len : Nat) : Int × (Nat → Nat) :=
  if len ≠ hdr.length hw.rx_buf ∨ size_t_add (hdr.length hw.rx_buf) hdr.size ≠ hw.rx_len then
    (-EINVAL, mem)
  else
    (0, fun a => if buf ≤ a ∧ a < buf + len then hw.rx_buf.getD (hdr.size + (a - buf)) 0
      else mem a)

/-! ## Example configurations -/

/-- A GPIO stub (type 3) in the middle of an exchange: command 4 pending, reply buffer at
address 100, capacity variable at address 200. -/
def ex_pending_stub : ljca_stub :=
  { ipacket := { ibuf_len := 200, ibuf := 100 }, type := 3, acked := false, cur_cmd := 4,
    event_entrys := [], priv := [] }


/-- A management stub (type 1) with no exchange pending and no listener. -/
def ex_mng_stub : ljca_stub :=
  { ipacket := { ibuf_len := 0, ibuf := 0 }, type := 1, acked := false, cur_cmd := 0,
    event_entrys := [], priv := [7] }

/-- A GPIO stub (type 3) with one listener: identity 0, callback 77, context 88. -/
def ex_gpio_stub : ljca_stub :=
  { ipacket := { ibuf_len := 0, ibuf := 0 }, type := 3, acked := false, cur_cmd := 0,
    event_entrys := [{ id := 0, notify := 77, context := 88 }], priv := [] }

/-- Caller memory: all zero except the capacity variable at address 200, which holds 3. -/
def ex_mem : ljca_mem :=
  { bytes := fun _ => 0, words := fun a => if a = 200 then 3 else 0 }

/-- A started transport with the management and the GPIO stub. -/
def ex_state : ljca_state :=
  { dev := { started := true, stubs_list := [ex_mng_stub, ex_gpio_stub], ljcas := [] },
    mem := ex_mem, trace := [] }

/-- A started transport whose GPIO stub awaits the reply to command 4. -/
def ex_pending : ljca_state :=
  { dev := { started := true, stubs_list := [ex_mng_stub, ex_pending_stub], ljcas := [] },
    mem := ex_mem, trace := [] }

/-- A 10-byte reply to command 4 on the GPIO stub. -/
def ex_reply : ljca_msg :=
  { type := 3, cmd := 4, flags := 3, len := 10, data := [1, 2, 3, 4, 5, 6, 7, 8, 9, 10] }

/-- The same transport after `ljca_stop`. -/
def ex_stopped : ljca_state :=
  { ex_state with dev := { ex_state.dev with started := false } }

/-- A quiet environment: allocation succeeds, the write is accepted in full (`actual`
bytes), nothing is received. -/
def ex_env (actual : Int) : ljca_write_env :=
  { kmalloc_ok := true, uninit := [], bulk_ret := 0, bulk_actual := actual, rx_write := [],
    rx_wait := [], remaining := 0 }

/-- A response frame for the GPIO stub carrying command 5. -/
def ex_late : ljca_msg :=
  { type := 3, cmd := 5, flags := 3, len := 1, data := [9] }

/-- The example transport after an acknowledged exchange of command 5 on the GPIO stub
(reply buffer at 100, capacity variable at 200) that received nothing and timed out. -/
def ex_abandoned : Int × ljca_state :=
  ljca_stub_write ex_state 1 5 none 0 100 200 true 500 (ex_env 4)

/-- A registry whose GPIO stub has two listeners, identities 0 and 1, and whose I2C stub
has one listener with identity 0. -/
def ex_listeners : ljca_dev :=
  { started := true,
    stubs_list :=
      [ex_mng_stub,
       { ex_gpio_stub with
         event_entrys := [{ id := 0, notify := 77, context := 88 },
                          { id := 1, notify := 78, context := 89 }] },
       { ex_gpio_stub with
         type := 4, event_entrys := [{ id := 0, notify := 79, context := 90 }] }],
    ljcas := [] }

/-- A started transport right after `ljca_mng_init` allocated the management stub, whose
reset counter holds 7. -/
def ex_boot : ljca_state :=
  { dev := { started := true, stubs_list := [ex_mng_stub], ljcas := [] },
    mem := ex_mem, trace := [] }

/-- An environment in which every step of a child addition succeeds. -/
def ex_aux_ok : ljca_aux_env :=
  { kzalloc_ok := true, kmemdup_ok := true, init_ret := 0, add_ret := 0 }

/-- A stub-initialisation environment in which everything succeeds. -/
def ex_init_ok : ljca_init_env :=
  { stub_alloc_ok := true, valid_pin := fun _ => 0, aux := fun _ => ex_aux_ok }

/-- An exchange environment: the write of `actual` bytes succeeds and the peripheral's
reply `reply` is received during the wait (`len` bytes in all). -/
def ex_env_reply (actual : Int) (reply : List Nat) : ljca_write_env :=
  { ex_env actual with
    rx_wait := [{ status := 0, transfer_buffer := reply, actual_length := reply.length }],
    remaining := 1 }

/-- Reply of the peripheral to the reset handshake: the four bytes `echo`. -/
def ex_reset_reply (echo : List Nat) : List Nat :=
  [1, 2, 3, echo.length] ++ echo

/-- GPIO enumeration reply: one bank of 8 pins, all valid. -/
def ex_gpio_reply : List Nat := [1, 4, 3, 8, 8, 1, 0, 8, 255, 0, 0, 0]

/-- I2C enumeration reply: two controllers, (id 0, capacity 1, intr 2) and (id 1, capacity
3, intr 4). -/
def ex_i2c_reply : List Nat := [1, 5, 3, 7, 2, 0, 1, 2, 1, 3, 4]

/-- SPI enumeration reply: one controller, (id 0, capacity 1). -/
def ex_spi_reply : List Nat := [1, 8, 3, 3, 1, 0, 1]

/-- Enumeration environment: locals `buf` at 500 and `len` at 600, the given reply. -/
def ex_enum_env (reply : List Nat) : ljca_enum_env :=
  { buf := 500, len := 600, write := ex_env_reply 4 reply, init := ex_init_ok }

/-- Bring-up environment: handshake locals at 300 and 400, the peripheral echoes `echo`,
then answers the three enumerations. -/
def ex_link_env (echo : List Nat) : ljca_link_env :=
  { reset_id_ret := 300, ilen := 400, reset := ex_env_reply 8 (ex_reset_reply echo),
    gpio := ex_enum_env ex_gpio_reply, i2c := ex_enum_env ex_i2c_reply,
    spi := ex_enum_env ex_spi_reply }

/-- An I2C descriptor with two controllers. -/
def ex_i2c_desc : ljca_i2c_descriptor :=
  { num := 2, info := fun k => { id := k, capacity := 1, intr_pin := 2 + k } }

/-- An SPI descriptor with one controller. -/
def ex_spi_desc : ljca_spi_descriptor :=
  { num := 1, info := fun k => { id := k, capacity := 1 } }

/-- A GPIO descriptor: two banks of 32 pins, all valid. -/
def ex_gpio_desc : ljca_gpio_descriptor :=
  { pins_per_bank := 32, bank_num := 2,
    bank_desc := fun k => { bank_id := k, pin_num := 32, valid_pins := 4294967295 } }

/-- The example transport after a successful GPIO enumeration; the local `buf` at 500
still holds the GPIO descriptor. -/
def ex_after_gpio : ljca_state :=
  (ljca_mng_enum_gpio ex_boot 0 (ex_enum_env ex_gpio_reply)).2

/-- A truncated I2C enumeration reply: one payload byte, declaring two controllers. -/
def ex_i2c_short_reply : List Nat := [1, 5, 3, 1, 2]

/-- A truncated SPI enumeration reply: one payload byte, declaring one controller. -/
def ex_spi_short_reply : List Nat := [1, 8, 3, 1, 1]

/-- A truncated GPIO enumeration reply: one payload byte. -/
def ex_gpio_short_reply : List Nat := [1, 4, 3, 1, 8]

/-- A completion that carries the 10-byte reply `ex_reply` in full. -/
def ex_urb_reply : urb :=
  { status := 0, transfer_buffer := ex_reply.bytes, actual_length := 14 }

/-- The same buffer completed with one byte missing: the frame fails `ljca_validate`. -/
def ex_urb_short : urb :=
  { status := 0, transfer_buffer := ex_reply.bytes, actual_length := 13 }

/-- A sequence of registration calls on the GPIO stub (type 3) and the management stub
(type 1): identity 0 twice, identity 1, removal of 0, identity 0 again, a failed allocation
and a registration whose `ret` starts out non-zero. -/
def ex_event_calls : List ljca_event_call :=
  [ljca_event_call.register { type := 3, id := 0 } 77 88 true 0,
   ljca_event_call.register { type := 3, id := 0 } 78 89 true 0,
   ljca_event_call.register { type := 3, id := 1 } 79 90 true 0,
   ljca_event_call.unregister { type := 3, id := 0 },
   ljca_event_call.register { type := 3, id := 0 } 80 91 true 0,
   ljca_event_call.register { type := 1, id := 2 } 81 92 false 0,
   ljca_event_call.register { type := 1, id := 3 } 82 93 true 5,
   ljca_event_call.register { type := 1, id := 4 } 83 94 true 0]

/-- A GPIO descriptor with three banks of one pin each (3 pins in all), every pin valid. -/
def ex_gpio_desc_3_banks : ljca_gpio_descriptor :=
  { pins_per_bank := 1, bank_num := 3,
    bank_desc := fun k => { bank_id := k, pin_num := 1, valid_pins := 1 } }

/-- GPIO enumeration reply carrying `ex_gpio_desc_3_banks`: 20 payload bytes. -/
def ex_gpio_reply_3_banks : List Nat :=
  [1, 4, 3, 20, 1, 3, 0, 1, 1, 0, 0, 0, 1, 1, 1, 0, 0, 0, 2, 1, 1, 0, 0, 0]

/-- SPI enumeration reply: three controllers, (id 0, capacity 1), (id 1, capacity 1) and
(id 2, capacity 1). -/
def ex_spi_reply_3 : List Nat := [1, 8, 3, 7, 3, 0, 1, 1, 1, 2, 1]

/-- Bring-up environment in which nothing fails on the host side and the peripheral
describes one GPIO bank, two I2C controllers and three SPI controllers: six children for
the five places of `dev->ljcas`. -/
def ex_link_env_6_children : ljca_link_env :=
  { ex_link_env [7, 0, 0, 0] with spi := ex_enum_env ex_spi_reply_3 }

/-- Bring-up environment in which the peripheral describes one GPIO bank, two I2C
controllers and one SPI controller, and the allocation for the second I2C child fails. -/
def ex_link_env_i2c_nomem : ljca_link_env :=
  { ex_link_env [7, 0, 0, 0] with
    i2c :=
      { ex_enum_env ex_i2c_reply with
        init :=
          { ex_init_ok with
            aux := fun i => if i = 1 then { ex_aux_ok with kzalloc_ok := false }
              else ex_aux_ok } } }

/-- The header as the MEI core lays it out: one 32-bit word, `length` being its bits 16
to 24. -/
def ex_mei_msg_hdr : mei_msg_hdr_decl :=
  { size := 4, length := fun b => (b.getD 2 0 + 256 * b.getD 3 0) % 512 }

/-- A received message: header with `length = 8`, then 8 payload bytes, 12 bytes in all. -/
def ex_mei_hw : mei_vsc_hw :=
  { rx_len := 12, rx_buf := [1, 2, 8, 0, 11, 12, 13, 14, 15, 16, 17, 18] }

/-- Byte memory for the SPI examples: the value 7 everywhere from address 2000 to 2199
(the `ibuf` array and what follows it), the bytes 1, 2, 3, ... from address 3000 on (a
transmit buffer), zero elsewhere. -/
def ex_spi_mem : ljca_mem :=
  { bytes := fun a => if 2000 ≤ a ∧ a < 2200 then 7 else if 3000 ≤ a ∧ a < 3200 then a - 2999
      else 0,
    words := fun _ => 0 }

/-- A started transport with the management stub and an SPI stub (type 5), and an SPI
child of identity 0. -/
def ex_spi_state : ljca_state :=
  { dev := { started := true, stubs_list := [ex_mng_stub, ljca_stub_fresh 5 0],
             ljcas := [ljca_spi_child ex_spi_desc 5 0] },
    mem := ex_spi_mem, trace := [] }

/-- The SPI controller of that child: `obuf` at address 1900, `ibuf` at address 2000. -/
def ex_spi_dev : ljca_spi_dev :=
  { ljca := ljca_spi_child ex_spi_desc 5 0, spi_info := { id := 0, capacity := 1 },
    speed := 0, mode := 0, obuf := 1900, ibuf := 2000 }

/-- Reply of the peripheral to a read: a transfer header that declares 127 data bytes, and
no data byte at all (payload length 2). -/
def ex_spi_reply_127 : List Nat := [5, 2, 1, 2, 64, 127]

/-- Environment of the fragments of a 60-byte write: fragment 0 (64 bytes on the wire) is
acknowledged with a transfer header declaring 58 bytes, fragment 1 (8 bytes on the wire)
with one declaring 2 bytes. -/
def ex_spi_envs : Nat → ljca_write_env :=
  fun i => if i = 0 then ex_env_reply 64 [5, 3, 1, 2, 0, 58] else ex_env_reply 8 [5, 3, 1, 2, 64, 2]

/-! ## Wire codec: `ljca_validate` -/

/-- C1: `ljca_validate(header, data_len)` is true exactly when `header->len + 4` equals
`data_len`, for every length byte `0..255` and every 32-bit received length; every
mismatch, shorter or longer, is rejected. -/
theorem ljca_validate_iff (header : ljca_msg) (data_len : Nat) (hlen : header.len < 256) :
    (ljca_validate header data_len = true ↔ header.len + 4 = data_len) ∧
    (header.len + 4 < data_len → ljca_validate header data_len = false) ∧
    (data_len < header.len + 4 → ljca_validate header data_len = false) := by
  have h : size_t_add header.len sizeof_ljca_msg = header.len + 4 := by
    unfold size_t_add sizeof_ljca_msg
    omega
  simp only [ljca_validate, h, beq_iff_eq, beq_eq_false_iff_ne, ne_eq]
  exact ⟨trivial, fun h1 => by omega, fun h1 => by omega⟩

/-- Witness for C1: a 10-byte payload in a 14-byte transfer. -/
theorem ljca_validate_iff_witness :
    (ljca_validate ⟨3, 1, 5, 10, []⟩ 14 = true ↔ 10 + 4 = 14) ∧
    (10 + 4 < 14 → ljca_validate ⟨3, 1, 5, 10, []⟩ 14 = false) ∧
    (14 < 10 + 4 → ljca_validate ⟨3, 1, 5, 10, []⟩ 14 = false) :=
  ljca_validate_iff ⟨3, 1, 5, 10, []⟩ 14 (by decide)

/-! ## Receive path: what it can and cannot change -/

theorem ljca_stub_notify_from_rx (stub : ljca_stub) (cmd : Nat) (d : List Nat) (len : Nat) :
    ∀ e ∈ ljca_stub_notify stub cmd d len, e.from_rx = true := by
  intro e he
  unfold ljca_stub_notify at he
  obtain ⟨x, _, rfl⟩ := List.mem_map.mp he
  rfl

theorem ljca_parse_trace (st : ljca_state) (header : ljca_msg) :
    ∃ rest, (ljca_parse st header).2.trace = st.trace ++ rest ∧
      ∀ e ∈ rest, e.from_rx = true := by
  unfold ljca_parse
  split
  · exact ⟨[], by simp⟩
  · rename_i i stub _
    by_cases h1 : header.flags &&& LJCA_ACK_FLAG = 0
    · rw [if_pos h1]
      exact ⟨_, rfl, ljca_stub_notify_from_rx stub _ _ _⟩
    · rw [if_neg h1]
      by_cases h2 : stub.cur_cmd ≠ (header.cmd : Int)
      · rw [if_pos h2]
        exact ⟨[], by simp⟩
      · rw [if_neg h2]
        refine ⟨[ljca_io.wake_up], rfl, ?_⟩
        intro e he
        rw [List.mem_singleton.mp he]
        rfl

theorem ljca_parse_length (st : ljca_state) (header : ljca_msg) :
    (ljca_parse st header).2.dev.stubs_list.length = st.dev.stubs_list.length := by
  unfold ljca_parse
  split
  · rfl
  · split
    · rfl
    · split
      · rfl
      · simp [ljca_dev.set_stub]

theorem ljca_read_complete_trace (st : ljca_state) (u : urb) :
    ∃ rest, (ljca_read_complete st u).trace = st.trace ++ rest ∧
      ∀ e ∈ rest, e.from_rx = true := by
  obtain ⟨r, hr, hall⟩ := ljca_parse_trace st (ljca_msg_of_buf u.transfer_buffer)
  unfold ljca_read_complete
  simp only []
  split
  · split
    · exact ⟨[], by simp⟩
    · exact ⟨[ljca_io.submit_urb], rfl, by simp [ljca_io.from_rx]⟩
  · split
    · exact ⟨[ljca_io.submit_urb], rfl, by simp [ljca_io.from_rx]⟩
    · refine ⟨r ++ [ljca_io.submit_urb], by simp [hr], ?_⟩
      intro e he
      rcases List.mem_append.mp he with h | h
      · exact hall e h
      · rw [List.mem_singleton.mp h]
        rfl

theorem ljca_read_complete_length (st : ljca_state) (u : urb) :
    (ljca_read_complete st u).dev.stubs_list.length = st.dev.stubs_list.length := by
  unfold ljca_read_complete
  simp only []
  split
  · split <;> rfl
  · split
    · rfl
    · exact ljca_parse_length st _

theorem ljca_rx_trace (us : List urb) : ∀ st : ljca_state,
    ∃ rest, (ljca_rx st us).trace = st.trace ++ rest ∧ ∀ e ∈ rest, e.from_rx = true := by
  induction us with
  | nil => intro st; exact ⟨[], by simp [ljca_rx]⟩
  | cons u us ih =>
    intro st
    obtain ⟨r1, h1, a1⟩ := ljca_read_complete_trace st u
    obtain ⟨r2, h2, a2⟩ := ih (ljca_read_complete st u)
    refine ⟨r1 ++ r2, ?_, ?_⟩
    · have : ljca_rx st (u :: us) = ljca_rx (ljca_read_complete st u) us := rfl
      rw [this, h2, h1, List.append_assoc]
    · intro e he
      rcases List.mem_append.mp he with h | h
      · exact a1 e h
      · exact a2 e h

theorem ljca_rx_length (us : List urb) : ∀ st : ljca_state,
    (ljca_rx st us).dev.stubs_list.length = st.dev.stubs_list.length := by
  induction us with
  | nil => intro st; rfl
  | cons u us ih =>
    intro st
    have : ljca_rx st (u :: us) = ljca_rx (ljca_read_complete st u) us := rfl
    rw [this, ih, ljca_read_complete_length]

theorem ljca_stub_write_unlock_trace (st : ljca_state) (stub : Nat) (ret : Int) :
    (ljca_stub_write_unlock st stub ret).2.trace = st.trace := rfl

theorem ljca_stub_write_unlock_ret (st : ljca_state) (stub : Nat) (ret : Int) :
    (ljca_stub_write_unlock st stub ret).1 = ret := rfl

/-! ## Stub registry: facts about lookup and pointer access -/

theorem ljca_stub_find_loop_some (type : Nat) : ∀ (l : List ljca_stub) (i : Nat) (s : ljca_stub),
    ljca_stub_find_loop type l = some (i, s) → l.get? i = some s ∧ s.type = type := by
  intro l
  induction l with
  | nil => intro i s h; cases h
  | cons x rest ih =>
    intro i s h
    unfold ljca_stub_find_loop at h
    by_cases hx : x.type = type
    · rw [if_pos hx] at h
      cases h
      exact ⟨rfl, hx⟩
    · rw [if_neg hx] at h
      cases hr : ljca_stub_find_loop type rest with
      | none => rw [hr] at h; cases h
      | some r =>
        obtain ⟨j, t⟩ := r
        rw [hr] at h
        cases h
        exact ih j s hr

theorem ljca_stub_find_ok (dev : ljca_dev) (type i : Nat) (s : ljca_stub)
    (h : ljca_stub_find dev type = .ok (i, s)) :
    i < dev.stubs_list.length ∧ dev.stub i = s ∧ s.type = type := by
  unfold ljca_stub_find at h
  cases hl : ljca_stub_find_loop type dev.stubs_list with
  | none => rw [hl] at h; cases h
  | some r =>
    rw [hl] at h
    cases h
    obtain ⟨hget, ht⟩ := ljca_stub_find_loop_some type dev.stubs_list i s hl
    have hi : i < dev.stubs_list.length := by
      by_contra hc
      rw [List.get?_eq_none.mpr (Nat.le_of_not_lt hc)] at hget
      cases hget
    refine ⟨hi, ?_, ht⟩
    unfold ljca_dev.stub
    rw [List.get?_eq_getElem?] at hget
    simp [List.getD_eq_getElem?_getD, hget]

theorem ljca_dev_stub_set_stub (dev : ljca_dev) (i : Nat) (s : ljca_stub)
    (h : i < dev.stubs_list.length) : (dev.set_stub i s).stub i = s := by
  simp [ljca_dev.stub, ljca_dev.set_stub, List.getD_eq_getElem?_getD, h]

theorem ljca_dev_stub_set_stub_ne (dev : ljca_dev) (i j : Nat) (s : ljca_stub) (h : i ≠ j) :
    (dev.set_stub i s).stub j = dev.stub j := by
  simp [ljca_dev.stub, ljca_dev.set_stub, List.getD_eq_getElem?_getD, h]

/-- The command check of `ljca_parse`: an acknowledgement frame whose command is not the
pending one is refused and changes nothing. -/
theorem ljca_parse_refuses_other_cmd (st : ljca_state) (header : ljca_msg) (i : Nat)
    (stub : ljca_stub) (hfind : ljca_stub_find st.dev header.type = .ok (i, stub))
    (hack : header.flags &&& LJCA_ACK_FLAG ≠ 0) (hcmd : stub.cur_cmd ≠ (header.cmd : Int)) :
    ljca_parse st header = (-EINVAL, st) := by
  unfold ljca_parse
  rw [hfind]
  simp only [hack, if_false, hcmd, ne_eq, not_false_eq_true, if_true]

/-! ## Command exchange: the size check -/

/-- The size check of `ljca_stub_write` rejects every payload length from 61 up to
`2^32 - 5` with `-EINVAL`, before anything is built, written or changed. -/
theorem ljca_stub_write_oversize (st : ljca_state) (stub cmd : Nat) (obuf : Option (List Nat))
    (obuf_len ibuf ibuf_len : Nat) (wait_ack : Bool) (timeout : Nat) (env : ljca_write_env)
    (hlo : 60 < obuf_len) (hhi : obuf_len + 4 < 2 ^ 32) :
    ljca_stub_write st stub cmd obuf obuf_len ibuf ibuf_len wait_ack timeout env
      = (-EINVAL, st) := by
  have h : ljca_msg_len obuf_len = 4 + obuf_len := by
    unfold ljca_msg_len size_t_add sizeof_ljca_msg
    omega
  unfold ljca_stub_write
  simp only [h, LJCA_MAX_PACKET_SIZE]
  rw [if_pos (by omega)]

/-- C2 (evaluation at the failing input): for `obuf_len = 4294967295` the envelope plus
payload is far above 64, yet `msg_len` wraps to 3, the size check passes, a 3-byte frame
is written to the outbound pipe, the pending command is recorded and the call returns 0. -/
theorem ljca_stub_write_wrapped_length :
    LJCA_MAX_PACKET_SIZE < sizeof_ljca_msg + 4294967295 ∧
    ljca_msg_len 4294967295 = 3 ∧
    (ljca_stub_write ex_state 0 9 none 4294967295 0 0 false 500 (ex_env 3)).1 = 0 ∧
    (ljca_stub_write ex_state 0 9 none 4294967295 0 0 false 500 (ex_env 3)).2.trace
      = [ljca_io.bulk_out [1, 9, 4]] ∧
    ((ljca_stub_write ex_state 0 9 none 4294967295 0 0 false 500 (ex_env 3)).2.dev.stub 0).cur_cmd
      = 9 := by
  decide

/-! ## Command exchange: the frame on the wire -/

/-- Past the size, allocation and `started` checks, `ljca_stub_write` writes exactly one
frame, the first `msg_len` bytes of the message it built, right after the trace so far. -/
theorem ljca_stub_write_trace (st : ljca_state) (stub cmd : Nat) (obuf : Option (List Nat))
    (obuf_len ibuf ibuf_len : Nat) (wait_ack : Bool) (timeout : Nat) (env : ljca_write_env)
    (hsize : ljca_msg_len obuf_len ≤ LJCA_MAX_PACKET_SIZE) (hk : env.kmalloc_ok = true)
    (hs : st.dev.started = true) :
    ∃ rest,
      (ljca_stub_write st stub cmd obuf obuf_len ibuf ibuf_len wait_ack timeout env).2.trace
        = st.trace ++ ljca_io.bulk_out
            ((ljca_stub_write_msg (st.dev.stub stub).type cmd obuf obuf_len wait_ack
                env.uninit).bytes.take (ljca_msg_len obuf_len)) :: rest := by
  unfold ljca_stub_write
  simp only [hk, hs, Bool.not_true, Bool.false_eq_true, if_false, gt_iff_lt,
    if_neg (Nat.not_lt.mpr hsize)]
  split
  · rw [ljca_stub_write_unlock_trace]
    obtain ⟨r, hr, _⟩ := ljca_rx_trace env.rx_write _
    exact ⟨r, by rw [hr]; simp⟩
  · split
    · rw [ljca_stub_write_unlock_trace]
      obtain ⟨r, hr, _⟩ := ljca_rx_trace env.rx_write _
      exact ⟨r, by rw [hr]; simp⟩
    · split
      · obtain ⟨r, hr, _⟩ := ljca_rx_trace env.rx_write
          { dev := st.dev.set_stub stub
              { (st.dev.stub stub) with
                cur_cmd := (cmd : Int), ipacket := { ibuf_len := ibuf_len, ibuf := ibuf },
                acked := false },
            mem := st.mem,
            trace := st.trace ++ [ljca_io.bulk_out
              ((ljca_stub_write_msg (st.dev.stub stub).type cmd obuf obuf_len wait_ack
                env.uninit).bytes.take (ljca_msg_len obuf_len))] }
        obtain ⟨r2, hr2, _⟩ := ljca_rx_trace env.rx_wait
          { (ljca_rx
              { dev := st.dev.set_stub stub
                  { (st.dev.stub stub) with
                    cur_cmd := (cmd : Int), ipacket := { ibuf_len := ibuf_len, ibuf := ibuf },
                    acked := false },
                mem := st.mem,
                trace := st.trace ++ [ljca_io.bulk_out
                  ((ljca_stub_write_msg (st.dev.stub stub).type cmd obuf obuf_len wait_ack
                    env.uninit).bytes.take (ljca_msg_len obuf_len))] } env.rx_write) with
            trace := (ljca_rx
              { dev := st.dev.set_stub stub
                  { (st.dev.stub stub) with
                    cur_cmd := (cmd : Int), ipacket := { ibuf_len := ibuf_len, ibuf := ibuf },
                    acked := false },
                mem := st.mem,
                trace := st.trace ++ [ljca_io.bulk_out
                  ((ljca_stub_write_msg (st.dev.stub stub).type cmd obuf obuf_len wait_ack
                    env.uninit).bytes.take (ljca_msg_len obuf_len))] } env.rx_write).trace
              ++ [ljca_io.ack_wait timeout] }
        refine ⟨r ++ ljca_io.ack_wait timeout :: r2, ?_⟩
        split
        · rw [ljca_stub_write_unlock_trace, hr2, hr]; simp
        · rw [ljca_stub_write_unlock_trace, hr2, hr]; simp
      · rw [ljca_stub_write_unlock_trace]
        obtain ⟨r, hr, _⟩ := ljca_rx_trace env.rx_write _
        exact ⟨r, by rw [hr]; simp⟩

/-- C3: encode/decode round trip.  For a payload of `n ≤ 60` bytes the frame that
`ljca_stub_write` puts on the outbound pipe is `type, cmd, flags, n` followed by the
payload, `4 + n` bytes long; `flags` is the complete bit plus the ack-requested bit exactly
when an ack is requested, the response bit being clear; reading the `struct ljca_msg`
fields back from those bytes gives the same type, command, flags, length and payload, and
`ljca_validate` accepts the frame with received length `4 + n`. -/
theorem ljca_frame_roundtrip (st : ljca_state) (stub cmd : Nat) (payload : List Nat)
    (ibuf ibuf_len : Nat) (wait_ack : Bool) (timeout : Nat) (env : ljca_write_env)
    (hn : payload.length ≤ 60) (hk : env.kmalloc_ok = true) (hs : st.dev.started = true) :
    ∃ frame flags rest,
      (ljca_stub_write st stub cmd (some payload) payload.length ibuf ibuf_len wait_ack
          timeout env).2.trace = st.trace ++ ljca_io.bulk_out frame :: rest ∧
      frame = (st.dev.stub stub).type :: cmd :: flags :: payload.length :: payload ∧
      frame.length = 4 + payload.length ∧
      flags = LJCA_CMPL_FLAG + (if wait_ack then LJCA_ACK_FLAG else 0) ∧
      (flags &&& LJCA_ACK_FLAG ≠ 0 ↔ wait_ack = true) ∧
      flags &&& LJCA_RESP_FLAG = 0 ∧
      flags &&& LJCA_CMPL_FLAG ≠ 0 ∧
      ljca_msg_of_buf frame =
        { type := (st.dev.stub stub).type, cmd := cmd, flags := flags,
          len := payload.length, data := payload } ∧
      ljca_validate (ljca_msg_of_buf frame) (4 + payload.length) = true := by
  have hlen : ljca_msg_len payload.length = 4 + payload.length := by
    unfold ljca_msg_len size_t_add sizeof_ljca_msg
    omega
  have hsize : ljca_msg_len payload.length ≤ LJCA_MAX_PACKET_SIZE := by
    rw [hlen]
    unfold LJCA_MAX_PACKET_SIZE
    omega
  obtain ⟨rest, hrest⟩ := ljca_stub_write_trace st stub cmd (some payload) payload.length
    ibuf ibuf_len wait_ack timeout env hsize hk hs
  have hframe :
      (ljca_stub_write_msg (st.dev.stub stub).type cmd (some payload) payload.length wait_ack
          env.uninit).bytes.take (ljca_msg_len payload.length)
        = (st.dev.stub stub).type :: cmd :: ljca_stub_write_flags wait_ack
            :: payload.length :: payload := by
    have h256 : payload.length % 256 = payload.length := Nat.mod_eq_of_lt (by omega)
    simp [ljca_stub_write_msg, ljca_msg.bytes, hlen, h256, List.take_succ_cons]
    omega
  rw [hframe] at hrest
  refine ⟨_, ljca_stub_write_flags wait_ack, rest, hrest, rfl, ?_, ?_, ?_, ?_, ?_, ?_, ?_⟩
  · simp only [List.length_cons]
    omega
  · cases wait_ack <;> decide
  · cases wait_ack <;> decide
  · cases wait_ack <;> decide
  · cases wait_ack <;> decide
  · simp [ljca_msg_of_buf]
  · have h : size_t_add payload.length sizeof_ljca_msg = 4 + payload.length := by
      unfold size_t_add sizeof_ljca_msg
      omega
    simp [ljca_msg_of_buf, ljca_validate, h]

/-- Witness for C3: a 2-byte payload sent with ack on the management stub. -/
theorem ljca_frame_roundtrip_witness :
    ∃ frame flags rest,
      (ljca_stub_write ex_state 0 9 (some [10, 11]) [10, 11].length 100 200 true
          500 (ex_env 6)).2.trace = ex_state.trace ++ ljca_io.bulk_out frame :: rest ∧
      frame = (ex_state.dev.stub 0).type :: 9 :: flags :: [10, 11].length :: [10, 11] ∧
      frame.length = 4 + [10, 11].length ∧
      flags = LJCA_CMPL_FLAG + (if true = true then LJCA_ACK_FLAG else 0) ∧
      (flags &&& LJCA_ACK_FLAG ≠ 0 ↔ true = true) ∧
      flags &&& LJCA_RESP_FLAG = 0 ∧
      flags &&& LJCA_CMPL_FLAG ≠ 0 ∧
      ljca_msg_of_buf frame =
        { type := (ex_state.dev.stub 0).type, cmd := 9, flags := flags,
          len := [10, 11].length, data := [10, 11] } ∧
      ljca_validate (ljca_msg_of_buf frame) (4 + [10, 11].length) = true :=
  ljca_frame_roundtrip ex_state 0 9 [10, 11] 100 200 true 500 (ex_env 6) (by decide) rfl rfl

/-! ## Command exchange: transport not started -/

/-- C4 (counterexample): on a stopped transport a 100-byte payload is answered with
`-EINVAL` by the size check, not with `-ENODEV`. -/
theorem ljca_stub_write_stopped_oversize :
    ex_stopped.dev.started = false ∧
    (ljca_stub_write ex_stopped 0 9 none 100 0 0 true 500 (ex_env 0)).1 = -EINVAL ∧
    (ljca_stub_write ex_stopped 0 9 none 100 0 0 true 500 (ex_env 0)).1 ≠ -ENODEV := by
  decide

/-- C4 (amended): when `started` is false, `ljca_stub_write`, `ljca_transfer` and
`ljca_transfer_noack` return the state as it was (nothing written on the outbound pipe,
pending command, acknowledged flag and reply-buffer installation untouched); the result of
`ljca_stub_write` is `-EINVAL` when the size check fails, else `-ENOMEM` when the frame
allocation fails, else the not-ready error `-ENODEV`, and the result of the two transfer
functions is `-ENODEV` whenever size check and allocation pass. -/
theorem ljca_stub_write_not_started (st : ljca_state) (stub cmd : Nat)
    (obuf : Option (List Nat)) (obuf_len ibuf ibuf_len : Nat) (wait_ack : Bool) (timeout : Nat)
    (env : ljca_write_env) (l : ljca) (hs : st.dev.started = false) :
    (ljca_stub_write st stub cmd obuf obuf_len ibuf ibuf_len wait_ack timeout env).2 = st ∧
    (ljca_stub_write st stub cmd obuf obuf_len ibuf ibuf_len wait_ack timeout env).1
      = (if LJCA_MAX_PACKET_SIZE < ljca_msg_len obuf_len then -EINVAL
         else if env.kmalloc_ok = false then -ENOMEM else -ENODEV) ∧
    (ljca_transfer st l cmd obuf obuf_len ibuf ibuf_len env).2 = st ∧
    (ljca_transfer_noack st l cmd obuf obuf_len env).2 = st ∧
    (ljca_msg_len obuf_len ≤ LJCA_MAX_PACKET_SIZE → env.kmalloc_ok = true →
      (ljca_transfer st l cmd obuf obuf_len ibuf ibuf_len env).1 = -ENODEV ∧
      (ljca_transfer_noack st l cmd obuf obuf_len env).1 = -ENODEV) := by
  have key : ∀ (i : Nat) (ib il : Nat) (w : Bool) (t : Nat),
      ljca_stub_write st i cmd obuf obuf_len ib il w t env
        = (if LJCA_MAX_PACKET_SIZE < ljca_msg_len obuf_len then -EINVAL
           else if env.kmalloc_ok = false then -ENOMEM else -ENODEV, st) := by
    intro i ib il w t
    unfold ljca_stub_write
    simp only [hs, gt_iff_lt]
    by_cases h1 : LJCA_MAX_PACKET_SIZE < ljca_msg_len obuf_len
    · simp [h1]
    · cases hk : env.kmalloc_ok <;> simp [h1]
  have tr : ∀ (ib il : Nat) (w : Bool),
      (ljca_transfer_internal st l cmd obuf obuf_len ib il w env).2 = st ∧
      (ljca_msg_len obuf_len ≤ LJCA_MAX_PACKET_SIZE → env.kmalloc_ok = true →
        (ljca_transfer_internal st l cmd obuf obuf_len ib il w env).1 = -ENODEV) := by
    intro ib il w
    unfold ljca_transfer_internal
    cases hf : ljca_stub_find st.dev l.type with
    | error e =>
      refine ⟨rfl, fun _ _ => ?_⟩
      unfold ljca_stub_find at hf
      split at hf
      · cases hf
      · cases hf
        rfl
    | ok r =>
      obtain ⟨i, s⟩ := r
      simp only [key]
      refine ⟨trivial, fun h1 h2 => ?_⟩
      simp [Nat.not_lt.mpr h1, h2]
  refine ⟨by rw [key], by rw [key], (tr ibuf ibuf_len true).1, (tr 0 0 false).1, ?_⟩
  intro h1 h2
  exact ⟨(tr ibuf ibuf_len true).2 h1 h2, (tr 0 0 false).2 h1 h2⟩

/-- Witness for C4 (amended): a 2-byte command on the stopped example transport. -/
theorem ljca_stub_write_not_started_witness :
    (ljca_stub_write ex_stopped 0 9 (some [10, 11]) 2 100 200 true 500 (ex_env 6)).2
      = ex_stopped ∧
    (ljca_stub_write ex_stopped 0 9 (some [10, 11]) 2 100 200 true 500 (ex_env 6)).1
      = (if LJCA_MAX_PACKET_SIZE < ljca_msg_len 2 then -EINVAL
         else if (ex_env 6).kmalloc_ok = false then -ENOMEM else -ENODEV) ∧
    (ljca_transfer ex_stopped { type := 3, id := 0 } 9 (some [10, 11]) 2 100 200 (ex_env 6)).2 = ex_stopped ∧
    (ljca_transfer_noack ex_stopped { type := 3, id := 0 } 9 (some [10, 11]) 2 (ex_env 6)).2 = ex_stopped ∧
    (ljca_msg_len 2 ≤ LJCA_MAX_PACKET_SIZE → (ex_env 6).kmalloc_ok = true →
      (ljca_transfer ex_stopped { type := 3, id := 0 } 9 (some [10, 11]) 2 100 200 (ex_env 6)).1 = -ENODEV ∧
      (ljca_transfer_noack ex_stopped { type := 3, id := 0 } 9 (some [10, 11]) 2 (ex_env 6)).1 = -ENODEV) :=
  ljca_stub_write_not_started ex_stopped 0 9 (some [10, 11]) 2 100 200 true 500 (ex_env 6)
    { type := 3, id := 0 } rfl

/-! ## Inbound dispatcher: events and acknowledgements -/

/-- C5 (counterexample): a frame for the GPIO stub with only the response flag (bit 1) set
is delivered to the stub's listener as an event, and a frame with only bit 0 set (response
flag clear) is handled as an acknowledgement: no callback, `-EINVAL` on the command check. -/
theorem ljca_parse_ignores_resp_flag :
    (2 &&& LJCA_RESP_FLAG ≠ 0) ∧
    ljca_stub_find ex_state.dev 3 = .ok (1, ex_gpio_stub) ∧
    (ljca_parse ex_state { type := 3, cmd := 4, flags := 2, len := 1, data := [9] }).2.trace
      = [ljca_io.event_cb 77 88 4 [9] 1] ∧
    (1 &&& LJCA_RESP_FLAG = 0) ∧
    (ljca_parse ex_state { type := 3, cmd := 4, flags := 1, len := 1, data := [9] }).1
      = -EINVAL ∧
    (ljca_parse ex_state { type := 3, cmd := 4, flags := 1, len := 1, data := [9] }).2.trace
      = [] :=
  ⟨by decide, rfl, by decide, by decide, by decide, by decide⟩

/-- C5 (amended): for every inbound frame whose stub exists, `ljca_parse` classifies it by
bit 0 of the flags (`LJCA_ACK_FLAG`) and by nothing else in the flags.  With bit 0 clear
the frame is an event: the result is 0, the command, payload and length go to
`ljca_stub_notify`, and device state and caller memory (acknowledged flag, reply buffer)
are untouched.  With bit 0 set the frame is handled as an acknowledgement and no event
callback is invoked. -/
theorem ljca_parse_classifies_by_ack_flag (st : ljca_state) (header : ljca_msg) (i : Nat)
    (stub : ljca_stub) (hfind : ljca_stub_find st.dev header.type = .ok (i, stub)) :
    (header.flags &&& LJCA_ACK_FLAG = 0 →
      ljca_parse st header
        = (0, { st with trace := st.trace
                  ++ ljca_stub_notify stub header.cmd header.data header.len })) ∧
    (header.flags &&& LJCA_ACK_FLAG ≠ 0 →
      (ljca_parse st header).2.trace = st.trace ∨
      (ljca_parse st header).2.trace = st.trace ++ [ljca_io.wake_up]) ∧
    (∀ flags, flags &&& LJCA_ACK_FLAG = header.flags &&& LJCA_ACK_FLAG →
      ljca_parse st { header with flags := flags } = ljca_parse st header) := by
  refine ⟨?_, ?_, ?_⟩
  · intro h0
    unfold ljca_parse
    rw [hfind]
    simp only [h0, if_true]
  · intro h1
    unfold ljca_parse
    rw [hfind]
    simp only [h1, if_false]
    split
    · exact Or.inl rfl
    · exact Or.inr rfl
  · intro flags hf
    unfold ljca_parse
    simp only [hfind, hf]

/-- Witness for C5 (amended): the GPIO stub of the example transport. -/
theorem ljca_parse_classifies_by_ack_flag_witness :
    ((2 : Nat) &&& LJCA_ACK_FLAG = 0 →
      ljca_parse ex_state { type := 3, cmd := 4, flags := 2, len := 1, data := [9] }
        = (0, { ex_state with trace := ex_state.trace
                  ++ ljca_stub_notify ex_gpio_stub 4 [9] 1 })) ∧
    ((2 : Nat) &&& LJCA_ACK_FLAG ≠ 0 →
      (ljca_parse ex_state { type := 3, cmd := 4, flags := 2, len := 1, data := [9] }).2.trace
        = ex_state.trace ∨
      (ljca_parse ex_state { type := 3, cmd := 4, flags := 2, len := 1, data := [9] }).2.trace
        = ex_state.trace ++ [ljca_io.wake_up]) ∧
    (∀ flags, flags &&& LJCA_ACK_FLAG = (2 : Nat) &&& LJCA_ACK_FLAG →
      ljca_parse ex_state
          { ({ type := 3, cmd := 4, flags := 2, len := 1, data := [9] } : ljca_msg) with
            flags := flags }
        = ljca_parse ex_state { type := 3, cmd := 4, flags := 2, len := 1, data := [9] }) :=
  ljca_parse_classifies_by_ack_flag ex_state
    { type := 3, cmd := 4, flags := 2, len := 1, data := [9] } 1 ex_gpio_stub rfl

/-- C6: a frame handled as an acknowledgement (bit 0 of the flags set, stub found) whose
command differs from the stub's `cur_cmd` makes `ljca_parse` return `-EINVAL` with the
whole state as it was: nothing copied into the reply buffer, the capacity variable not
written, the acknowledged flag not set, no wake-up. -/
theorem ljca_parse_cmd_mismatch (st : ljca_state) (header : ljca_msg) (i : Nat)
    (stub : ljca_stub) (hfind : ljca_stub_find st.dev header.type = .ok (i, stub))
    (hack : header.flags &&& LJCA_ACK_FLAG ≠ 0) (hcmd : stub.cur_cmd ≠ (header.cmd : Int)) :
    ljca_parse st header = (-EINVAL, st) := by
  unfold ljca_parse
  rw [hfind]
  simp only [hack, if_false, hcmd, ne_eq, not_false_eq_true, if_true]

/-- Witness for C6: the GPIO stub has `cur_cmd = 0`, the frame carries command 4. -/
theorem ljca_parse_cmd_mismatch_witness :
    ljca_parse ex_state { type := 3, cmd := 4, flags := 3, len := 1, data := [9] }
      = (-EINVAL, ex_state) :=
  ljca_parse_cmd_mismatch ex_state { type := 3, cmd := 4, flags := 3, len := 1, data := [9] }
    1 ex_gpio_stub rfl (by decide) (by decide)

/-- C7: an acknowledgement frame (bit 0 of the flags set, stub found) whose command equals
the pending command, with declared payload length `L = header->len` and an installed reply
buffer whose capacity variable holds `C`, makes `ljca_parse` return 0, copy the first
`min L C` payload bytes in order to the reply buffer and nothing else to byte memory, store
`min L C` in the capacity variable and in no other, and set the acknowledged flag. -/
theorem ljca_parse_ack_copies_min (st : ljca_state) (header : ljca_msg) (i : Nat)
    (stub : ljca_stub) (hfind : ljca_stub_find st.dev header.type = .ok (i, stub))
    (hack : header.flags &&& LJCA_ACK_FLAG ≠ 0) (hcmd : stub.cur_cmd = (header.cmd : Int))
    (hibuf : stub.ipacket.ibuf ≠ 0) (hilen : stub.ipacket.ibuf_len ≠ 0)
    (hL : header.len < 256) (hC : st.mem.words stub.ipacket.ibuf_len < 2 ^ 32)
    (hdata : header.len ≤ header.data.length) :
    (ljca_parse st header).1 = 0 ∧
    (∀ k, k < min header.len (st.mem.words stub.ipacket.ibuf_len) →
      header.data.get? k = some ((ljca_parse st header).2.mem.bytes (stub.ipacket.ibuf + k))) ∧
    (∀ a, a < stub.ipacket.ibuf ∨
        stub.ipacket.ibuf + min header.len (st.mem.words stub.ipacket.ibuf_len) ≤ a →
      (ljca_parse st header).2.mem.bytes a = st.mem.bytes a) ∧
    (ljca_parse st header).2.mem.words stub.ipacket.ibuf_len
      = min header.len (st.mem.words stub.ipacket.ibuf_len) ∧
    (∀ p, p ≠ stub.ipacket.ibuf_len →
      (ljca_parse st header).2.mem.words p = st.mem.words p) ∧
    ((ljca_parse st header).2.dev.stub i).acked = true := by
  obtain ⟨hi, _, _⟩ := ljca_stub_find_ok st.dev header.type i stub hfind
  have hLm : header.len % 2 ^ 32 = header.len := Nat.mod_eq_of_lt (by omega)
  have hCm : st.mem.words stub.ipacket.ibuf_len % 2 ^ 32 = st.mem.words stub.ipacket.ibuf_len :=
    Nat.mod_eq_of_lt hC
  have hp : ljca_parse st header
      = (0, { dev := st.dev.set_stub i { stub with acked := true },
              mem := (st.mem.store stub.ipacket.ibuf_len
                  (min header.len (st.mem.words stub.ipacket.ibuf_len))).memcpy
                stub.ipacket.ibuf header.data
                (min header.len (st.mem.words stub.ipacket.ibuf_len)),
              trace := st.trace ++ [ljca_io.wake_up] }) := by
    unfold ljca_parse
    rw [hfind]
    simp only [hack, if_false, hcmd, ne_eq, not_true_eq_false, hibuf, hilen, not_false_eq_true,
      and_self, if_true, hLm, hCm]
  rw [hp]
  refine ⟨rfl, ?_, ?_, ?_, ?_, ?_⟩
  · intro k hk
    have hkd : k < header.data.length := by omega
    simp only [ljca_mem.memcpy, ljca_mem.store]
    rw [if_pos ⟨by omega, by omega⟩]
    simp [List.getD_eq_getElem?_getD, hkd]
  · intro a ha
    simp only [ljca_mem.memcpy, ljca_mem.store]
    rw [if_neg (by omega)]
  · simp [ljca_mem.memcpy, ljca_mem.store]
  · intro p hp2
    simp [ljca_mem.memcpy, ljca_mem.store, hp2]
  · simp only []
    rw [ljca_dev_stub_set_stub _ _ _ hi]

/-- Witness for C7: capacity 3, declared payload length 10. -/
theorem ljca_parse_ack_copies_min_witness :
    (ljca_parse ex_pending ex_reply).1 = 0 ∧
    (∀ k, k < min ex_reply.len (ex_pending.mem.words ex_pending_stub.ipacket.ibuf_len) →
      ex_reply.data.get? k
        = some ((ljca_parse ex_pending ex_reply).2.mem.bytes
            (ex_pending_stub.ipacket.ibuf + k))) ∧
    (∀ a, a < ex_pending_stub.ipacket.ibuf ∨
        ex_pending_stub.ipacket.ibuf
          + min ex_reply.len (ex_pending.mem.words ex_pending_stub.ipacket.ibuf_len) ≤ a →
      (ljca_parse ex_pending ex_reply).2.mem.bytes a = ex_pending.mem.bytes a) ∧
    (ljca_parse ex_pending ex_reply).2.mem.words ex_pending_stub.ipacket.ibuf_len
      = min ex_reply.len (ex_pending.mem.words ex_pending_stub.ipacket.ibuf_len) ∧
    (∀ p, p ≠ ex_pending_stub.ipacket.ibuf_len →
      (ljca_parse ex_pending ex_reply).2.mem.words p = ex_pending.mem.words p) ∧
    ((ljca_parse ex_pending ex_reply).2.dev.stub 1).acked = true :=
  ljca_parse_ack_copies_min ex_pending ex_reply 1 ex_pending_stub rfl (by decide) (by decide)
    (by decide) (by decide) (by decide) (by decide) (by decide)

/-- The scenario of C7 evaluated: capacity 3 and a 10-byte reply give exactly 3 bytes
copied (the fourth byte of the buffer keeps its old value) and reported length 3. -/
theorem ljca_parse_ack_capacity_3_reply_10 :
    min ex_reply.len (ex_pending.mem.words 200) = 3 ∧
    (ljca_parse ex_pending ex_reply).1 = 0 ∧
    (ljca_parse ex_pending ex_reply).2.mem.bytes 100 = 1 ∧
    (ljca_parse ex_pending ex_reply).2.mem.bytes 101 = 2 ∧
    (ljca_parse ex_pending ex_reply).2.mem.bytes 102 = 3 ∧
    (ljca_parse ex_pending ex_reply).2.mem.bytes 103 = 0 ∧
    (ljca_parse ex_pending ex_reply).2.mem.words 200 = 3 ∧
    ((ljca_parse ex_pending ex_reply).2.dev.stub 1).acked = true := by
  decide

/-! ## Command exchange: how an exchange ends -/

theorem ljca_parse_mem_of_null (st : ljca_state) (header : ljca_msg)
    (hnull : ∀ i s, ljca_stub_find st.dev header.type = .ok (i, s) →
      s.ipacket.ibuf = 0 ∨ s.ipacket.ibuf_len = 0) :
    (ljca_parse st header).2.mem = st.mem := by
  unfold ljca_parse
  split
  · rfl
  · rename_i i stub hf
    split
    · rfl
    · split
      · rfl
      · have h := hnull i stub hf
        have hc : ¬ (stub.ipacket.ibuf ≠ 0 ∧ stub.ipacket.ibuf_len ≠ 0) := by
          rintro ⟨h1, h2⟩
          rcases h with h | h
          · exact h1 h
          · exact h2 h
        simp only [hc, if_false]

theorem ljca_stub_write_unlock_ipacket (st : ljca_state) (stub : Nat) (ret : Int)
    (h : stub < st.dev.stubs_list.length) :
    ((ljca_stub_write_unlock st stub ret).2.dev.stub stub).ipacket
      = { ibuf_len := 0, ibuf := 0 } := by
  unfold ljca_stub_write_unlock
  simp only []
  rw [ljca_dev_stub_set_stub _ _ _ h]

/-- Past the size, allocation and `started` checks every path of `ljca_stub_write` leaves
through `error_unlock`. -/
theorem ljca_stub_write_ends_unlock (st : ljca_state) (stub cmd : Nat)
    (obuf : Option (List Nat)) (obuf_len ibuf ibuf_len : Nat) (wait_ack : Bool) (timeout : Nat)
    (env : ljca_write_env) (hsize : ljca_msg_len obuf_len ≤ LJCA_MAX_PACKET_SIZE)
    (hk : env.kmalloc_ok = true) (hs : st.dev.started = true) :
    ∃ s r, ljca_stub_write st stub cmd obuf obuf_len ibuf ibuf_len wait_ack timeout env
        = ljca_stub_write_unlock s stub r ∧
      s.dev.stubs_list.length = st.dev.stubs_list.length := by
  unfold ljca_stub_write
  simp only [hk, hs, Bool.not_true, Bool.false_eq_true, if_false, gt_iff_lt,
    if_neg (Nat.not_lt.mpr hsize)]
  split
  · exact ⟨_, _, rfl, by rw [ljca_rx_length]; simp [ljca_dev.set_stub]⟩
  · split
    · exact ⟨_, _, rfl, by rw [ljca_rx_length]; simp [ljca_dev.set_stub]⟩
    · split
      · split
        · exact ⟨_, _, rfl, by rw [ljca_rx_length, ljca_rx_length]; simp [ljca_dev.set_stub]⟩
        · exact ⟨_, _, rfl, by rw [ljca_rx_length, ljca_rx_length]; simp [ljca_dev.set_stub]⟩
      · exact ⟨_, _, rfl, by rw [ljca_rx_length]; simp [ljca_dev.set_stub]⟩

/-- C8: for every call of `ljca_stub_write` that gets past the size and `started` checks,
whatever the write result, the frames received meanwhile and the outcome of the wait, the
stub's `ipacket.ibuf` and `ipacket.ibuf_len` are `NULL` in the state the call returns, and
a frame for that stub processed by `ljca_parse` in that state leaves caller memory as it
is. -/
theorem ljca_stub_write_clears_ipacket (st : ljca_state) (stub cmd : Nat)
    (obuf : Option (List Nat)) (obuf_len ibuf ibuf_len : Nat) (wait_ack : Bool) (timeout : Nat)
    (env : ljca_write_env) (hsize : ljca_msg_len obuf_len ≤ LJCA_MAX_PACKET_SIZE)
    (hk : env.kmalloc_ok = true) (hs : st.dev.started = true)
    (hstub : stub < st.dev.stubs_list.length) :
    ((ljca_stub_write st stub cmd obuf obuf_len ibuf ibuf_len wait_ack timeout env).2.dev.stub
        stub).ipacket = { ibuf_len := 0, ibuf := 0 } ∧
    ∀ (header : ljca_msg) (s : ljca_stub),
      ljca_stub_find
          (ljca_stub_write st stub cmd obuf obuf_len ibuf ibuf_len wait_ack timeout env).2.dev
          header.type = .ok (stub, s) →
      (ljca_parse
          (ljca_stub_write st stub cmd obuf obuf_len ibuf ibuf_len wait_ack timeout env).2
          header).2.mem
        = (ljca_stub_write st stub cmd obuf obuf_len ibuf ibuf_len wait_ack timeout env).2.mem := by
  obtain ⟨s0, r, heq, hlen⟩ := ljca_stub_write_ends_unlock st stub cmd obuf obuf_len ibuf
    ibuf_len wait_ack timeout env hsize hk hs
  rw [heq]
  have hnull := ljca_stub_write_unlock_ipacket s0 stub r (by omega)
  refine ⟨hnull, ?_⟩
  intro header s hfind
  apply ljca_parse_mem_of_null
  intro i s2 hf
  rw [hfind] at hf
  cases hf
  obtain ⟨_, hs2, _⟩ := ljca_stub_find_ok _ _ _ _ hfind
  rw [← hs2, hnull]
  exact Or.inl rfl

/-- Witness for C8: an acknowledged exchange on the GPIO stub that times out. -/
theorem ljca_stub_write_clears_ipacket_witness :
    ((ljca_stub_write ex_state 1 5 none 0 100 200 true 500 (ex_env 4)).2.dev.stub
        1).ipacket = { ibuf_len := 0, ibuf := 0 } ∧
    ∀ (header : ljca_msg) (s : ljca_stub),
      ljca_stub_find
          (ljca_stub_write ex_state 1 5 none 0 100 200 true 500 (ex_env 4)).2.dev
          header.type = .ok (1, s) →
      (ljca_parse
          (ljca_stub_write ex_state 1 5 none 0 100 200 true 500 (ex_env 4)).2
          header).2.mem
        = (ljca_stub_write ex_state 1 5 none 0 100 200 true 500 (ex_env 4)).2.mem :=
  ljca_stub_write_clears_ipacket ex_state 1 5 none 0 100 200 true 500 (ex_env 4)
    (by decide) rfl rfl (by decide)

/-! ## Command exchange: write failures -/

theorem ljca_waits_append_from_rx (t r : List ljca_io) (h : ∀ e ∈ r, e.from_rx = true) :
    ljca_waits (t ++ r) = ljca_waits t := by
  unfold ljca_waits
  rw [List.filter_append]
  have : r.filter (fun e => match e with | ljca_io.ack_wait _ => true | _ => false) = [] := by
    rw [List.filter_eq_nil_iff]
    intro e he
    have := h e he
    cases e <;> simp_all [ljca_io.from_rx]
  rw [this, List.append_nil]

theorem ljca_waits_append_bulk_out (t : List ljca_io) (f : List Nat) :
    ljca_waits (t ++ [ljca_io.bulk_out f]) = ljca_waits t := by
  unfold ljca_waits
  rw [List.filter_append]
  simp

/-- C10: in a call of `ljca_stub_write` that reaches the write, an error reported by
`usb_bulk_msg` is returned as it is, and a write reported successful whose accepted byte
count differs from the frame length `msg_len` (which is `4 + obuf_len` for every payload
of at most 60 bytes) gives `-EINVAL`; in both cases the caller does not sleep on the ack
wait queue, with or without `wait_ack`. -/
theorem ljca_stub_write_write_failure (st : ljca_state) (stub cmd : Nat)
    (obuf : Option (List Nat)) (obuf_len ibuf ibuf_len : Nat) (wait_ack : Bool) (timeout : Nat)
    (env : ljca_write_env) (hsize : ljca_msg_len obuf_len ≤ LJCA_MAX_PACKET_SIZE)
    (hk : env.kmalloc_ok = true) (hs : st.dev.started = true) :
    (env.bulk_ret ≠ 0 →
      (ljca_stub_write st stub cmd obuf obuf_len ibuf ibuf_len wait_ack timeout env).1
        = env.bulk_ret ∧
      ljca_waits
          (ljca_stub_write st stub cmd obuf obuf_len ibuf ibuf_len wait_ack timeout env).2.trace
        = ljca_waits st.trace) ∧
    (env.bulk_ret = 0 → to_uint env.bulk_actual ≠ ljca_msg_len obuf_len →
      (ljca_stub_write st stub cmd obuf obuf_len ibuf ibuf_len wait_ack timeout env).1
        = -EINVAL ∧
      ljca_waits
          (ljca_stub_write st stub cmd obuf obuf_len ibuf ibuf_len wait_ack timeout env).2.trace
        = ljca_waits st.trace) ∧
    (obuf_len ≤ 60 → ljca_msg_len obuf_len = 4 + obuf_len) := by
  have hw : ∀ (d : ljca_dev) (f : List Nat),
      ljca_waits
          (ljca_rx { dev := d, mem := st.mem, trace := st.trace ++ [ljca_io.bulk_out f] }
            env.rx_write).trace
        = ljca_waits st.trace := by
    intro d f
    obtain ⟨r, hr, hall⟩ := ljca_rx_trace env.rx_write
      { dev := d, mem := st.mem, trace := st.trace ++ [ljca_io.bulk_out f] }
    rw [hr, ljca_waits_append_from_rx _ _ hall]
    simp only []
    rw [ljca_waits_append_bulk_out]
  refine ⟨?_, ?_, ?_⟩
  · intro hret
    unfold ljca_stub_write
    simp only [hk, hs, Bool.not_true, Bool.false_eq_true, if_false, gt_iff_lt,
      if_neg (Nat.not_lt.mpr hsize), hret, ne_eq, not_false_eq_true, if_true]
    exact ⟨rfl, hw _ _⟩
  · intro hret hact
    unfold ljca_stub_write
    simp only [hk, hs, Bool.not_true, Bool.false_eq_true, if_false, gt_iff_lt,
      if_neg (Nat.not_lt.mpr hsize), hret, ne_eq, not_true_eq_false, hact, not_false_eq_true,
      if_true]
    exact ⟨rfl, hw _ _⟩
  · intro h
    unfold ljca_msg_len size_t_add sizeof_ljca_msg
    omega

/-- Witness for C10: the write of a 6-byte frame fails with -71, respectively accepts only
5 bytes, while frames are still being received. -/
theorem ljca_stub_write_write_failure_witness :
    ((-71 : Int) ≠ 0 →
      (ljca_stub_write ex_state 0 9 (some [10, 11]) 2 100 200 true 500
          { ex_env 5 with bulk_ret := -71 }).1 = -71 ∧
      ljca_waits
          (ljca_stub_write ex_state 0 9 (some [10, 11]) 2 100 200 true 500
            { ex_env 5 with bulk_ret := -71 }).2.trace
        = ljca_waits ex_state.trace) ∧
    ((-71 : Int) = 0 → to_uint 5 ≠ ljca_msg_len 2 →
      (ljca_stub_write ex_state 0 9 (some [10, 11]) 2 100 200 true 500
          { ex_env 5 with bulk_ret := -71 }).1 = -EINVAL ∧
      ljca_waits
          (ljca_stub_write ex_state 0 9 (some [10, 11]) 2 100 200 true 500
            { ex_env 5 with bulk_ret := -71 }).2.trace
        = ljca_waits ex_state.trace) ∧
    (2 ≤ 60 → ljca_msg_len 2 = 4 + 2) :=
  ljca_stub_write_write_failure ex_state 0 9 (some [10, 11]) 2 100 200 true 500
    { ex_env 5 with bulk_ret := -71 } (by decide) rfl rfl

/-- The two write failures of C10 evaluated: a write error `-71` is returned as it is, a
short write (5 of 6 bytes) gives `-EINVAL`, and in both runs the trace holds the write and
no sleep on the ack wait queue although an ack was requested. -/
theorem ljca_write_error_and_short_write_eval :
    (ljca_stub_write ex_state 0 9 (some [10, 11]) 2 100 200 true 500
        { ex_env 6 with bulk_ret := -71 }).1 = -71 ∧
    (ljca_stub_write ex_state 0 9 (some [10, 11]) 2 100 200 true 500
        { ex_env 6 with bulk_ret := -71 }).2.trace = [ljca_io.bulk_out [1, 9, 5, 2, 10, 11]] ∧
    (ljca_stub_write ex_state 0 9 (some [10, 11]) 2 100 200 true 500 (ex_env 5)).1
      = -EINVAL ∧
    (ljca_stub_write ex_state 0 9 (some [10, 11]) 2 100 200 true 500 (ex_env 5)).2.trace
      = [ljca_io.bulk_out [1, 9, 5, 2, 10, 11]] := by
  decide

/-! ## Command exchange: what stays behind after an exchange -/

theorem ljca_stub_find_loop_set (type : Nat) (t : ljca_stub) :
    ∀ (l : List ljca_stub) (i : Nat) (s : ljca_stub),
      ljca_stub_find_loop type l = some (i, s) → t.type = s.type →
      ljca_stub_find_loop type (l.set i t) = some (i, t) := by
  intro l
  induction l with
  | nil => intro i s h; cases h
  | cons x rest ih =>
    intro i s h ht
    unfold ljca_stub_find_loop at h
    by_cases hx : x.type = type
    · rw [if_pos hx] at h
      cases h
      simp only [List.set_cons_zero]
      unfold ljca_stub_find_loop
      rw [if_pos (by rw [ht]; exact hx)]
    · rw [if_neg hx] at h
      cases hr : ljca_stub_find_loop type rest with
      | none => rw [hr] at h; cases h
      | some r =>
        obtain ⟨j, u⟩ := r
        rw [hr] at h
        cases h
        simp only [List.set_cons_succ]
        unfold ljca_stub_find_loop
        rw [if_neg hx, ih j s hr ht]

theorem ljca_stub_find_set_stub (dev : ljca_dev) (type i : Nat) (s t : ljca_stub)
    (h : ljca_stub_find dev type = .ok (i, s)) (ht : t.type = s.type) :
    ljca_stub_find (dev.set_stub i t) type = .ok (i, t) := by
  unfold ljca_stub_find at h
  cases hl : ljca_stub_find_loop type dev.stubs_list with
  | none => rw [hl] at h; cases h
  | some r =>
    rw [hl] at h
    cases h
    unfold ljca_stub_find ljca_dev.set_stub
    simp only []
    rw [ljca_stub_find_loop_set type t _ i s hl ht]

theorem ljca_parse_cur_cmd (st : ljca_state) (header : ljca_msg) (j : Nat) :
    ((ljca_parse st header).2.dev.stub j).cur_cmd = (st.dev.stub j).cur_cmd ∧
    (ljca_parse st header).2.dev.started = st.dev.started := by
  unfold ljca_parse
  split
  · exact ⟨rfl, rfl⟩
  · rename_i i stub hf
    obtain ⟨hi, hst, _⟩ := ljca_stub_find_ok _ _ _ _ hf
    split
    · exact ⟨rfl, rfl⟩
    · split
      · exact ⟨rfl, rfl⟩
      · refine ⟨?_, rfl⟩
        simp only []
        by_cases hij : i = j
        · subst hij
          rw [ljca_dev_stub_set_stub _ _ _ hi, hst]
        · rw [ljca_dev_stub_set_stub_ne _ _ _ _ hij]

theorem ljca_read_complete_cur_cmd (st : ljca_state) (u : urb) (j : Nat) :
    ((ljca_read_complete st u).dev.stub j).cur_cmd = (st.dev.stub j).cur_cmd ∧
    (ljca_read_complete st u).dev.started = st.dev.started := by
  unfold ljca_read_complete
  simp only []
  split
  · split <;> exact ⟨rfl, rfl⟩
  · split
    · exact ⟨rfl, rfl⟩
    · exact ljca_parse_cur_cmd st _ j

theorem ljca_rx_cur_cmd (us : List urb) (j : Nat) : ∀ st : ljca_state,
    ((ljca_rx st us).dev.stub j).cur_cmd = (st.dev.stub j).cur_cmd ∧
    (ljca_rx st us).dev.started = st.dev.started := by
  induction us with
  | nil => intro st; exact ⟨rfl, rfl⟩
  | cons u us ih =>
    intro st
    have : ljca_rx st (u :: us) = ljca_rx (ljca_read_complete st u) us := rfl
    rw [this, (ih _).1, (ih _).2, (ljca_read_complete_cur_cmd st u j).1,
      (ljca_read_complete_cur_cmd st u j).2]
    exact ⟨rfl, rfl⟩

theorem ljca_stub_write_unlock_cur_cmd (st : ljca_state) (stub : Nat) (ret : Int)
    (h : stub < st.dev.stubs_list.length) :
    ((ljca_stub_write_unlock st stub ret).2.dev.stub stub).cur_cmd = (st.dev.stub stub).cur_cmd ∧
    (ljca_stub_write_unlock st stub ret).2.dev.started = st.dev.started ∧
    (ljca_stub_write_unlock st stub ret).2.dev.stubs_list.length = st.dev.stubs_list.length := by
  unfold ljca_stub_write_unlock
  simp only []
  rw [ljca_dev_stub_set_stub _ _ _ h]
  exact ⟨rfl, rfl, by simp [ljca_dev.set_stub]⟩

/-- The paths of `ljca_stub_write` past the size, allocation and `started` checks, in terms
of the intermediate states. -/
theorem ljca_stub_write_eq (st : ljca_state) (stub cmd : Nat)
    (obuf : Option (List Nat)) (obuf_len ibuf ibuf_len : Nat) (wait_ack : Bool) (timeout : Nat)
    (env : ljca_write_env) (hsize : ljca_msg_len obuf_len ≤ LJCA_MAX_PACKET_SIZE)
    (hk : env.kmalloc_ok = true) (hs : st.dev.started = true) :
    ljca_stub_write st stub cmd obuf obuf_len ibuf ibuf_len wait_ack timeout env
      = if env.bulk_ret ≠ 0 then
          ljca_stub_write_unlock
            (ljca_stub_write_s2 st stub cmd obuf obuf_len ibuf ibuf_len wait_ack env) stub
            env.bulk_ret
        else if to_uint env.bulk_actual ≠ ljca_msg_len obuf_len then
          ljca_stub_write_unlock
            (ljca_stub_write_s2 st stub cmd obuf obuf_len ibuf ibuf_len wait_ack env) stub
            (-EINVAL)
        else if wait_ack = true then
          if long_to_int (wait_event_timeout
              ((ljca_stub_write_s3 st stub cmd obuf obuf_len ibuf ibuf_len wait_ack timeout
                  env).dev.stub stub).acked env.remaining) = 0 then
            ljca_stub_write_unlock
              (ljca_stub_write_s3 st stub cmd obuf obuf_len ibuf ibuf_len wait_ack timeout env)
              stub (-ETIMEDOUT)
          else
            ljca_stub_write_unlock
              (ljca_stub_write_s3 st stub cmd obuf obuf_len ibuf ibuf_len wait_ack timeout env)
              stub 0
        else
          ljca_stub_write_unlock
            (ljca_stub_write_s2 st stub cmd obuf obuf_len ibuf ibuf_len wait_ack env) stub 0 := by
  unfold ljca_stub_write
  simp only [hk, hs, Bool.not_true, Bool.false_eq_true, if_false, gt_iff_lt,
    if_neg (Nat.not_lt.mpr hsize)]
  rfl

theorem ljca_stub_write_s1_stub (st : ljca_state) (stub cmd ibuf ibuf_len : Nat)
    (hstub : stub < st.dev.stubs_list.length) :
    (ljca_stub_write_s1 st stub cmd ibuf ibuf_len).dev.stub stub
      = { (st.dev.stub stub) with
          cur_cmd := (cmd : Int), ipacket := { ibuf_len := ibuf_len, ibuf := ibuf },
          acked := false } := by
  unfold ljca_stub_write_s1
  simp only []
  rw [ljca_dev_stub_set_stub _ _ _ hstub]

theorem ljca_stub_write_s2_facts (st : ljca_state) (stub cmd : Nat)
    (obuf : Option (List Nat)) (obuf_len ibuf ibuf_len : Nat) (wait_ack : Bool)
    (env : ljca_write_env) (hstub : stub < st.dev.stubs_list.length) :
    (ljca_stub_write_s2 st stub cmd obuf obuf_len ibuf ibuf_len wait_ack env).dev.stubs_list.length
      = st.dev.stubs_list.length ∧
    ((ljca_stub_write_s2 st stub cmd obuf obuf_len ibuf ibuf_len wait_ack env).dev.stub
        stub).cur_cmd = (cmd : Int) ∧
    (ljca_stub_write_s2 st stub cmd obuf obuf_len ibuf ibuf_len wait_ack env).dev.started
      = st.dev.started := by
  unfold ljca_stub_write_s2
  rw [ljca_rx_length, (ljca_rx_cur_cmd _ stub _).1, (ljca_rx_cur_cmd _ stub _).2]
  simp only []
  rw [ljca_stub_write_s1_stub _ _ _ _ _ hstub]
  exact ⟨by simp [ljca_stub_write_s1, ljca_dev.set_stub], rfl, rfl⟩

theorem ljca_stub_write_s3_facts (st : ljca_state) (stub cmd : Nat)
    (obuf : Option (List Nat)) (obuf_len ibuf ibuf_len : Nat) (wait_ack : Bool) (timeout : Nat)
    (env : ljca_write_env) (hstub : stub < st.dev.stubs_list.length) :
    (ljca_stub_write_s3 st stub cmd obuf obuf_len ibuf ibuf_len wait_ack timeout
        env).dev.stubs_list.length = st.dev.stubs_list.length ∧
    ((ljca_stub_write_s3 st stub cmd obuf obuf_len ibuf ibuf_len wait_ack timeout env).dev.stub
        stub).cur_cmd = (cmd : Int) ∧
    (ljca_stub_write_s3 st stub cmd obuf obuf_len ibuf ibuf_len wait_ack timeout env).dev.started
      = st.dev.started := by
  obtain ⟨h1, h2, h3⟩ := ljca_stub_write_s2_facts st stub cmd obuf obuf_len ibuf ibuf_len
    wait_ack env hstub
  unfold ljca_stub_write_s3
  rw [ljca_rx_length, (ljca_rx_cur_cmd _ stub _).1, (ljca_rx_cur_cmd _ stub _).2]
  exact ⟨h1, h2, h3⟩

/-- After an exchange that got past the checks, the stub still holds the command that was
issued; the transport is still started and the registry has the same size. -/
theorem ljca_stub_write_cur_cmd (st : ljca_state) (stub cmd : Nat)
    (obuf : Option (List Nat)) (obuf_len ibuf ibuf_len : Nat) (wait_ack : Bool) (timeout : Nat)
    (env : ljca_write_env) (hsize : ljca_msg_len obuf_len ≤ LJCA_MAX_PACKET_SIZE)
    (hk : env.kmalloc_ok = true) (hs : st.dev.started = true)
    (hstub : stub < st.dev.stubs_list.length) :
    ((ljca_stub_write st stub cmd obuf obuf_len ibuf ibuf_len wait_ack timeout env).2.dev.stub
        stub).cur_cmd = (cmd : Int) ∧
    (ljca_stub_write st stub cmd obuf obuf_len ibuf ibuf_len wait_ack timeout env).2.dev.started
      = true ∧
    (ljca_stub_write st stub cmd obuf obuf_len ibuf ibuf_len wait_ack timeout
        env).2.dev.stubs_list.length = st.dev.stubs_list.length := by
  obtain ⟨a1, a2, a3⟩ := ljca_stub_write_s2_facts st stub cmd obuf obuf_len ibuf ibuf_len
    wait_ack env hstub
  obtain ⟨b1, b2, b3⟩ := ljca_stub_write_s3_facts st stub cmd obuf obuf_len ibuf ibuf_len
    wait_ack timeout env hstub
  have u2 := fun r => ljca_stub_write_unlock_cur_cmd
    (ljca_stub_write_s2 st stub cmd obuf obuf_len ibuf ibuf_len wait_ack env) stub r
    (by rw [a1]; exact hstub)
  have u3 := fun r => ljca_stub_write_unlock_cur_cmd
    (ljca_stub_write_s3 st stub cmd obuf obuf_len ibuf ibuf_len wait_ack timeout env) stub r
    (by rw [b1]; exact hstub)
  rw [ljca_stub_write_eq st stub cmd obuf obuf_len ibuf ibuf_len wait_ack timeout env hsize hk hs]
  split
  · rw [(u2 _).1, (u2 _).2.1, (u2 _).2.2, a1, a2, a3]; exact ⟨rfl, hs, rfl⟩
  · split
    · rw [(u2 _).1, (u2 _).2.1, (u2 _).2.2, a1, a2, a3]; exact ⟨rfl, hs, rfl⟩
    · split
      · split
        · rw [(u3 _).1, (u3 _).2.1, (u3 _).2.2, b1, b2, b3]; exact ⟨rfl, hs, rfl⟩
        · rw [(u3 _).1, (u3 _).2.1, (u3 _).2.2, b1, b2, b3]; exact ⟨rfl, hs, rfl⟩
      · rw [(u2 _).1, (u2 _).2.1, (u2 _).2.2, a1, a2, a3]; exact ⟨rfl, hs, rfl⟩

theorem ljca_stub_write_unlock_mem (st : ljca_state) (stub : Nat) (ret : Int) :
    (ljca_stub_write_unlock st stub ret).2.mem = st.mem := rfl

theorem ljca_stub_write_unlock_acked (st : ljca_state) (stub : Nat) (ret : Int)
    (h : stub < st.dev.stubs_list.length) :
    ((ljca_stub_write_unlock st stub ret).2.dev.stub stub).acked = (st.dev.stub stub).acked := by
  unfold ljca_stub_write_unlock
  simp only []
  rw [ljca_dev_stub_set_stub _ _ _ h]

/-- An acknowledged exchange during which nothing is received ends with `-ETIMEDOUT`,
whatever the acknowledged flag was before the call, and leaves caller memory as it is. -/
theorem ljca_stub_write_quiet_timeout (st : ljca_state) (stub cmd : Nat)
    (obuf : Option (List Nat)) (obuf_len ibuf ibuf_len : Nat) (timeout : Nat)
    (env : ljca_write_env) (hsize : ljca_msg_len obuf_len ≤ LJCA_MAX_PACKET_SIZE)
    (hk : env.kmalloc_ok = true) (hs : st.dev.started = true)
    (hstub : stub < st.dev.stubs_list.length) (hret : env.bulk_ret = 0)
    (hact : to_uint env.bulk_actual = ljca_msg_len obuf_len)
    (hrw : env.rx_write = []) (hrx : env.rx_wait = []) :
    (ljca_stub_write st stub cmd obuf obuf_len ibuf ibuf_len true timeout env).1 = -ETIMEDOUT ∧
    (ljca_stub_write st stub cmd obuf obuf_len ibuf ibuf_len true timeout env).2.mem = st.mem := by
  have h3 : (ljca_stub_write_s3 st stub cmd obuf obuf_len ibuf ibuf_len true timeout env)
      = { (ljca_stub_write_s1 st stub cmd ibuf ibuf_len) with
          trace := st.trace ++ [ljca_io.bulk_out
              ((ljca_stub_write_msg (st.dev.stub stub).type cmd obuf obuf_len true
                env.uninit).bytes.take (ljca_msg_len obuf_len))]
            ++ [ljca_io.ack_wait timeout] } := by
    unfold ljca_stub_write_s3 ljca_stub_write_s2
    rw [hrw, hrx]
    rfl
  have hacked : ((ljca_stub_write_s3 st stub cmd obuf obuf_len ibuf ibuf_len true timeout
      env).dev.stub stub).acked = false := by
    rw [h3]
    simp only []
    rw [ljca_stub_write_s1_stub _ _ _ _ _ hstub]
  rw [ljca_stub_write_eq st stub cmd obuf obuf_len ibuf ibuf_len true timeout env hsize hk hs]
  simp only [hret, ne_eq, not_true_eq_false, if_false, hact, if_true, hacked]
  rw [if_pos (by simp [wait_event_timeout, long_to_int])]
  refine ⟨rfl, ?_⟩
  rw [ljca_stub_write_unlock_mem, h3]
  rfl

/-- During an acknowledged exchange, a frame for the exchanging stub whose command differs
from the command just issued is rejected by the receive path: if it is all that is
received, the exchange ends with `-ETIMEDOUT` and caller memory is left as it is. -/
theorem ljca_stub_write_other_cmd_rejected (st : ljca_state) (stub cmd : Nat)
    (obuf : Option (List Nat)) (obuf_len ibuf ibuf_len : Nat) (timeout : Nat)
    (env : ljca_write_env) (u : urb) (s : ljca_stub)
    (hsize : ljca_msg_len obuf_len ≤ LJCA_MAX_PACKET_SIZE)
    (hk : env.kmalloc_ok = true) (hs : st.dev.started = true)
    (hret : env.bulk_ret = 0) (hact : to_uint env.bulk_actual = ljca_msg_len obuf_len)
    (hrw : env.rx_write = []) (hrx : env.rx_wait = [u]) (hu : u.status = 0)
    (hfind : ljca_stub_find st.dev (ljca_msg_of_buf u.transfer_buffer).type = .ok (stub, s))
    (hack : (ljca_msg_of_buf u.transfer_buffer).flags &&& LJCA_ACK_FLAG ≠ 0)
    (hcmd : ((ljca_msg_of_buf u.transfer_buffer).cmd : Int) ≠ (cmd : Int)) :
    (ljca_stub_write st stub cmd obuf obuf_len ibuf ibuf_len true timeout env).1 = -ETIMEDOUT ∧
    (ljca_stub_write st stub cmd obuf obuf_len ibuf ibuf_len true timeout env).2.mem = st.mem := by
  obtain ⟨hstub, hst, _⟩ := ljca_stub_find_ok _ _ _ _ hfind
  have hfind1 := ljca_stub_find_set_stub st.dev _ stub s
    { (st.dev.stub stub) with
      cur_cmd := (cmd : Int), ipacket := { ibuf_len := ibuf_len, ibuf := ibuf },
      acked := false } hfind (by rw [← hst])
  have hparse : ∀ t : List ljca_io,
      ljca_parse { (ljca_stub_write_s1 st stub cmd ibuf ibuf_len) with trace := t }
          (ljca_msg_of_buf u.transfer_buffer)
        = (-EINVAL, { (ljca_stub_write_s1 st stub cmd ibuf ibuf_len) with trace := t }) := by
    intro t
    apply ljca_parse_refuses_other_cmd _ _ stub _ hfind1 hack
    exact fun h => hcmd h.symm
  have h3 : ∃ t, (ljca_stub_write_s3 st stub cmd obuf obuf_len ibuf ibuf_len true timeout env)
      = { (ljca_stub_write_s1 st stub cmd ibuf ibuf_len) with trace := t } := by
    unfold ljca_stub_write_s3 ljca_stub_write_s2
    rw [hrw, hrx]
    simp only [ljca_rx, List.foldl_cons, List.foldl_nil]
    unfold ljca_read_complete
    simp only [hu, ne_eq, not_true_eq_false, if_false]
    split
    · exact ⟨_, rfl⟩
    · rw [hparse]
      exact ⟨_, rfl⟩
  obtain ⟨t, h3⟩ := h3
  have hacked : ((ljca_stub_write_s3 st stub cmd obuf obuf_len ibuf ibuf_len true timeout
      env).dev.stub stub).acked = false := by
    rw [h3]
    simp only []
    rw [ljca_stub_write_s1_stub _ _ _ _ _ hstub]
  rw [ljca_stub_write_eq st stub cmd obuf obuf_len ibuf ibuf_len true timeout env hsize hk hs]
  simp only [hret, ne_eq, not_true_eq_false, if_false, hact, if_true, hacked]
  rw [if_pos (by simp [wait_event_timeout, long_to_int])]
  refine ⟨rfl, ?_⟩
  rw [ljca_stub_write_unlock_mem, h3]
  rfl

/-- During the write of an acknowledged exchange, a frame for the exchanging stub whose
command differs from the command just issued is rejected by the receive path: if it is all
that is received, the exchange ends with `-ETIMEDOUT` and caller memory is left as it is. -/
theorem ljca_stub_write_other_cmd_during_write (st : ljca_state) (stub cmd : Nat)
    (obuf : Option (List Nat)) (obuf_len ibuf ibuf_len : Nat) (timeout : Nat)
    (env : ljca_write_env) (u : urb) (s : ljca_stub)
    (hsize : ljca_msg_len obuf_len ≤ LJCA_MAX_PACKET_SIZE)
    (hk : env.kmalloc_ok = true) (hs : st.dev.started = true)
    (hret : env.bulk_ret = 0) (hact : to_uint env.bulk_actual = ljca_msg_len obuf_len)
    (hrw : env.rx_write = [u]) (hrx : env.rx_wait = []) (hu : u.status = 0)
    (hfind : ljca_stub_find st.dev (ljca_msg_of_buf u.transfer_buffer).type = .ok (stub, s))
    (hack : (ljca_msg_of_buf u.transfer_buffer).flags &&& LJCA_ACK_FLAG ≠ 0)
    (hcmd : ((ljca_msg_of_buf u.transfer_buffer).cmd : Int) ≠ (cmd : Int)) :
    (ljca_stub_write st stub cmd obuf obuf_len ibuf ibuf_len true timeout env).1 = -ETIMEDOUT ∧
    (ljca_stub_write st stub cmd obuf obuf_len ibuf ibuf_len true timeout env).2.mem = st.mem := by
  obtain ⟨hstub, hst, _⟩ := ljca_stub_find_ok _ _ _ _ hfind
  have hfind1 := ljca_stub_find_set_stub st.dev _ stub s
    { (st.dev.stub stub) with
      cur_cmd := (cmd : Int), ipacket := { ibuf_len := ibuf_len, ibuf := ibuf },
      acked := false } hfind (by rw [← hst])
  have hparse : ∀ t : List ljca_io,
      ljca_parse { (ljca_stub_write_s1 st stub cmd ibuf ibuf_len) with trace := t }
          (ljca_msg_of_buf u.transfer_buffer)
        = (-EINVAL, { (ljca_stub_write_s1 st stub cmd ibuf ibuf_len) with trace := t }) := by
    intro t
    apply ljca_parse_refuses_other_cmd _ _ stub _ hfind1 hack
    exact fun h => hcmd h.symm
  have h3 : ∃ t, (ljca_stub_write_s3 st stub cmd obuf obuf_len ibuf ibuf_len true timeout env)
      = { (ljca_stub_write_s1 st stub cmd ibuf ibuf_len) with trace := t } := by
    unfold ljca_stub_write_s3 ljca_stub_write_s2
    rw [hrw, hrx]
    simp only [ljca_rx, List.foldl_cons, List.foldl_nil]
    unfold ljca_read_complete
    simp only [hu, ne_eq, not_true_eq_false, if_false]
    split
    · exact ⟨_, rfl⟩
    · rw [hparse]
      exact ⟨_, rfl⟩
  obtain ⟨t, h3⟩ := h3
  have hacked : ((ljca_stub_write_s3 st stub cmd obuf obuf_len ibuf ibuf_len true timeout
      env).dev.stub stub).acked = false := by
    rw [h3]
    simp only []
    rw [ljca_stub_write_s1_stub _ _ _ _ _ hstub]
  rw [ljca_stub_write_eq st stub cmd obuf obuf_len ibuf ibuf_len true timeout env hsize hk hs]
  simp only [hret, ne_eq, not_true_eq_false, if_false, hact, if_true, hacked]
  rw [if_pos (by simp [wait_event_timeout, long_to_int])]
  refine ⟨rfl, ?_⟩
  rw [ljca_stub_write_unlock_mem, h3]
  rfl

/-- C9 (counterexample): an acknowledged exchange of command 5 on the GPIO stub times out;
afterwards the stub's `cur_cmd` is still 5, and a late response frame carrying command 5
is accepted by `ljca_parse` (result 0) and sets the stub's acknowledged flag.  When the
same frame, 5 valid bytes, is received during a later acknowledged exchange of command 5
on the stub (during its write or during its wait), that exchange returns 0, the payload
byte 9 is in the later caller's reply buffer at 100 and its capacity variable at 200
reads 1. -/
theorem ljca_late_reply_same_cmd_delivered :
    ex_abandoned.1 = -ETIMEDOUT ∧
    (ex_abandoned.2.dev.stub 1).cur_cmd = 5 ∧
    (ex_abandoned.2.dev.stub 1).acked = false ∧
    (ljca_parse ex_abandoned.2 ex_late).1 = 0 ∧
    ((ljca_parse ex_abandoned.2 ex_late).2.dev.stub 1).acked = true ∧
    ljca_msg_of_buf [3, 5, 3, 1, 9] = ex_late ∧
    ljca_validate ex_late 5 = true ∧
    ex_abandoned.2.mem.bytes 100 = 0 ∧
    ex_abandoned.2.mem.words 200 = 3 ∧
    (ljca_stub_write ex_abandoned.2 1 5 none 0 100 200 true 500
        { ex_env 4 with rx_wait := [{ status := 0, transfer_buffer := [3, 5, 3, 1, 9],
                                      actual_length := 5 }] }).1 = 0 ∧
    (ljca_stub_write ex_abandoned.2 1 5 none 0 100 200 true 500
        { ex_env 4 with rx_wait := [{ status := 0, transfer_buffer := [3, 5, 3, 1, 9],
                                      actual_length := 5 }] }).2.mem.bytes 100 = 9 ∧
    (ljca_stub_write ex_abandoned.2 1 5 none 0 100 200 true 500
        { ex_env 4 with rx_wait := [{ status := 0, transfer_buffer := [3, 5, 3, 1, 9],
                                      actual_length := 5 }] }).2.mem.words 200 = 1 ∧
    (ljca_stub_write ex_abandoned.2 1 5 none 0 100 200 true 500
        { ex_env 4 with rx_write := [{ status := 0, transfer_buffer := [3, 5, 3, 1, 9],
                                       actual_length := 5 }] }).1 = 0 ∧
    (ljca_stub_write ex_abandoned.2 1 5 none 0 100 200 true 500
        { ex_env 4 with rx_write := [{ status := 0, transfer_buffer := [3, 5, 3, 1, 9],
                                       actual_length := 5 }] }).2.mem.bytes 100 = 9 ∧
    (ljca_stub_write ex_abandoned.2 1 5 none 0 100 200 true 500
        { ex_env 4 with rx_write := [{ status := 0, transfer_buffer := [3, 5, 3, 1, 9],
                                       actual_length := 5 }] }).2.mem.words 200 = 1 := by
  decide

/-- A late response that is not delivered, evaluated on the example: after the late
response has set the acknowledged flag, a new acknowledged exchange of command 6 that
receives nothing times out; and if the late response for command 5 arrives while command 6
is pending, it is refused, the exchange times out and the reply buffer is not written. -/
theorem ljca_late_reply_not_delivered :
    (ljca_stub_write (ljca_parse ex_abandoned.2 ex_late).2 1 6 none 0 100 200 true 500
        (ex_env 4)).1 = -ETIMEDOUT ∧
    (ljca_stub_write ex_abandoned.2 1 6 none 0 100 200 true 500
        { ex_env 4 with rx_wait := [{ status := 0, transfer_buffer := [3, 5, 3, 1, 9],
                                      actual_length := 5 }] }).1 = -ETIMEDOUT ∧
    (ljca_stub_write ex_abandoned.2 1 6 none 0 100 200 true 500
        { ex_env 4 with rx_wait := [{ status := 0, transfer_buffer := [3, 5, 3, 1, 9],
                                      actual_length := 5 }] }).2.mem.bytes 100 = 0 ∧
    (ljca_stub_write ex_abandoned.2 1 6 none 0 100 200 true 500
        { ex_env 4 with rx_wait := [{ status := 0, transfer_buffer := [3, 5, 3, 1, 9],
                                      actual_length := 5 }] }).2.mem.words 200 = 3 := by
  decide

/-- An acknowledged exchange evaluated end to end: command 4 on the GPIO stub with a 3-byte
reply capacity; the 10-byte reply arrives during the wait.  The call returns 0, three bytes
are in the reply buffer, the capacity variable reads 3 and the installation is cleared. -/
theorem ljca_stub_write_acknowledged_eval :
    (ljca_stub_write ex_state 1 4 none 0 100 200 true 500
        { ex_env 4 with
          rx_wait := [{ status := 0, transfer_buffer := ex_reply.bytes, actual_length := 14 }],
          remaining := 17 }).1 = 0 ∧
    (ljca_stub_write ex_state 1 4 none 0 100 200 true 500
        { ex_env 4 with
          rx_wait := [{ status := 0, transfer_buffer := ex_reply.bytes, actual_length := 14 }],
          remaining := 17 }).2.trace
      = [ljca_io.bulk_out [3, 4, 5, 0], ljca_io.ack_wait 500, ljca_io.wake_up,
         ljca_io.submit_urb] ∧
    (ljca_stub_write ex_state 1 4 none 0 100 200 true 500
        { ex_env 4 with
          rx_wait := [{ status := 0, transfer_buffer := ex_reply.bytes, actual_length := 14 }],
          remaining := 17 }).2.mem.bytes 102 = 3 ∧
    (ljca_stub_write ex_state 1 4 none 0 100 200 true 500
        { ex_env 4 with
          rx_wait := [{ status := 0, transfer_buffer := ex_reply.bytes, actual_length := 14 }],
          remaining := 17 }).2.mem.bytes 103 = 0 ∧
    (ljca_stub_write ex_state 1 4 none 0 100 200 true 500
        { ex_env 4 with
          rx_wait := [{ status := 0, transfer_buffer := ex_reply.bytes, actual_length := 14 }],
          remaining := 17 }).2.mem.words 200 = 3 ∧
    ((ljca_stub_write ex_state 1 4 none 0 100 200 true 500
        { ex_env 4 with
          rx_wait := [{ status := 0, transfer_buffer := ex_reply.bytes, actual_length := 14 }],
          remaining := 17 }).2.dev.stub 1).ipacket = { ibuf_len := 0, ibuf := 0 } := by
  decide

/-! ## Command exchange: the acknowledgement wait -/

theorem ljca_frames_append (a b : List ljca_io) :
    ljca_frames (a ++ b) = ljca_frames a ++ ljca_frames b := by
  induction a with
  | nil => rfl
  | cons e a ih => cases e <;> simp [ljca_frames, ih]

theorem ljca_wait_timeouts_append (a b : List ljca_io) :
    ljca_wait_timeouts (a ++ b) = ljca_wait_timeouts a ++ ljca_wait_timeouts b := by
  induction a with
  | nil => rfl
  | cons e a ih => cases e <;> simp [ljca_wait_timeouts, ih]

theorem ljca_frames_from_rx (r : List ljca_io) (h : ∀ e ∈ r, e.from_rx = true) :
    ljca_frames r = [] := by
  induction r with
  | nil => rfl
  | cons e r ih =>
    have he := h e (List.mem_cons_self e r)
    have hr := ih (fun x hx => h x (List.mem_cons_of_mem e hx))
    cases e <;> simp_all [ljca_frames, ljca_io.from_rx]

theorem ljca_wait_timeouts_from_rx (r : List ljca_io) (h : ∀ e ∈ r, e.from_rx = true) :
    ljca_wait_timeouts r = [] := by
  induction r with
  | nil => rfl
  | cons e r ih =>
    have he := h e (List.mem_cons_self e r)
    have hr := ih (fun x hx => h x (List.mem_cons_of_mem e hx))
    cases e <;> simp_all [ljca_wait_timeouts, ljca_io.from_rx]

theorem ljca_stub_write_s2_trace (st : ljca_state) (stub cmd : Nat)
    (obuf : Option (List Nat)) (obuf_len ibuf ibuf_len : Nat) (wait_ack : Bool)
    (env : ljca_write_env) :
    ∃ r, (ljca_stub_write_s2 st stub cmd obuf obuf_len ibuf ibuf_len wait_ack env).trace
        = st.trace ++ [ljca_io.bulk_out
            ((ljca_stub_write_msg (st.dev.stub stub).type cmd obuf obuf_len wait_ack
                env.uninit).bytes.take (ljca_msg_len obuf_len))] ++ r ∧
      ∀ e ∈ r, e.from_rx = true := by
  unfold ljca_stub_write_s2
  obtain ⟨r, hr, hall⟩ := ljca_rx_trace env.rx_write
    { (ljca_stub_write_s1 st stub cmd ibuf ibuf_len) with
      trace := st.trace ++ [ljca_io.bulk_out
        ((ljca_stub_write_msg (st.dev.stub stub).type cmd obuf obuf_len wait_ack
            env.uninit).bytes.take (ljca_msg_len obuf_len))] }
  exact ⟨r, hr, hall⟩

theorem ljca_stub_write_s3_trace (st : ljca_state) (stub cmd : Nat)
    (obuf : Option (List Nat)) (obuf_len ibuf ibuf_len : Nat) (wait_ack : Bool) (timeout : Nat)
    (env : ljca_write_env) :
    ∃ r, (ljca_stub_write_s3 st stub cmd obuf obuf_len ibuf ibuf_len wait_ack timeout env).trace
        = (ljca_stub_write_s2 st stub cmd obuf obuf_len ibuf ibuf_len wait_ack env).trace
            ++ [ljca_io.ack_wait timeout] ++ r ∧
      ∀ e ∈ r, e.from_rx = true := by
  unfold ljca_stub_write_s3
  obtain ⟨r, hr, hall⟩ := ljca_rx_trace env.rx_wait
    { (ljca_stub_write_s2 st stub cmd obuf obuf_len ibuf ibuf_len wait_ack env) with
      trace := (ljca_stub_write_s2 st stub cmd obuf obuf_len ibuf ibuf_len wait_ack env).trace
        ++ [ljca_io.ack_wait timeout] }
  exact ⟨r, hr, hall⟩

theorem long_to_int_wait_ne_zero (remaining : Nat) (h : remaining < 2 ^ 32) :
    long_to_int (wait_event_timeout true remaining) ≠ 0 := by
  unfold long_to_int wait_event_timeout
  simp only [if_true]
  have h1 : 1 ≤ max 1 remaining := le_max_left 1 remaining
  have h2 : max 1 remaining < 2 ^ 32 := max_lt (by norm_num) h
  omega

theorem long_to_int_wait_zero (remaining : Nat) :
    long_to_int (wait_event_timeout false remaining) = 0 := by
  simp [long_to_int, wait_event_timeout]

/-- C11: after a complete successful write (`usb_bulk_msg` returned 0 and accepted
`msg_len` bytes), `ljca_stub_write` with an ack requested sleeps once on `ack_wq` with the
caller's timeout and returns 0 if the stub's acknowledged flag is true when the wait
returns, `-ETIMEDOUT` if it is not; with no ack requested it returns 0 without sleeping.
The result is never positive: the remaining jiffies returned by the wait are not passed
on.  (The remaining jiffies fit in 32 bits, as they do for every timeout below 2^31 ms.) -/
theorem ljca_stub_write_ack_wait (st : ljca_state) (stub cmd : Nat)
    (obuf : Option (List Nat)) (obuf_len ibuf ibuf_len : Nat) (wait_ack : Bool) (timeout : Nat)
    (env : ljca_write_env) (hsize : ljca_msg_len obuf_len ≤ LJCA_MAX_PACKET_SIZE)
    (hk : env.kmalloc_ok = true) (hs : st.dev.started = true) (hret : env.bulk_ret = 0)
    (hact : to_uint env.bulk_actual = ljca_msg_len obuf_len) (hrem : env.remaining < 2 ^ 32) :
    (wait_ack = false →
      (ljca_stub_write st stub cmd obuf obuf_len ibuf ibuf_len wait_ack timeout env).1 = 0 ∧
      ljca_wait_timeouts
          (ljca_stub_write st stub cmd obuf obuf_len ibuf ibuf_len wait_ack timeout env).2.trace
        = ljca_wait_timeouts st.trace) ∧
    (wait_ack = true →
      ljca_wait_timeouts
          (ljca_stub_write st stub cmd obuf obuf_len ibuf ibuf_len wait_ack timeout env).2.trace
        = ljca_wait_timeouts st.trace ++ [timeout] ∧
      (((ljca_stub_write_s3 st stub cmd obuf obuf_len ibuf ibuf_len wait_ack timeout
            env).dev.stub stub).acked = true →
        (ljca_stub_write st stub cmd obuf obuf_len ibuf ibuf_len wait_ack timeout env).1 = 0) ∧
      (((ljca_stub_write_s3 st stub cmd obuf obuf_len ibuf ibuf_len wait_ack timeout
            env).dev.stub stub).acked = false →
        (ljca_stub_write st stub cmd obuf obuf_len ibuf ibuf_len wait_ack timeout env).1
          = -ETIMEDOUT)) ∧
    (ljca_stub_write st stub cmd obuf obuf_len ibuf ibuf_len wait_ack timeout env).1 ≤ 0 := by
  obtain ⟨r1, h2t, hall1⟩ := ljca_stub_write_s2_trace st stub cmd obuf obuf_len ibuf ibuf_len
    wait_ack env
  obtain ⟨r2, h3t, hall2⟩ := ljca_stub_write_s3_trace st stub cmd obuf obuf_len ibuf ibuf_len
    wait_ack timeout env
  have w2 : ljca_wait_timeouts
      (ljca_stub_write_s2 st stub cmd obuf obuf_len ibuf ibuf_len wait_ack env).trace
      = ljca_wait_timeouts st.trace := by
    rw [h2t, ljca_wait_timeouts_append, ljca_wait_timeouts_append,
      ljca_wait_timeouts_from_rx r1 hall1]
    simp [ljca_wait_timeouts]
  have w3 : ljca_wait_timeouts
      (ljca_stub_write_s3 st stub cmd obuf obuf_len ibuf ibuf_len wait_ack timeout env).trace
      = ljca_wait_timeouts st.trace ++ [timeout] := by
    rw [h3t, ljca_wait_timeouts_append, ljca_wait_timeouts_append,
      ljca_wait_timeouts_from_rx r2 hall2, w2]
    simp [ljca_wait_timeouts]
  cases wait_ack with
  | false =>
    have key := ljca_stub_write_eq st stub cmd obuf obuf_len ibuf ibuf_len false timeout env
      hsize hk hs
    simp only [hret, ne_eq, not_true_eq_false, if_false, hact, Bool.false_eq_true] at key
    rw [key]
    refine ⟨fun _ => ⟨rfl, ?_⟩, fun h => absurd h (by decide), ?_⟩
    · rw [ljca_stub_write_unlock_trace]
      exact w2
    · rw [ljca_stub_write_unlock_ret]
  | true =>
    have key := ljca_stub_write_eq st stub cmd obuf obuf_len ibuf ibuf_len true timeout env
      hsize hk hs
    simp only [hret, ne_eq, not_true_eq_false, if_false, hact, if_true] at key
    rw [key]
    refine ⟨fun h => absurd h (by decide), fun _ => ⟨?_, ?_, ?_⟩, ?_⟩
    · split
      · rw [ljca_stub_write_unlock_trace]
        exact w3
      · rw [ljca_stub_write_unlock_trace]
        exact w3
    · intro hacked
      rw [hacked, if_neg (long_to_int_wait_ne_zero _ hrem)]
      rfl
    · intro hacked
      rw [hacked, if_pos (long_to_int_wait_zero _)]
      rfl
    · split
      · rw [ljca_stub_write_unlock_ret]
        decide
      · rw [ljca_stub_write_unlock_ret]

/-- Witness for C11: an acknowledged exchange of command 4 on the GPIO stub whose reply
arrives during the wait, 17 jiffies before the timeout. -/
theorem ljca_stub_write_ack_wait_witness :
    (true = false →
      (ljca_stub_write ex_state 1 4 none 0 100 200 true 500
        { ex_env 4 with
          rx_wait := [{ status := 0, transfer_buffer := ex_reply.bytes, actual_length := 14 }],
          remaining := 17 }).1 = 0 ∧
      ljca_wait_timeouts
          (ljca_stub_write ex_state 1 4 none 0 100 200 true 500
            { ex_env 4 with
              rx_wait := [{ status := 0, transfer_buffer := ex_reply.bytes,
                            actual_length := 14 }],
              remaining := 17 }).2.trace
        = ljca_wait_timeouts ex_state.trace) ∧
    (true = true →
      ljca_wait_timeouts
          (ljca_stub_write ex_state 1 4 none 0 100 200 true 500
            { ex_env 4 with
              rx_wait := [{ status := 0, transfer_buffer := ex_reply.bytes,
                            actual_length := 14 }],
              remaining := 17 }).2.trace
        = ljca_wait_timeouts ex_state.trace ++ [500] ∧
      (((ljca_stub_write_s3 ex_state 1 4 none 0 100 200 true 500
            { ex_env 4 with
              rx_wait := [{ status := 0, transfer_buffer := ex_reply.bytes,
                            actual_length := 14 }],
              remaining := 17 }).dev.stub 1).acked = true →
        (ljca_stub_write ex_state 1 4 none 0 100 200 true 500
          { ex_env 4 with
            rx_wait := [{ status := 0, transfer_buffer := ex_reply.bytes,
                          actual_length := 14 }],
            remaining := 17 }).1 = 0) ∧
      (((ljca_stub_write_s3 ex_state 1 4 none 0 100 200 true 500
            { ex_env 4 with
              rx_wait := [{ status := 0, transfer_buffer := ex_reply.bytes,
                            actual_length := 14 }],
              remaining := 17 }).dev.stub 1).acked = false →
        (ljca_stub_write ex_state 1 4 none 0 100 200 true 500
          { ex_env 4 with
            rx_wait := [{ status := 0, transfer_buffer := ex_reply.bytes,
                          actual_length := 14 }],
            remaining := 17 }).1 = -ETIMEDOUT)) ∧
    (ljca_stub_write ex_state 1 4 none 0 100 200 true 500
      { ex_env 4 with
        rx_wait := [{ status := 0, transfer_buffer := ex_reply.bytes, actual_length := 14 }],
        remaining := 17 }).1 ≤ 0 :=
  ljca_stub_write_ack_wait ex_state 1 4 none 0 100 200 true 500
    { ex_env 4 with
      rx_wait := [{ status := 0, transfer_buffer := ex_reply.bytes, actual_length := 14 }],
      remaining := 17 } (by decide) rfl rfl rfl (by decide) (by decide)

/-- The three outcomes of C11 evaluated on the GPIO stub: the reply arrives (0, although
17 jiffies remain), nothing arrives (`-ETIMEDOUT`), no ack requested (0, no sleep). -/
theorem ljca_ack_wait_outcomes_eval :
    ((ljca_stub_write_s3 ex_state 1 4 none 0 100 200 true 500
        { ex_env 4 with
          rx_wait := [{ status := 0, transfer_buffer := ex_reply.bytes, actual_length := 14 }],
          remaining := 17 }).dev.stub 1).acked = true ∧
    (ljca_stub_write ex_state 1 4 none 0 100 200 true 500
      { ex_env 4 with
        rx_wait := [{ status := 0, transfer_buffer := ex_reply.bytes, actual_length := 14 }],
        remaining := 17 }).1 = 0 ∧
    (ljca_stub_write ex_state 1 4 none 0 100 200 true 500 (ex_env 4)).1 = -ETIMEDOUT ∧
    (ljca_stub_write ex_state 1 4 none 0 0 0 false 500 (ex_env 4)).1 = 0 ∧
    (ljca_stub_write ex_state 1 4 none 0 0 0 false 500 (ex_env 4)).2.trace
      = [ljca_io.bulk_out [3, 4, 4, 0]] := by
  decide

/-! ## Event fan-out: registration, removal, delivery -/

theorem ljca_register_event_cb_loop_dup (id : Nat) (ret : Int) :
    ∀ l : List ljca_event_cb_entry, (∃ e ∈ l, e.id = id) →
      ljca_register_event_cb_loop id ret l = -EBUSY := by
  intro l
  induction l with
  | nil => rintro ⟨e, he, _⟩; cases he
  | cons x rest ih =>
    rintro ⟨e, he, hid⟩
    unfold ljca_register_event_cb_loop
    by_cases hx : x.id = id
    · rw [if_pos hx]
    · rw [if_neg hx]
      rcases List.mem_cons.mp he with h | h
      · exact absurd (h ▸ hid) hx
      · exact ih ⟨e, h, hid⟩

theorem ljca_register_event_cb_loop_fresh (id : Nat) (ret : Int) :
    ∀ l : List ljca_event_cb_entry, (∀ e ∈ l, e.id ≠ id) →
      ljca_register_event_cb_loop id ret l = ret := by
  intro l
  induction l with
  | nil => intro _; rfl
  | cons x rest ih =>
    intro h
    unfold ljca_register_event_cb_loop
    rw [if_neg (h x (List.mem_cons_self x rest))]
    exact ih (fun e he => h e (List.mem_cons_of_mem x he))

/-- When the entry allocation fails, `ljca_register_event_cb` returns `-ENOMEM` before
looking at the list, which is left as it was. -/
theorem ljca_register_event_cb_nomem (dev : ljca_dev) (l : ljca) (event_cb context : Nat)
    (ret_uninit : Int) (i : Nat) (stub : ljca_stub)
    (hfind : ljca_stub_find dev l.type = .ok (i, stub)) :
    ljca_register_event_cb dev l event_cb context false ret_uninit = (-ENOMEM, dev) := by
  unfold ljca_register_event_cb
  rw [hfind]
  rfl

/-- C12 (counterexample): identity 0 is registered on the GPIO stub of `ex_listeners`;
registering it again while the allocation of the new entry fails returns `-ENOMEM`, not
`-EBUSY`.  The listener list is left as it was. -/
theorem ljca_register_event_cb_dup_enomem :
    ({ id := 0, notify := 77, context := 88 } : ljca_event_cb_entry)
      ∈ (ex_listeners.stub 1).event_entrys ∧
    (ljca_register_event_cb ex_listeners { type := 3, id := 0 } 55 66 false 0).1 = -ENOMEM ∧
    (ljca_register_event_cb ex_listeners { type := 3, id := 0 } 55 66 false 0).1 ≠ -EBUSY ∧
    (ljca_register_event_cb ex_listeners { type := 3, id := 0 } 55 66 false 0).2
      = ex_listeners := by
  decide

/-- C12 (amended): `ljca_register_event_cb` called with an identity that is already
registered on the stub fails, with `-EBUSY` when the allocation of the new entry succeeds
and with `-ENOMEM` when it fails (the allocation is made before the list is searched), and
whatever `ret` held before.  In both cases it leaves the device state, hence the stub's
listener list, exactly as it was: the prior entry is still in the list with its callback
and context, and `ljca_stub_notify` on the stub invokes what it invoked before, the prior
entry's callback included. -/
theorem ljca_register_event_cb_duplicate (dev : ljca_dev) (l : ljca) (event_cb context : Nat)
    (kzalloc_ok : Bool) (ret_uninit : Int) (i : Nat) (stub : ljca_stub)
    (prior : ljca_event_cb_entry)
    (hfind : ljca_stub_find dev l.type = .ok (i, stub))
    (hprior : prior ∈ stub.event_entrys) (hid : prior.id = l.id) :
    ljca_register_event_cb dev l event_cb context kzalloc_ok ret_uninit
      = (if kzalloc_ok = true then -EBUSY else -ENOMEM, dev) ∧
    (ljca_register_event_cb dev l event_cb context kzalloc_ok ret_uninit).1 ≠ 0 ∧
    ((ljca_register_event_cb dev l event_cb context kzalloc_ok ret_uninit).2.stub
        i).event_entrys = stub.event_entrys ∧
    prior ∈ ((ljca_register_event_cb dev l event_cb context kzalloc_ok ret_uninit).2.stub
        i).event_entrys ∧
    (∀ (cmd : Nat) (d : List Nat) (len : Nat),
      ljca_stub_notify
          ((ljca_register_event_cb dev l event_cb context kzalloc_ok ret_uninit).2.stub i)
          cmd d len
        = ljca_stub_notify stub cmd d len ∧
      (prior.notify ≠ 0 →
        ljca_io.event_cb prior.notify prior.context cmd d len
          ∈ ljca_stub_notify
              ((ljca_register_event_cb dev l event_cb context kzalloc_ok ret_uninit).2.stub i)
              cmd d len)) := by
  obtain ⟨_, hst, _⟩ := ljca_stub_find_ok _ _ _ _ hfind
  have hloop := ljca_register_event_cb_loop_dup l.id ret_uninit stub.event_entrys
    ⟨prior, hprior, hid⟩
  have hr : ljca_register_event_cb dev l event_cb context kzalloc_ok ret_uninit
      = (if kzalloc_ok = true then -EBUSY else -ENOMEM, dev) := by
    cases kzalloc_ok
    · exact ljca_register_event_cb_nomem dev l event_cb context ret_uninit i stub hfind
    · unfold ljca_register_event_cb
      rw [hfind]
      simp only [Bool.not_true, Bool.false_eq_true, if_false, hloop]
      rw [if_neg (by decide)]
      rfl
  rw [hr]
  simp only []
  rw [hst]
  refine ⟨trivial, ?_, rfl, hprior, fun cmd d len => ⟨rfl, fun hn => ?_⟩⟩
  · cases kzalloc_ok <;> decide
  · unfold ljca_stub_notify
    apply List.mem_map.mpr
    exact ⟨prior, List.mem_filter.mpr ⟨hprior, by simpa using hn⟩, rfl⟩

/-- Witness for C12 (amended): identity 0 is registered a second time on the GPIO stub of
`ex_listeners`, with another callback: once with the allocation succeeding, once with the
allocation failing. -/
theorem ljca_register_event_cb_duplicate_witness :
    (ljca_register_event_cb ex_listeners { type := 3, id := 0 } 55 66 true 0
      = (if true = true then -EBUSY else -ENOMEM, ex_listeners) ∧
     ((ljca_register_event_cb ex_listeners { type := 3, id := 0 } 55 66 true 0).2.stub
        1).event_entrys = (ex_listeners.stub 1).event_entrys) ∧
    (ljca_register_event_cb ex_listeners { type := 3, id := 0 } 55 66 false 0
      = (if false = true then -EBUSY else -ENOMEM, ex_listeners) ∧
     ((ljca_register_event_cb ex_listeners { type := 3, id := 0 } 55 66 false 0).2.stub
        1).event_entrys = (ex_listeners.stub 1).event_entrys) :=
  have ht := ljca_register_event_cb_duplicate ex_listeners { type := 3, id := 0 } 55 66 true 0
    1 (ex_listeners.stub 1) { id := 0, notify := 77, context := 88 } rfl (by decide) rfl
  have hf := ljca_register_event_cb_duplicate ex_listeners { type := 3, id := 0 } 55 66 false
    0 1 (ex_listeners.stub 1) { id := 0, notify := 77, context := 88 } rfl (by decide) rfl
  ⟨⟨ht.1, ht.2.2.1⟩, ⟨hf.1, hf.2.2.1⟩⟩

/-- With `ret` holding 0 when the search starts and the allocation succeeding, registering
an identity that is not yet on the stub returns 0 and appends the one entry (identity,
callback, context) at the tail of the stub's list; no other stub changes. -/
theorem ljca_register_event_cb_fresh_ret_zero (dev : ljca_dev) (l : ljca)
    (event_cb context : Nat) (i : Nat) (stub : ljca_stub)
    (hfind : ljca_stub_find dev l.type = .ok (i, stub))
    (hfresh : ∀ e ∈ stub.event_entrys, e.id ≠ l.id) :
    (ljca_register_event_cb dev l event_cb context true 0).1 = 0 ∧
    ((ljca_register_event_cb dev l event_cb context true 0).2.stub i).event_entrys
      = stub.event_entrys ++ [{ id := l.id, notify := event_cb, context := context }] ∧
    (∀ j, j ≠ i →
      (ljca_register_event_cb dev l event_cb context true 0).2.stub j = dev.stub j) := by
  obtain ⟨hi, _, _⟩ := ljca_stub_find_ok _ _ _ _ hfind
  have hloop := ljca_register_event_cb_loop_fresh l.id 0 stub.event_entrys hfresh
  have hr : ljca_register_event_cb dev l event_cb context true 0
      = (0, dev.set_stub i { stub with event_entrys := stub.event_entrys
            ++ [{ id := l.id, notify := event_cb, context := context }] }) := by
    unfold ljca_register_event_cb
    rw [hfind]
    simp only [Bool.not_true, Bool.false_eq_true, if_false, hloop, if_true]
  rw [hr]
  refine ⟨rfl, ?_, fun j hj => ?_⟩
  · simp only []
    rw [ljca_dev_stub_set_stub _ _ _ hi]
  · simp only []
    rw [ljca_dev_stub_set_stub_ne _ _ _ _ (fun h => hj h.symm)]

/-- C13 (evaluation at the failing input): identity 2 is not registered on the GPIO stub of
`ex_listeners` and the allocation succeeds, but `ret`, which the source never initialises,
holds 1 when the search loop starts: nothing is appended and 1 is returned; had it held 0,
the entry would have been appended at the tail and 0 returned. -/
theorem ljca_register_event_cb_uninitialised_ret :
    (∀ e ∈ (ex_listeners.stub 1).event_entrys, e.id ≠ 2) ∧
    (ljca_register_event_cb ex_listeners { type := 3, id := 2 } 55 66 true 1).1 = 1 ∧
    (ljca_register_event_cb ex_listeners { type := 3, id := 2 } 55 66 true 1).2 = ex_listeners ∧
    (ljca_register_event_cb ex_listeners { type := 3, id := 2 } 55 66 true 0).1 = 0 ∧
    ((ljca_register_event_cb ex_listeners { type := 3, id := 2 } 55 66 true 0).2.stub
        1).event_entrys
      = [{ id := 0, notify := 77, context := 88 }, { id := 1, notify := 78, context := 89 },
         { id := 2, notify := 55, context := 66 }] := by
  decide

theorem ljca_unregister_event_cb_loop_none (id : Nat) :
    ∀ l : List ljca_event_cb_entry, (∀ e ∈ l, e.id ≠ id) →
      ljca_unregister_event_cb_loop id l = l := by
  intro l
  induction l with
  | nil => intro _; rfl
  | cons x rest ih =>
    intro h
    unfold ljca_unregister_event_cb_loop
    rw [if_neg (h x (List.mem_cons_self x rest)),
      ih (fun e he => h e (List.mem_cons_of_mem x he))]

theorem ljca_unregister_event_cb_loop_split (id : Nat) :
    ∀ l : List ljca_event_cb_entry, (∃ e ∈ l, e.id = id) →
      ∃ pre e post, l = pre ++ e :: post ∧ e.id = id ∧ (∀ x ∈ pre, x.id ≠ id) ∧
        ljca_unregister_event_cb_loop id l = pre ++ post := by
  intro l
  induction l with
  | nil => rintro ⟨e, he, _⟩; cases he
  | cons x rest ih =>
    rintro ⟨e, he, hid⟩
    by_cases hx : x.id = id
    · refine ⟨[], x, rest, rfl, hx, fun y hy => (by cases hy), ?_⟩
      unfold ljca_unregister_event_cb_loop
      rw [if_pos hx]
      rfl
    · have hrest : ∃ e ∈ rest, e.id = id := by
        rcases List.mem_cons.mp he with h | h
        · exact absurd (h ▸ hid) hx
        · exact ⟨e, h, hid⟩
      obtain ⟨pre, e2, post, hl, he2, hpre, hres⟩ := ih hrest
      refine ⟨x :: pre, e2, post, by rw [hl]; rfl, he2, ?_, ?_⟩
      · intro y hy
        rcases List.mem_cons.mp hy with h | h
        · rw [h]; exact hx
        · exact hpre y h
      · unfold ljca_unregister_event_cb_loop
        rw [if_neg hx, hres]
        rfl

theorem ljca_unregister_event_cb_loop_filter (id : Nat) :
    ∀ l : List ljca_event_cb_entry, (l.map (fun e => e.id)).Nodup →
      ljca_unregister_event_cb_loop id l = l.filter (fun e => decide (e.id ≠ id)) := by
  intro l
  induction l with
  | nil => intro _; rfl
  | cons x rest ih =>
    intro hnd
    rw [List.map_cons, List.nodup_cons] at hnd
    unfold ljca_unregister_event_cb_loop
    by_cases hx : x.id = id
    · rw [if_pos hx, List.filter_cons_of_neg (by simp [hx])]
      symm
      rw [List.filter_eq_self]
      intro e he
      have : e.id ≠ x.id := fun h => hnd.1 (List.mem_map.mpr ⟨e, he, h⟩)
      simpa [← hx] using this
    · rw [if_neg hx, List.filter_cons_of_pos (by simp [hx]), ih hnd.2]

theorem ljca_dev_set_stub_self (dev : ljca_dev) (i : Nat) (h : i < dev.stubs_list.length) :
    dev.set_stub i (dev.stub i) = dev := by
  unfold ljca_dev.set_stub ljca_dev.stub
  have : dev.stubs_list.set i (dev.stubs_list.getD i default) = dev.stubs_list := by
    apply List.ext_getElem
    · simp
    · intro n h1 h2
      by_cases hn : i = n
      · subst hn
        simp [List.getD_eq_getElem?_getD, h]
      · simp [List.getElem_set_ne hn]
  rw [this]

/-- C14: `ljca_unregister_event_cb` removes from the listener list of the caller's stub
the entry with the caller's identity (the first one, should there be several), keeping
every other entry and the order of those kept; the rest of that stub and every other stub
are untouched.  If no entry has that identity, or no stub of the caller's type exists, the
device state is unchanged.  When identities in the list are pairwise distinct the new list
is the old one without the entries of that identity. -/
theorem ljca_unregister_event_cb_removes (dev : ljca_dev) (l : ljca) :
    (∀ e, ljca_stub_find dev l.type = .error e → ljca_unregister_event_cb dev l = dev) ∧
    (∀ i stub, ljca_stub_find dev l.type = .ok (i, stub) →
      ((∀ e ∈ stub.event_entrys, e.id ≠ l.id) → ljca_unregister_event_cb dev l = dev) ∧
      ((∃ e ∈ stub.event_entrys, e.id = l.id) →
        ∃ pre e post, stub.event_entrys = pre ++ e :: post ∧ e.id = l.id ∧
          (∀ x ∈ pre, x.id ≠ l.id) ∧
          ((ljca_unregister_event_cb dev l).stub i).event_entrys = pre ++ post) ∧
      ((stub.event_entrys.map (fun e => e.id)).Nodup →
        ((ljca_unregister_event_cb dev l).stub i).event_entrys
          = stub.event_entrys.filter (fun e => decide (e.id ≠ l.id))) ∧
      (ljca_unregister_event_cb dev l).stub i
        = { stub with
            event_entrys := ((ljca_unregister_event_cb dev l).stub i).event_entrys } ∧
      (∀ j, j ≠ i → (ljca_unregister_event_cb dev l).stub j = dev.stub j) ∧
      (ljca_unregister_event_cb dev l).ljcas = dev.ljcas ∧
      (ljca_unregister_event_cb dev l).started = dev.started) := by
  refine ⟨?_, ?_⟩
  · intro e he
    unfold ljca_unregister_event_cb
    rw [he]
  · intro i stub hfind
    obtain ⟨hi, hst, _⟩ := ljca_stub_find_ok _ _ _ _ hfind
    have hr : ljca_unregister_event_cb dev l
        = dev.set_stub i
            { stub with
              event_entrys := ljca_unregister_event_cb_loop l.id stub.event_entrys } := by
      unfold ljca_unregister_event_cb
      rw [hfind]
    have hs : (ljca_unregister_event_cb dev l).stub i
        = { stub with
            event_entrys := ljca_unregister_event_cb_loop l.id stub.event_entrys } := by
      rw [hr, ljca_dev_stub_set_stub _ _ _ hi]
    refine ⟨?_, ?_, ?_, ?_, ?_, ?_, ?_⟩
    · intro hnone
      rw [hr, ljca_unregister_event_cb_loop_none l.id _ hnone, ← hst]
      exact ljca_dev_set_stub_self dev i hi
    · intro hsome
      obtain ⟨pre, e, post, h1, h2, h3, h4⟩ :=
        ljca_unregister_event_cb_loop_split l.id _ hsome
      exact ⟨pre, e, post, h1, h2, h3, by rw [hs]; exact h4⟩
    · intro hnd
      rw [hs]
      exact ljca_unregister_event_cb_loop_filter l.id _ hnd
    · rw [hs]
    · intro j hj
      rw [hr, ljca_dev_stub_set_stub_ne _ _ _ _ (fun h => hj h.symm)]
    · rw [hr]
      rfl
    · rw [hr]
      rfl

/-- The removal of C14 evaluated on `ex_listeners`: identity 0 leaves the GPIO stub's list
with the entry of identity 1 only and the I2C stub's entry of identity 0 in place; an
identity that is not registered, and a type without stub, change nothing. -/
theorem ljca_unregister_event_cb_eval :
    ((ljca_unregister_event_cb ex_listeners { type := 3, id := 0 }).stub 1).event_entrys
      = [{ id := 1, notify := 78, context := 89 }] ∧
    ((ljca_unregister_event_cb ex_listeners { type := 3, id := 0 }).stub 2).event_entrys
      = [{ id := 0, notify := 79, context := 90 }] ∧
    ljca_unregister_event_cb ex_listeners { type := 3, id := 7 } = ex_listeners ∧
    ljca_unregister_event_cb ex_listeners { type := 5, id := 0 } = ex_listeners := by
  decide

/-- C15: when every entry registered on the stub has a callback, `ljca_stub_notify(stub,
cmd, payload, len)` makes exactly one invocation per entry, in list (registration) order,
the `k`-th being the `k`-th entry's callback with that entry's context and the given
command, payload and length; every invocation it makes is the callback of an entry of
this stub.  An event frame dispatched by `ljca_parse` adds exactly these invocations to
the trace. -/
theorem ljca_stub_notify_each_once (st : ljca_state) (header : ljca_msg) (i : Nat)
    (stub : ljca_stub) (cmd : Nat) (d : List Nat) (len : Nat)
    (hcb : ∀ e ∈ stub.event_entrys, e.notify ≠ 0)
    (hfind : ljca_stub_find st.dev header.type = .ok (i, stub))
    (hevt : header.flags &&& LJCA_ACK_FLAG = 0) :
    ljca_stub_notify stub cmd d len
      = stub.event_entrys.map (fun e => ljca_io.event_cb e.notify e.context cmd d len) ∧
    (ljca_stub_notify stub cmd d len).length = stub.event_entrys.length ∧
    (∀ k (hk : k < stub.event_entrys.length),
      (ljca_stub_notify stub cmd d len).get? k
        = some (ljca_io.event_cb (stub.event_entrys.get ⟨k, hk⟩).notify
            (stub.event_entrys.get ⟨k, hk⟩).context cmd d len)) ∧
    (∀ x ∈ ljca_stub_notify stub cmd d len,
      ∃ e ∈ stub.event_entrys, x = ljca_io.event_cb e.notify e.context cmd d len) ∧
    ljca_callbacks (ljca_parse st header).2.trace
      = ljca_callbacks st.trace
        ++ stub.event_entrys.map
            (fun e => ljca_io.event_cb e.notify e.context header.cmd header.data header.len) := by
  have hfilter : stub.event_entrys.filter (fun e => e.notify != 0) = stub.event_entrys := by
    rw [List.filter_eq_self]
    intro e he
    simpa using hcb e he
  have hmap : ∀ (c : Nat) (dd : List Nat) (n : Nat), ljca_stub_notify stub c dd n
      = stub.event_entrys.map (fun e => ljca_io.event_cb e.notify e.context c dd n) := by
    intro c dd n
    unfold ljca_stub_notify
    rw [hfilter]
  have hcbs : ∀ (t : List ljca_io) (es : List ljca_event_cb_entry) (c : Nat) (dd : List Nat)
      (n : Nat),
      ljca_callbacks (t ++ es.map (fun e => ljca_io.event_cb e.notify e.context c dd n))
        = ljca_callbacks t ++ es.map (fun e => ljca_io.event_cb e.notify e.context c dd n) := by
    intro t es c dd n
    induction t with
    | nil =>
      induction es with
      | nil => rfl
      | cons e es ih =>
        simp only [List.nil_append, List.map_cons, ljca_callbacks] at ih ⊢
        rw [ih]
    | cons x t ih =>
      cases x <;> simp [ljca_callbacks, ih]
  refine ⟨hmap cmd d len, by rw [hmap, List.length_map], ?_, ?_, ?_⟩
  · intro k hk
    rw [hmap]
    simp [List.getElem?_map, List.getElem?_eq_getElem hk]
  · intro x hx
    rw [hmap] at hx
    obtain ⟨e, he, rfl⟩ := List.mem_map.mp hx
    exact ⟨e, he, rfl⟩
  · have hp : ljca_parse st header
        = (0, { st with trace := st.trace
                  ++ ljca_stub_notify stub header.cmd header.data header.len }) := by
      unfold ljca_parse
      rw [hfind]
      simp only [hevt, if_true]
    rw [hp]
    simp only []
    rw [hmap, hcbs]

/-- Witness for C15: an event frame with command 4 for the GPIO stub of `ex_listeners`. -/
theorem ljca_stub_notify_each_once_witness :
    ljca_stub_notify (ex_listeners.stub 1) 4 [9] 1
      = (ex_listeners.stub 1).event_entrys.map
          (fun e => ljca_io.event_cb e.notify e.context 4 [9] 1) ∧
    (ljca_stub_notify (ex_listeners.stub 1) 4 [9] 1).length
      = (ex_listeners.stub 1).event_entrys.length ∧
    (∀ k (hk : k < (ex_listeners.stub 1).event_entrys.length),
      (ljca_stub_notify (ex_listeners.stub 1) 4 [9] 1).get? k
        = some (ljca_io.event_cb ((ex_listeners.stub 1).event_entrys.get ⟨k, hk⟩).notify
            ((ex_listeners.stub 1).event_entrys.get ⟨k, hk⟩).context 4 [9] 1)) ∧
    (∀ x ∈ ljca_stub_notify (ex_listeners.stub 1) 4 [9] 1,
      ∃ e ∈ (ex_listeners.stub 1).event_entrys,
        x = ljca_io.event_cb e.notify e.context 4 [9] 1) ∧
    ljca_callbacks
        (ljca_parse { dev := ex_listeners, mem := ex_mem, trace := [] }
          { type := 3, cmd := 4, flags := 0, len := 1, data := [9] }).2.trace
      = ljca_callbacks ([] : List ljca_io)
        ++ (ex_listeners.stub 1).event_entrys.map
            (fun e => ljca_io.event_cb e.notify e.context 4 [9] 1) :=
  ljca_stub_notify_each_once { dev := ex_listeners, mem := ex_mem, trace := [] }
    { type := 3, cmd := 4, flags := 0, len := 1, data := [9] } 1 (ex_listeners.stub 1) 4 [9] 1
    (by decide) rfl (by decide)

/-- The delivery of C15 evaluated: the two listeners of the GPIO stub are called in
registration order, the listener of the I2C stub is not. -/
theorem ljca_stub_notify_eval :
    (ljca_parse { dev := ex_listeners, mem := ex_mem, trace := [] }
        { type := 3, cmd := 4, flags := 0, len := 1, data := [9] }).2.trace
      = [ljca_io.event_cb 77 88 4 [9] 1, ljca_io.event_cb 78 89 4 [9] 1] := by
  decide

/-! ## Stub registry: `ljca_stub_find` -/

theorem ljca_stub_find_loop_first (type : Nat) :
    ∀ (l : List ljca_stub) (i : Nat) (s : ljca_stub),
      ljca_stub_find_loop type l = some (i, s) →
      ∀ j, j < i → (l.getD j default).type ≠ type := by
  intro l
  induction l with
  | nil => intro i s h; cases h
  | cons x rest ih =>
    intro i s h j hj
    unfold ljca_stub_find_loop at h
    by_cases hx : x.type = type
    · rw [if_pos hx] at h
      cases h
      omega
    · rw [if_neg hx] at h
      cases hr : ljca_stub_find_loop type rest with
      | none => rw [hr] at h; cases h
      | some r =>
        obtain ⟨k, t⟩ := r
        rw [hr] at h
        cases h
        cases j with
        | zero => exact hx
        | succ j => exact ih k s hr j (by omega)

theorem ljca_stub_find_loop_none (type : Nat) :
    ∀ l : List ljca_stub,
      ljca_stub_find_loop type l = none ↔ ∀ s ∈ l, s.type ≠ type := by
  intro l
  induction l with
  | nil => simp [ljca_stub_find_loop]
  | cons x rest ih =>
    unfold ljca_stub_find_loop
    by_cases hx : x.type = type
    · rw [if_pos hx]
      constructor
      · intro h; cases h
      · intro h; exact absurd hx (h x (List.mem_cons_self x rest))
    · rw [if_neg hx]
      cases hr : ljca_stub_find_loop type rest with
      | none =>
        have := ih.mp hr
        constructor
        · intro _ s hs
          rcases List.mem_cons.mp hs with h | h
          · rw [h]; exact hx
          · exact this s h
        · intro _; rfl
      | some r =>
        obtain ⟨k, t⟩ := r
        constructor
        · intro h; cases h
        · intro h
          have : ljca_stub_find_loop type rest = none :=
            ih.mpr (fun s hs => h s (List.mem_cons_of_mem x hs))
          rw [this] at hr
          cases hr

/-- C16: `ljca_stub_find(dev, type)` returns the first stub of the registry whose type is
the requested one whenever there is one (a stub of the list, of that type, no stub before
it having the type), and returns `-ENODEV` if and only if no registered stub has that
type; no other error is possible, and as a function of the registry it has no effect on
it. -/
theorem ljca_stub_find_first_of_type (dev : ljca_dev) (type : Nat) :
    (∀ i s, ljca_stub_find dev type = .ok (i, s) →
      dev.stubs_list.get? i = some s ∧ s.type = type ∧
      ∀ j, j < i → (dev.stub j).type ≠ type) ∧
    ((∃ s ∈ dev.stubs_list, s.type = type) →
      ∃ i s, ljca_stub_find dev type = .ok (i, s)) ∧
    (ljca_stub_find dev type = .error (-ENODEV) ↔ ∀ s ∈ dev.stubs_list, s.type ≠ type) ∧
    (∀ e, ljca_stub_find dev type = .error e → e = -ENODEV) := by
  refine ⟨?_, ?_, ?_, ?_⟩
  · intro i s h
    unfold ljca_stub_find at h
    cases hl : ljca_stub_find_loop type dev.stubs_list with
    | none => rw [hl] at h; cases h
    | some r =>
      rw [hl] at h
      cases h
      obtain ⟨h1, h2⟩ := ljca_stub_find_loop_some type _ i s hl
      exact ⟨h1, h2, ljca_stub_find_loop_first type _ i s hl⟩
  · rintro ⟨s, hs, ht⟩
    unfold ljca_stub_find
    cases hl : ljca_stub_find_loop type dev.stubs_list with
    | none => exact absurd ht ((ljca_stub_find_loop_none type _).mp hl s hs)
    | some r => exact ⟨r.1, r.2, rfl⟩
  · unfold ljca_stub_find
    cases hl : ljca_stub_find_loop type dev.stubs_list with
    | none =>
      constructor
      · intro _
        exact (ljca_stub_find_loop_none type _).mp hl
      · intro _; rfl
    | some r =>
      constructor
      · intro h; cases h
      · intro h
        rw [(ljca_stub_find_loop_none type _).mpr h] at hl
        cases hl
  · intro e h
    unfold ljca_stub_find at h
    cases hl : ljca_stub_find_loop type dev.stubs_list with
    | none => rw [hl] at h; cases h; rfl
    | some r => rw [hl] at h; cases h

/-- The lookup of C16 evaluated on a registry with two stubs of type 3: the first one, at
position 1, is returned; type 5 is not registered. -/
theorem ljca_stub_find_eval :
    ljca_stub_find { ex_listeners with stubs_list := ex_listeners.stubs_list ++ [ex_gpio_stub] } 3
      = .ok (1, ex_listeners.stub 1) ∧
    ljca_stub_find ex_listeners 4 = .ok (2, ex_listeners.stub 2) ∧
    ljca_stub_find ex_listeners 5 = .error (-ENODEV) :=
  ⟨rfl, rfl, rfl⟩

/-! ## Exchanges leave the shape of the registry alone -/

theorem ljca_dev_same_shape_refl (a : ljca_dev) : a.same_shape a :=
  ⟨rfl, rfl, rfl, fun _ => ⟨rfl, rfl, rfl⟩⟩

theorem ljca_dev_same_shape_trans (a b c : ljca_dev) (h1 : a.same_shape b)
    (h2 : b.same_shape c) : a.same_shape c := by
  obtain ⟨a1, a2, a3, a4⟩ := h1
  obtain ⟨b1, b2, b3, b4⟩ := h2
  refine ⟨a1.trans b1, a2.trans b2, a3.trans b3, fun j => ?_⟩
  exact ⟨(a4 j).1.trans (b4 j).1, (a4 j).2.1.trans (b4 j).2.1, (a4 j).2.2.trans (b4 j).2.2⟩

theorem ljca_dev_set_stub_same_shape (dev : ljca_dev) (i : Nat) (s : ljca_stub)
    (ht : s.type = (dev.stub i).type) (hp : s.priv = (dev.stub i).priv)
    (he : s.event_entrys = (dev.stub i).event_entrys) :
    (dev.set_stub i s).same_shape dev := by
  refine ⟨rfl, rfl, by simp [ljca_dev.set_stub], fun j => ?_⟩
  by_cases hij : i = j
  · subst hij
    by_cases hi : i < dev.stubs_list.length
    · rw [ljca_dev_stub_set_stub _ _ _ hi]
      exact ⟨ht, hp, he⟩
    · have : dev.set_stub i s = dev := by
        unfold ljca_dev.set_stub
        rw [List.set_eq_of_length_le (Nat.le_of_not_lt hi)]
      rw [this]
      exact ⟨rfl, rfl, rfl⟩
  · rw [ljca_dev_stub_set_stub_ne _ _ _ _ hij]
    exact ⟨rfl, rfl, rfl⟩

theorem ljca_parse_same_shape (st : ljca_state) (header : ljca_msg) :
    (ljca_parse st header).2.dev.same_shape st.dev := by
  unfold ljca_parse
  split
  · exact ljca_dev_same_shape_refl _
  · rename_i i stub hf
    obtain ⟨_, hst, _⟩ := ljca_stub_find_ok _ _ _ _ hf
    split
    · exact ljca_dev_same_shape_refl _
    · split
      · exact ljca_dev_same_shape_refl _
      · apply ljca_dev_set_stub_same_shape <;> rw [hst]

theorem ljca_read_complete_same_shape (st : ljca_state) (u : urb) :
    (ljca_read_complete st u).dev.same_shape st.dev := by
  unfold ljca_read_complete
  simp only []
  split
  · split <;> exact ljca_dev_same_shape_refl _
  · split
    · exact ljca_dev_same_shape_refl _
    · exact ljca_parse_same_shape st _

theorem ljca_rx_same_shape (us : List urb) : ∀ st : ljca_state,
    (ljca_rx st us).dev.same_shape st.dev := by
  induction us with
  | nil => intro st; exact ljca_dev_same_shape_refl _
  | cons u us ih =>
    intro st
    have : ljca_rx st (u :: us) = ljca_rx (ljca_read_complete st u) us := rfl
    rw [this]
    exact ljca_dev_same_shape_trans _ _ _ (ih _) (ljca_read_complete_same_shape st u)

theorem ljca_stub_write_unlock_same_shape (st : ljca_state) (stub : Nat) (ret : Int) :
    (ljca_stub_write_unlock st stub ret).2.dev.same_shape st.dev := by
  unfold ljca_stub_write_unlock
  exact ljca_dev_set_stub_same_shape _ _ _ rfl rfl rfl

theorem ljca_stub_write_s2_same_shape (st : ljca_state) (stub cmd : Nat)
    (obuf : Option (List Nat)) (obuf_len ibuf ibuf_len : Nat) (wait_ack : Bool)
    (env : ljca_write_env) :
    (ljca_stub_write_s2 st stub cmd obuf obuf_len ibuf ibuf_len wait_ack env).dev.same_shape
      st.dev := by
  unfold ljca_stub_write_s2
  refine ljca_dev_same_shape_trans _ _ _ (ljca_rx_same_shape _ _) ?_
  unfold ljca_stub_write_s1
  exact ljca_dev_set_stub_same_shape _ _ _ rfl rfl rfl

theorem ljca_stub_write_s3_same_shape (st : ljca_state) (stub cmd : Nat)
    (obuf : Option (List Nat)) (obuf_len ibuf ibuf_len : Nat) (wait_ack : Bool) (timeout : Nat)
    (env : ljca_write_env) :
    (ljca_stub_write_s3 st stub cmd obuf obuf_len ibuf ibuf_len wait_ack timeout
        env).dev.same_shape st.dev := by
  unfold ljca_stub_write_s3
  exact ljca_dev_same_shape_trans _ _ _ (ljca_rx_same_shape _ _)
    (ljca_stub_write_s2_same_shape st stub cmd obuf obuf_len ibuf ibuf_len wait_ack env)

/-- Whatever happens in a call of `ljca_stub_write`, the registry keeps its shape: no
stub or child is added or removed, no type, private data or listener list changes. -/
theorem ljca_stub_write_same_shape (st : ljca_state) (stub cmd : Nat)
    (obuf : Option (List Nat)) (obuf_len ibuf ibuf_len : Nat) (wait_ack : Bool) (timeout : Nat)
    (env : ljca_write_env) :
    (ljca_stub_write st stub cmd obuf obuf_len ibuf ibuf_len wait_ack timeout
        env).2.dev.same_shape st.dev := by
  by_cases hsize : ljca_msg_len obuf_len ≤ LJCA_MAX_PACKET_SIZE
  · by_cases hk : env.kmalloc_ok = true
    · by_cases hs : st.dev.started = true
      · have a := ljca_stub_write_s2_same_shape st stub cmd obuf obuf_len ibuf ibuf_len
          wait_ack env
        have b := ljca_stub_write_s3_same_shape st stub cmd obuf obuf_len ibuf ibuf_len
          wait_ack timeout env
        rw [ljca_stub_write_eq st stub cmd obuf obuf_len ibuf ibuf_len wait_ack timeout env
          hsize hk hs]
        split
        · exact ljca_dev_same_shape_trans _ _ _ (ljca_stub_write_unlock_same_shape _ _ _) a
        · split
          · exact ljca_dev_same_shape_trans _ _ _ (ljca_stub_write_unlock_same_shape _ _ _) a
          · split
            · split
              · exact ljca_dev_same_shape_trans _ _ _
                  (ljca_stub_write_unlock_same_shape _ _ _) b
              · exact ljca_dev_same_shape_trans _ _ _
                  (ljca_stub_write_unlock_same_shape _ _ _) b
            · exact ljca_dev_same_shape_trans _ _ _
                (ljca_stub_write_unlock_same_shape _ _ _) a
      · unfold ljca_stub_write
        simp only [Bool.not_eq_true] at hs
        simp only [hk, hs, Bool.not_true, Bool.not_false, Bool.false_eq_true, if_false,
          if_true, gt_iff_lt, if_neg (Nat.not_lt.mpr hsize)]
        exact ljca_dev_same_shape_refl _
    · unfold ljca_stub_write
      simp only [Bool.not_eq_true] at hk
      simp only [hk, Bool.not_false, if_true, gt_iff_lt, if_neg (Nat.not_lt.mpr hsize)]
      exact ljca_dev_same_shape_refl _
  · unfold ljca_stub_write
    simp only [gt_iff_lt, if_pos (Nat.lt_of_not_le hsize)]
    exact ljca_dev_same_shape_refl _

/-- The frames and the sleeps a call of `ljca_stub_write` adds to the trace: past the
size, allocation and `started` checks exactly one frame, and either no sleep or one sleep
with the caller's timeout. -/
theorem ljca_stub_write_frames (st : ljca_state) (stub cmd : Nat)
    (obuf : Option (List Nat)) (obuf_len ibuf ibuf_len : Nat) (wait_ack : Bool) (timeout : Nat)
    (env : ljca_write_env) (hsize : ljca_msg_len obuf_len ≤ LJCA_MAX_PACKET_SIZE)
    (hk : env.kmalloc_ok = true) (hs : st.dev.started = true) :
    ljca_frames
        (ljca_stub_write st stub cmd obuf obuf_len ibuf ibuf_len wait_ack timeout env).2.trace
      = ljca_frames st.trace
        ++ [(ljca_stub_write_msg (st.dev.stub stub).type cmd obuf obuf_len wait_ack
              env.uninit).bytes.take (ljca_msg_len obuf_len)] ∧
    (ljca_wait_timeouts
        (ljca_stub_write st stub cmd obuf obuf_len ibuf ibuf_len wait_ack timeout env).2.trace
      = ljca_wait_timeouts st.trace ∨
     ljca_wait_timeouts
        (ljca_stub_write st stub cmd obuf obuf_len ibuf ibuf_len wait_ack timeout env).2.trace
      = ljca_wait_timeouts st.trace ++ [timeout]) := by
  obtain ⟨r1, h2t, hall1⟩ := ljca_stub_write_s2_trace st stub cmd obuf obuf_len ibuf ibuf_len
    wait_ack env
  obtain ⟨r2, h3t, hall2⟩ := ljca_stub_write_s3_trace st stub cmd obuf obuf_len ibuf ibuf_len
    wait_ack timeout env
  have f2 : ljca_frames
      (ljca_stub_write_s2 st stub cmd obuf obuf_len ibuf ibuf_len wait_ack env).trace
      = ljca_frames st.trace
        ++ [(ljca_stub_write_msg (st.dev.stub stub).type cmd obuf obuf_len wait_ack
              env.uninit).bytes.take (ljca_msg_len obuf_len)] := by
    rw [h2t, ljca_frames_append, ljca_frames_append, ljca_frames_from_rx r1 hall1]
    simp [ljca_frames]
  have f3 : ljca_frames
      (ljca_stub_write_s3 st stub cmd obuf obuf_len ibuf ibuf_len wait_ack timeout env).trace
      = ljca_frames st.trace
        ++ [(ljca_stub_write_msg (st.dev.stub stub).type cmd obuf obuf_len wait_ack
              env.uninit).bytes.take (ljca_msg_len obuf_len)] := by
    rw [h3t, ljca_frames_append, ljca_frames_append, ljca_frames_from_rx r2 hall2, f2]
    simp [ljca_frames]
  have w2 : ljca_wait_timeouts
      (ljca_stub_write_s2 st stub cmd obuf obuf_len ibuf ibuf_len wait_ack env).trace
      = ljca_wait_timeouts st.trace := by
    rw [h2t, ljca_wait_timeouts_append, ljca_wait_timeouts_append,
      ljca_wait_timeouts_from_rx r1 hall1]
    simp [ljca_wait_timeouts]
  have w3 : ljca_wait_timeouts
      (ljca_stub_write_s3 st stub cmd obuf obuf_len ibuf ibuf_len wait_ack timeout env).trace
      = ljca_wait_timeouts st.trace ++ [timeout] := by
    rw [h3t, ljca_wait_timeouts_append, ljca_wait_timeouts_append,
      ljca_wait_timeouts_from_rx r2 hall2, w2]
    simp [ljca_wait_timeouts]
  rw [ljca_stub_write_eq st stub cmd obuf obuf_len ibuf ibuf_len wait_ack timeout env
    hsize hk hs]
  split
  · exact ⟨f2, Or.inl w2⟩
  · split
    · exact ⟨f2, Or.inl w2⟩
    · split
      · split
        · exact ⟨f3, Or.inr w3⟩
        · exact ⟨f3, Or.inr w3⟩
      · exact ⟨f2, Or.inl w2⟩

/-! ## Bring-up: stubs and children -/

theorem ljca_stub_alloc_ok (dev : ljca_dev) (type priv_size : Nat) :
    ljca_stub_alloc dev type priv_size true
      = .ok (dev.stubs_list.length,
          { dev with stubs_list := dev.stubs_list ++ [ljca_stub_fresh type priv_size] }) := rfl

theorem ljca_dev_stub_tail (dev : ljca_dev) (x : ljca_stub) (l : List ljca) :
    ({ dev with stubs_list := dev.stubs_list ++ [x], ljcas := l } : ljca_dev).stub
        dev.stubs_list.length = x := by
  simp [ljca_dev.stub, List.getD_eq_getElem?_getD]

theorem ljca_stub_destroy_tail (dev : ljca_dev) (x : ljca_stub) (l : List ljca) :
    ljca_stub_destroy ({ dev with stubs_list := dev.stubs_list ++ [x], ljcas := l } : ljca_dev)
        dev.stubs_list.length = { dev with ljcas := l } := by
  unfold ljca_stub_destroy
  simp only []
  rw [List.eraseIdx_append_of_length_le (Nat.le_refl _)]
  simp

theorem ljca_add_aux_dev_succeeds (dev : ljca_dev) (name : ljca_aux_name) (type id adr : Nat)
    (data : ljca_platform_data) (env : ljca_aux_env)
    (hroom : dev.ljcas.length < LJCA_ACPI_MATCH_MAX) (hok : env.all_ok = true) :
    ljca_add_aux_dev dev name type id adr data env
      = (0, { dev with ljcas := dev.ljcas ++
                [{ type := type, id := id,
                   auxdev := { name := name, id := id, platform_data := data } }] }) := by
  simp only [ljca_aux_env.all_ok, Bool.and_eq_true, decide_eq_true_eq] at hok
  obtain ⟨⟨⟨h1, h2⟩, h3⟩, h4⟩ := hok
  unfold ljca_add_aux_dev
  simp only [ge_iff_le, if_neg (Nat.not_le.mpr hroom), h1, h2, h3, h4, Bool.not_true,
    Bool.false_eq_true, if_false, ne_eq, not_true_eq_false]

/-- A failed child addition leaves the device state as it was; in every case the registry
of stubs and `started` are untouched and `ljcas` only grows at the tail. -/
theorem ljca_add_aux_dev_effect (dev : ljca_dev) (name : ljca_aux_name) (type id adr : Nat)
    (data : ljca_platform_data) (env : ljca_aux_env) :
    ((ljca_add_aux_dev dev name type id adr data env).1 ≠ 0 →
      (ljca_add_aux_dev dev name type id adr data env).2 = dev) ∧
    ((ljca_add_aux_dev dev name type id adr data env).1 = 0 →
      (ljca_add_aux_dev dev name type id adr data env).2
        = { dev with ljcas := dev.ljcas ++
              [{ type := type, id := id,
                 auxdev := { name := name, id := id, platform_data := data } }] }) := by
  unfold ljca_add_aux_dev
  split
  · exact ⟨fun _ => rfl, fun h => absurd h (by simp [EINVAL, ENOMEM])⟩
  · split
    · exact ⟨fun _ => rfl, fun h => absurd h (by simp [EINVAL, ENOMEM])⟩
    · split
      · exact ⟨fun _ => rfl, fun h => absurd h (by simp [EINVAL, ENOMEM])⟩
      · split
        · rename_i h
          exact ⟨fun _ => rfl, fun h2 => absurd h2 h⟩
        · split
          · rename_i h
            exact ⟨fun _ => rfl, fun h2 => absurd h2 h⟩
          · exact ⟨fun h => absurd rfl h, fun _ => rfl⟩

theorem ljca_i2c_stub_init_loop_ok (desc : ljca_i2c_descriptor) (stub : Nat)
    (env : ljca_init_env) :
    ∀ (n i : Nat) (dev : ljca_dev),
      (∀ k, i ≤ k → k < i + n → (env.aux k).all_ok = true) →
      dev.ljcas.length + n ≤ LJCA_ACPI_MATCH_MAX → i + n ≤ 256 →
      ljca_i2c_stub_init_loop desc stub env n i dev
        = (0, { dev with ljcas := dev.ljcas
              ++ (List.range' i n).map (ljca_i2c_child desc (dev.stub stub).type) }) := by
  intro n
  induction n with
  | zero =>
    intro i dev _ _ _
    simp [ljca_i2c_stub_init_loop]
  | succ n ih =>
    intro i dev haux hroom hi
    unfold ljca_i2c_stub_init_loop
    simp only []
    rw [ljca_add_aux_dev_succeeds dev _ _ _ _ _ _ (by omega) (haux i (Nat.le_refl i) (by omega))]
    simp only [ne_eq, not_true_eq_false, if_false]
    rw [ih (i + 1) _ (fun k h1 h2 => haux k (by omega) (by omega))
      (by simp only [List.length_append, List.length_singleton]; omega) (by omega)]
    have hmod : i % 256 = i := Nat.mod_eq_of_lt (by omega)
    simp [List.range'_succ, hmod, ljca_dev.stub, ljca_i2c_child, ljca_spi_child]

theorem ljca_spi_stub_init_loop_ok (desc : ljca_spi_descriptor) (stub : Nat)
    (env : ljca_init_env) :
    ∀ (n i : Nat) (dev : ljca_dev),
      (∀ k, i ≤ k → k < i + n → (env.aux k).all_ok = true) →
      dev.ljcas.length + n ≤ LJCA_ACPI_MATCH_MAX → i + n ≤ 256 →
      ljca_spi_stub_init_loop desc stub env n i dev
        = (0, { dev with ljcas := dev.ljcas
              ++ (List.range' i n).map (ljca_spi_child desc (dev.stub stub).type) }) := by
  intro n
  induction n with
  | zero =>
    intro i dev _ _ _
    simp [ljca_spi_stub_init_loop]
  | succ n ih =>
    intro i dev haux hroom hi
    unfold ljca_spi_stub_init_loop
    simp only []
    rw [ljca_add_aux_dev_succeeds dev _ _ _ _ _ _ (by omega) (haux i (Nat.le_refl i) (by omega))]
    simp only [ne_eq, not_true_eq_false, if_false]
    rw [ih (i + 1) _ (fun k h1 h2 => haux k (by omega) (by omega))
      (by simp only [List.length_append, List.length_singleton]; omega) (by omega)]
    have hmod : i % 256 = i := Nat.mod_eq_of_lt (by omega)
    simp [List.range'_succ, hmod, ljca_dev.stub, ljca_i2c_child, ljca_spi_child]

/-- The children of the three stub initialisations.  For an I2C (resp. SPI) descriptor
reporting `n` units, when the stub allocation and every child addition succeed (each step
of each addition succeeds and the `n` children fit into `dev->ljcas[]`),
`ljca_i2c_stub_init` (resp. `ljca_spi_stub_init`) returns 0, links exactly one fresh stub
of that kind at the tail of the registry and appends exactly `n` children in order, the
`k`-th carrying identity `k`, the stub's type and the capability fields of descriptor entry
`k`.  A GPIO descriptor that is accepted (`pins_per_bank * bank_num ≤ 64`) and has at most
two banks, so that every store into `valid_pin` is inside the array, gives one fresh GPIO
stub and exactly one child, with identity 0 and pin count `pins_per_bank * bank_num`. -/
theorem ljca_stub_init_children (dev : ljca_dev) (gdesc : ljca_gpio_descriptor)
    (idesc : ljca_i2c_descriptor) (sdesc : ljca_spi_descriptor) (env : ljca_init_env)
    (halloc : env.stub_alloc_ok = true)
    (hiaux : ∀ k, k < idesc.num → (env.aux k).all_ok = true)
    (hiroom : dev.ljcas.length + idesc.num ≤ LJCA_ACPI_MATCH_MAX)
    (hsaux : ∀ k, k < sdesc.num → (env.aux k).all_ok = true)
    (hsroom : dev.ljcas.length + sdesc.num ≤ LJCA_ACPI_MATCH_MAX)
    (hgacc : gdesc.pins_per_bank * gdesc.bank_num ≤ LJCA_MAX_GPIO_NUM)
    (hgbanks : gdesc.bank_num ≤ ljca_gpio_valid_pin_size)
    (hgaux : (env.aux 0).all_ok = true)
    (hgroom : dev.ljcas.length < LJCA_ACPI_MATCH_MAX) :
    ljca_i2c_stub_init dev idesc env
      = (0, { dev with
              stubs_list := dev.stubs_list ++ [ljca_stub_fresh LJCA_I2C_STUB 0],
              ljcas := dev.ljcas
                ++ (List.range idesc.num).map (ljca_i2c_child idesc LJCA_I2C_STUB) }) ∧
    ljca_spi_stub_init dev sdesc env
      = (0, { dev with
              stubs_list := dev.stubs_list ++ [ljca_stub_fresh LJCA_SPI_STUB 0],
              ljcas := dev.ljcas
                ++ (List.range sdesc.num).map (ljca_spi_child sdesc LJCA_SPI_STUB) }) ∧
    (∀ i ∈ ljca_gpio_valid_pin_stores gdesc.bank_num 0, i < ljca_gpio_valid_pin_size) ∧
    ∃ valid_pin_map,
      ljca_gpio_stub_init dev gdesc env
        = (0, { dev with
                stubs_list := dev.stubs_list
                  ++ [ljca_stub_fresh LJCA_GPIO_STUB (gdesc.bank_num * 8)],
                ljcas := dev.ljcas
                  ++ [ljca_gpio_child LJCA_GPIO_STUB (gdesc.pins_per_bank * gdesc.bank_num)
                        valid_pin_map] }) := by
  have hmax : LJCA_ACPI_MATCH_MAX = 5 := rfl
  refine ⟨?_, ?_, ?_, ?_⟩
  · unfold ljca_i2c_stub_init
    rw [halloc, ljca_stub_alloc_ok]
    simp only []
    rw [ljca_i2c_stub_init_loop_ok idesc _ env idesc.num 0 _
      (fun k _ h2 => hiaux k (by omega)) (by simpa using hiroom) (by omega)]
    have ht := ljca_dev_stub_tail dev (ljca_stub_fresh LJCA_I2C_STUB 0) dev.ljcas
    simp only [] at ht ⊢
    rw [ht, List.range_eq_range']
    rfl
  · unfold ljca_spi_stub_init
    rw [halloc, ljca_stub_alloc_ok]
    simp only []
    rw [ljca_spi_stub_init_loop_ok sdesc _ env sdesc.num 0 _
      (fun k _ h2 => hsaux k (by omega)) (by simpa using hsroom) (by omega)]
    have ht := ljca_dev_stub_tail dev (ljca_stub_fresh LJCA_SPI_STUB 0) dev.ljcas
    simp only [] at ht ⊢
    rw [ht, List.range_eq_range']
    rfl
  · intro i hi
    have hgb : gdesc.bank_num ≤ 2 := hgbanks
    have hsize : ljca_gpio_valid_pin_size = 2 := rfl
    have hm : ∀ (n a j : Nat), j ∈ ljca_gpio_valid_pin_stores n a → j < a + n := by
      intro n
      induction n with
      | zero => intro a j hj; cases hj
      | succ n ih =>
        intro a j hj
        unfold ljca_gpio_valid_pin_stores at hj
        rcases List.mem_cons.mp hj with h | h
        · omega
        · have := ih (a + 1) j h
          omega
    have := hm gdesc.bank_num 0 i hi
    omega
  · refine ⟨bitmap_from_arr32
      [ljca_gpio_valid_pin_loop gdesc gdesc.bank_num 0 env.valid_pin 0,
       ljca_gpio_valid_pin_loop gdesc gdesc.bank_num 0 env.valid_pin 1]
      (gdesc.pins_per_bank * gdesc.bank_num), ?_⟩
    unfold ljca_gpio_stub_init
    simp only [gt_iff_lt, if_neg (Nat.not_lt.mpr hgacc)]
    rw [halloc, ljca_stub_alloc_ok]
    simp only []
    rw [ljca_add_aux_dev_succeeds _ _ _ _ _ _ _ (by simpa using hgroom) hgaux]
    have ht := ljca_dev_stub_tail dev (ljca_stub_fresh LJCA_GPIO_STUB (gdesc.bank_num * 8))
      dev.ljcas
    simp only [] at ht ⊢
    simp only [ne_eq, not_true_eq_false, if_false, ht]
    rfl

/-- The three example descriptors on the registry of `ex_boot`: two I2C controllers, one
SPI controller, two GPIO banks of 32 pins. -/
theorem ljca_stub_init_children_witness :
    ljca_i2c_stub_init ex_boot.dev ex_i2c_desc ex_init_ok
      = (0, { ex_boot.dev with
              stubs_list := ex_boot.dev.stubs_list ++ [ljca_stub_fresh LJCA_I2C_STUB 0],
              ljcas := ex_boot.dev.ljcas
                ++ (List.range ex_i2c_desc.num).map (ljca_i2c_child ex_i2c_desc LJCA_I2C_STUB) }) ∧
    ljca_spi_stub_init ex_boot.dev ex_spi_desc ex_init_ok
      = (0, { ex_boot.dev with
              stubs_list := ex_boot.dev.stubs_list ++ [ljca_stub_fresh LJCA_SPI_STUB 0],
              ljcas := ex_boot.dev.ljcas
                ++ (List.range ex_spi_desc.num).map (ljca_spi_child ex_spi_desc LJCA_SPI_STUB) }) ∧
    (∀ i ∈ ljca_gpio_valid_pin_stores ex_gpio_desc.bank_num 0, i < ljca_gpio_valid_pin_size) ∧
    ∃ valid_pin_map,
      ljca_gpio_stub_init ex_boot.dev ex_gpio_desc ex_init_ok
        = (0, { ex_boot.dev with
                stubs_list := ex_boot.dev.stubs_list
                  ++ [ljca_stub_fresh LJCA_GPIO_STUB (ex_gpio_desc.bank_num * 8)],
                ljcas := ex_boot.dev.ljcas
                  ++ [ljca_gpio_child LJCA_GPIO_STUB
                        (ex_gpio_desc.pins_per_bank * ex_gpio_desc.bank_num)
                        valid_pin_map] }) :=
  ljca_stub_init_children ex_boot.dev ex_gpio_desc ex_i2c_desc ex_spi_desc ex_init_ok rfl
    (fun _ _ => rfl) (by decide) (fun _ _ => rfl) (by decide) (by decide) (by decide) rfl
    (by decide)

/-- The children evaluated on the example descriptors: two I2C children with
identities 0 and 1, one SPI child, one GPIO child with 64 pins. -/
theorem ljca_example_descriptors_children_eval :
    (ljca_i2c_stub_init ex_boot.dev ex_i2c_desc ex_init_ok).2.ljcas
      = [{ type := 4, id := 0,
           auxdev := { name := ljca_aux_name.ljca_i2c, id := 0,
                       platform_data := ljca_platform_data.i2c
                         { id := 0, capacity := 1, intr_pin := 2 } } },
         { type := 4, id := 1,
           auxdev := { name := ljca_aux_name.ljca_i2c, id := 1,
                       platform_data := ljca_platform_data.i2c
                         { id := 1, capacity := 1, intr_pin := 3 } } }] ∧
    (ljca_spi_stub_init ex_boot.dev ex_spi_desc ex_init_ok).2.ljcas
      = [{ type := 5, id := 0,
           auxdev := { name := ljca_aux_name.ljca_spi, id := 0,
                       platform_data := ljca_platform_data.spi
                         { id := 0, capacity := 1 } } }] ∧
    (ljca_gpio_stub_init ex_boot.dev ex_gpio_desc ex_init_ok).2.ljcas
      = [{ type := 3, id := 0,
           auxdev := { name := ljca_aux_name.ljca_gpio, id := 0,
                       platform_data := ljca_platform_data.gpio
                         { num := 64, valid_pin_map := 18446744073709551615 } } }] ∧
    ((ljca_i2c_stub_init ex_boot.dev ex_i2c_desc ex_init_ok).2.stubs_list.map
        (fun s => s.type)) = [1, 4] := by
  decide

/-! ## Command exchange: one matching reply -/

/-- An acknowledged exchange during which exactly one frame is received, a valid
acknowledgement for the exchanging stub carrying the issued command, returns 0 and leaves
in caller memory the reply cut to the capacity: the capacity variable holds
`min(len, capacity)` and that many payload bytes are in the reply buffer. -/
theorem ljca_stub_write_single_reply (st : ljca_state) (stub cmd : Nat)
    (obuf : Option (List Nat)) (obuf_len ibuf ibuf_len : Nat) (timeout : Nat)
    (env : ljca_write_env) (u : urb) (s : ljca_stub)
    (hsize : ljca_msg_len obuf_len ≤ LJCA_MAX_PACKET_SIZE)
    (hk : env.kmalloc_ok = true) (hs : st.dev.started = true)
    (hret : env.bulk_ret = 0) (hact : to_uint env.bulk_actual = ljca_msg_len obuf_len)
    (hrw : env.rx_write = []) (hrx : env.rx_wait = [u]) (hu : u.status = 0)
    (hval : ljca_validate (ljca_msg_of_buf u.transfer_buffer) u.actual_length = true)
    (hfind : ljca_stub_find st.dev (ljca_msg_of_buf u.transfer_buffer).type = .ok (stub, s))
    (hack : (ljca_msg_of_buf u.transfer_buffer).flags &&& LJCA_ACK_FLAG ≠ 0)
    (hcmd : ((ljca_msg_of_buf u.transfer_buffer).cmd : Int) = (cmd : Int))
    (hibuf : ibuf ≠ 0) (hilen : ibuf_len ≠ 0) (hrem : env.remaining < 2 ^ 32) :
    (ljca_stub_write st stub cmd obuf obuf_len ibuf ibuf_len true timeout env).1 = 0 ∧
    (ljca_stub_write st stub cmd obuf obuf_len ibuf ibuf_len true timeout env).2.mem
      = (st.mem.store ibuf_len
          (min ((ljca_msg_of_buf u.transfer_buffer).len % 2 ^ 32)
            (st.mem.words ibuf_len % 2 ^ 32))).memcpy ibuf
          (ljca_msg_of_buf u.transfer_buffer).data
          (min ((ljca_msg_of_buf u.transfer_buffer).len % 2 ^ 32)
            (st.mem.words ibuf_len % 2 ^ 32)) := by
  obtain ⟨hstub, hst, _⟩ := ljca_stub_find_ok _ _ _ _ hfind
  have hfind1 := ljca_stub_find_set_stub st.dev _ stub s
    { (st.dev.stub stub) with
      cur_cmd := (cmd : Int), ipacket := { ibuf_len := ibuf_len, ibuf := ibuf },
      acked := false } hfind (by rw [← hst])
  have hparse : ∀ t : List ljca_io,
      ljca_parse { (ljca_stub_write_s1 st stub cmd ibuf ibuf_len) with trace := t }
          (ljca_msg_of_buf u.transfer_buffer)
        = (0, { dev := (ljca_stub_write_s1 st stub cmd ibuf ibuf_len).dev.set_stub stub
                  { (st.dev.stub stub) with
                    cur_cmd := (cmd : Int), ipacket := { ibuf_len := ibuf_len, ibuf := ibuf },
                    acked := true },
                mem := (st.mem.store ibuf_len
                    (min ((ljca_msg_of_buf u.transfer_buffer).len % 2 ^ 32)
                      (st.mem.words ibuf_len % 2 ^ 32))).memcpy ibuf
                    (ljca_msg_of_buf u.transfer_buffer).data
                    (min ((ljca_msg_of_buf u.transfer_buffer).len % 2 ^ 32)
                      (st.mem.words ibuf_len % 2 ^ 32)),
                trace := t ++ [ljca_io.wake_up] }) := by
    intro t
    unfold ljca_parse
    have hf : ljca_stub_find
        ({ (ljca_stub_write_s1 st stub cmd ibuf ibuf_len) with trace := t } : ljca_state).dev
        (ljca_msg_of_buf u.transfer_buffer).type = .ok (stub,
          { (st.dev.stub stub) with
            cur_cmd := (cmd : Int), ipacket := { ibuf_len := ibuf_len, ibuf := ibuf },
            acked := false }) := hfind1
    rw [hf]
    simp only [hack, if_false, hcmd, ne_eq, not_true_eq_false, hibuf, hilen,
      not_false_eq_true, and_self, if_true]
    rfl
  have h3 : ∃ t, (ljca_stub_write_s3 st stub cmd obuf obuf_len ibuf ibuf_len true timeout env)
      = { dev := (ljca_stub_write_s1 st stub cmd ibuf ibuf_len).dev.set_stub stub
            { (st.dev.stub stub) with
              cur_cmd := (cmd : Int), ipacket := { ibuf_len := ibuf_len, ibuf := ibuf },
              acked := true },
          mem := (st.mem.store ibuf_len
              (min ((ljca_msg_of_buf u.transfer_buffer).len % 2 ^ 32)
                (st.mem.words ibuf_len % 2 ^ 32))).memcpy ibuf
              (ljca_msg_of_buf u.transfer_buffer).data
              (min ((ljca_msg_of_buf u.transfer_buffer).len % 2 ^ 32)
                (st.mem.words ibuf_len % 2 ^ 32)),
          trace := t } := by
    unfold ljca_stub_write_s3 ljca_stub_write_s2
    rw [hrw, hrx]
    simp only [ljca_rx, List.foldl_cons, List.foldl_nil]
    unfold ljca_read_complete
    simp only [hu, ne_eq, not_true_eq_false, if_false, hval, Bool.not_true,
      Bool.false_eq_true]
    rw [hparse]
    exact ⟨_, rfl⟩
  obtain ⟨t, h3⟩ := h3
  have hlen1 : stub < (ljca_stub_write_s1 st stub cmd ibuf ibuf_len).dev.stubs_list.length := by
    simp [ljca_stub_write_s1, ljca_dev.set_stub, hstub]
  have hacked : ((ljca_stub_write_s3 st stub cmd obuf obuf_len ibuf ibuf_len true timeout
      env).dev.stub stub).acked = true := by
    rw [h3]
    simp only []
    rw [ljca_dev_stub_set_stub _ _ _ hlen1]
  rw [ljca_stub_write_eq st stub cmd obuf obuf_len ibuf ibuf_len true timeout env hsize hk hs]
  simp only [hret, ne_eq, not_true_eq_false, if_false, hact, if_true, hacked]
  rw [if_neg (long_to_int_wait_ne_zero _ hrem)]
  refine ⟨rfl, ?_⟩
  rw [ljca_stub_write_unlock_mem, h3]

/-- An acknowledged exchange during whose write exactly one frame is received, a valid
acknowledgement for the exchanging stub carrying the issued command, and nothing during the
wait: the call returns 0 without timing out, with the reply cut to the capacity in caller
memory, as when the frame arrives during the wait. -/
theorem ljca_stub_write_reply_during_write (st : ljca_state) (stub cmd : Nat)
    (obuf : Option (List Nat)) (obuf_len ibuf ibuf_len : Nat) (timeout : Nat)
    (env : ljca_write_env) (u : urb) (s : ljca_stub)
    (hsize : ljca_msg_len obuf_len ≤ LJCA_MAX_PACKET_SIZE)
    (hk : env.kmalloc_ok = true) (hs : st.dev.started = true)
    (hret : env.bulk_ret = 0) (hact : to_uint env.bulk_actual = ljca_msg_len obuf_len)
    (hrw : env.rx_write = [u]) (hrx : env.rx_wait = []) (hu : u.status = 0)
    (hval : ljca_validate (ljca_msg_of_buf u.transfer_buffer) u.actual_length = true)
    (hfind : ljca_stub_find st.dev (ljca_msg_of_buf u.transfer_buffer).type = .ok (stub, s))
    (hack : (ljca_msg_of_buf u.transfer_buffer).flags &&& LJCA_ACK_FLAG ≠ 0)
    (hcmd : ((ljca_msg_of_buf u.transfer_buffer).cmd : Int) = (cmd : Int))
    (hibuf : ibuf ≠ 0) (hilen : ibuf_len ≠ 0) (hrem : env.remaining < 2 ^ 32) :
    (ljca_stub_write st stub cmd obuf obuf_len ibuf ibuf_len true timeout env).1 = 0 ∧
    (ljca_stub_write st stub cmd obuf obuf_len ibuf ibuf_len true timeout env).2.mem
      = (st.mem.store ibuf_len
          (min ((ljca_msg_of_buf u.transfer_buffer).len % 2 ^ 32)
            (st.mem.words ibuf_len % 2 ^ 32))).memcpy ibuf
          (ljca_msg_of_buf u.transfer_buffer).data
          (min ((ljca_msg_of_buf u.transfer_buffer).len % 2 ^ 32)
            (st.mem.words ibuf_len % 2 ^ 32)) := by
  obtain ⟨hstub, hst, _⟩ := ljca_stub_find_ok _ _ _ _ hfind
  have hfind1 := ljca_stub_find_set_stub st.dev _ stub s
    { (st.dev.stub stub) with
      cur_cmd := (cmd : Int), ipacket := { ibuf_len := ibuf_len, ibuf := ibuf },
      acked := false } hfind (by rw [← hst])
  have hparse : ∀ t : List ljca_io,
      ljca_parse { (ljca_stub_write_s1 st stub cmd ibuf ibuf_len) with trace := t }
          (ljca_msg_of_buf u.transfer_buffer)
        = (0, { dev := (ljca_stub_write_s1 st stub cmd ibuf ibuf_len).dev.set_stub stub
                  { (st.dev.stub stub) with
                    cur_cmd := (cmd : Int), ipacket := { ibuf_len := ibuf_len, ibuf := ibuf },
                    acked := true },
                mem := (st.mem.store ibuf_len
                    (min ((ljca_msg_of_buf u.transfer_buffer).len % 2 ^ 32)
                      (st.mem.words ibuf_len % 2 ^ 32))).memcpy ibuf
                    (ljca_msg_of_buf u.transfer_buffer).data
                    (min ((ljca_msg_of_buf u.transfer_buffer).len % 2 ^ 32)
                      (st.mem.words ibuf_len % 2 ^ 32)),
                trace := t ++ [ljca_io.wake_up] }) := by
    intro t
    unfold ljca_parse
    have hf : ljca_stub_find
        ({ (ljca_stub_write_s1 st stub cmd ibuf ibuf_len) with trace := t } : ljca_state).dev
        (ljca_msg_of_buf u.transfer_buffer).type = .ok (stub,
          { (st.dev.stub stub) with
            cur_cmd := (cmd : Int), ipacket := { ibuf_len := ibuf_len, ibuf := ibuf },
            acked := false }) := hfind1
    rw [hf]
    simp only [hack, if_false, hcmd, ne_eq, not_true_eq_false, hibuf, hilen,
      not_false_eq_true, and_self, if_true]
    rfl
  have h3 : ∃ t, (ljca_stub_write_s3 st stub cmd obuf obuf_len ibuf ibuf_len true timeout env)
      = { dev := (ljca_stub_write_s1 st stub cmd ibuf ibuf_len).dev.set_stub stub
            { (st.dev.stub stub) with
              cur_cmd := (cmd : Int), ipacket := { ibuf_len := ibuf_len, ibuf := ibuf },
              acked := true },
          mem := (st.mem.store ibuf_len
              (min ((ljca_msg_of_buf u.transfer_buffer).len % 2 ^ 32)
                (st.mem.words ibuf_len % 2 ^ 32))).memcpy ibuf
              (ljca_msg_of_buf u.transfer_buffer).data
              (min ((ljca_msg_of_buf u.transfer_buffer).len % 2 ^ 32)
                (st.mem.words ibuf_len % 2 ^ 32)),
          trace := t } := by
    unfold ljca_stub_write_s3 ljca_stub_write_s2
    rw [hrw, hrx]
    simp only [ljca_rx, List.foldl_cons, List.foldl_nil]
    unfold ljca_read_complete
    simp only [hu, ne_eq, not_true_eq_false, if_false, hval, Bool.not_true,
      Bool.false_eq_true]
    rw [hparse]
    exact ⟨_, rfl⟩
  obtain ⟨t, h3⟩ := h3
  have hlen1 : stub < (ljca_stub_write_s1 st stub cmd ibuf ibuf_len).dev.stubs_list.length := by
    simp [ljca_stub_write_s1, ljca_dev.set_stub, hstub]
  have hacked : ((ljca_stub_write_s3 st stub cmd obuf obuf_len ibuf ibuf_len true timeout
      env).dev.stub stub).acked = true := by
    rw [h3]
    simp only []
    rw [ljca_dev_stub_set_stub _ _ _ hlen1]
  rw [ljca_stub_write_eq st stub cmd obuf obuf_len ibuf ibuf_len true timeout env hsize hk hs]
  simp only [hret, ne_eq, not_true_eq_false, if_false, hact, if_true, hacked]
  rw [if_neg (long_to_int_wait_ne_zero _ hrem)]
  refine ⟨rfl, ?_⟩
  rw [ljca_stub_write_unlock_mem, h3]

/-! ## Command exchange: late replies -/

/-- C9 (amended): when an exchange that got past the checks ends, the stub's reply-buffer
installation is cleared but its `cur_cmd` still holds the issued command.  A late response
carrying that command and processed after the exchange is accepted by `ljca_parse` (result
0, acknowledged flag set) but written to no caller memory, and it is not delivered to a
later exchange that starts after it: a later acknowledged exchange on the stub during which
nothing is received still ends with `-ETIMEDOUT`, caller memory untouched.  A late response
that arrives during a later acknowledged exchange (during its write or during its wait)
whose command differs from the abandoned one is refused: that exchange, receiving nothing
else, ends with `-ETIMEDOUT`, caller memory untouched.  A late response that arrives during
a later acknowledged exchange of the same command is accepted as the acknowledgement of
that exchange: the exchange returns 0, and with a reply buffer installed the later caller's
capacity variable holds `min(len, capacity)` and that many bytes of the late payload are in
its reply buffer. -/
theorem ljca_late_reply_outcomes (st : ljca_state) (stub cmd : Nat)
    (obuf : Option (List Nat)) (obuf_len ibuf ibuf_len : Nat) (wait_ack : Bool) (timeout : Nat)
    (env : ljca_write_env) (w : Int × ljca_state) (late : ljca_msg) (s : ljca_stub)
    (hw : w = ljca_stub_write st stub cmd obuf obuf_len ibuf ibuf_len wait_ack timeout env)
    (hsize : ljca_msg_len obuf_len ≤ LJCA_MAX_PACKET_SIZE)
    (hk : env.kmalloc_ok = true) (hs : st.dev.started = true)
    (hfind : ljca_stub_find w.2.dev late.type = .ok (stub, s))
    (hack : late.flags &&& LJCA_ACK_FLAG ≠ 0) (hcmd : (late.cmd : Int) = (cmd : Int)) :
    (w.2.dev.stub stub).ipacket = { ibuf_len := 0, ibuf := 0 } ∧
    (w.2.dev.stub stub).cur_cmd = (cmd : Int) ∧
    (ljca_parse w.2 late).1 = 0 ∧
    (ljca_parse w.2 late).2.mem = w.2.mem ∧
    ((ljca_parse w.2 late).2.dev.stub stub).acked = true ∧
    (∀ (cmd2 : Nat) (obuf2 : Option (List Nat)) (obuf_len2 ibuf2 ibuf_len2 timeout2 : Nat)
        (env2 : ljca_write_env),
      ljca_msg_len obuf_len2 ≤ LJCA_MAX_PACKET_SIZE → env2.kmalloc_ok = true →
      env2.bulk_ret = 0 → to_uint env2.bulk_actual = ljca_msg_len obuf_len2 →
      env2.rx_write = [] → env2.rx_wait = [] →
      (ljca_stub_write (ljca_parse w.2 late).2 stub cmd2 obuf2 obuf_len2 ibuf2 ibuf_len2 true
          timeout2 env2).1 = -ETIMEDOUT ∧
      (ljca_stub_write (ljca_parse w.2 late).2 stub cmd2 obuf2 obuf_len2 ibuf2 ibuf_len2 true
          timeout2 env2).2.mem = w.2.mem) ∧
    (∀ (cmd2 : Nat) (obuf2 : Option (List Nat)) (obuf_len2 ibuf2 ibuf_len2 timeout2 : Nat)
        (env2 : ljca_write_env) (u : urb),
      (cmd2 : Int) ≠ (cmd : Int) →
      ljca_msg_len obuf_len2 ≤ LJCA_MAX_PACKET_SIZE → env2.kmalloc_ok = true →
      env2.bulk_ret = 0 → to_uint env2.bulk_actual = ljca_msg_len obuf_len2 →
      (env2.rx_write = [] ∧ env2.rx_wait = [u] ∨ env2.rx_write = [u] ∧ env2.rx_wait = []) →
      u.status = 0 → ljca_msg_of_buf u.transfer_buffer = late →
      (ljca_stub_write w.2 stub cmd2 obuf2 obuf_len2 ibuf2 ibuf_len2 true timeout2 env2).1
        = -ETIMEDOUT ∧
      (ljca_stub_write w.2 stub cmd2 obuf2 obuf_len2 ibuf2 ibuf_len2 true timeout2 env2).2.mem
        = w.2.mem) ∧
    (∀ (obuf2 : Option (List Nat)) (obuf_len2 ibuf2 ibuf_len2 timeout2 : Nat)
        (env2 : ljca_write_env) (u : urb),
      ljca_msg_len obuf_len2 ≤ LJCA_MAX_PACKET_SIZE → env2.kmalloc_ok = true →
      env2.bulk_ret = 0 → to_uint env2.bulk_actual = ljca_msg_len obuf_len2 →
      (env2.rx_write = [] ∧ env2.rx_wait = [u] ∨ env2.rx_write = [u] ∧ env2.rx_wait = []) →
      env2.remaining < 2 ^ 32 →
      u.status = 0 → ljca_msg_of_buf u.transfer_buffer = late →
      ljca_validate late u.actual_length = true → ibuf2 ≠ 0 → ibuf_len2 ≠ 0 →
      (ljca_stub_write w.2 stub cmd obuf2 obuf_len2 ibuf2 ibuf_len2 true timeout2 env2).1 = 0 ∧
      (ljca_stub_write w.2 stub cmd obuf2 obuf_len2 ibuf2 ibuf_len2 true timeout2 env2).2.mem
        = (w.2.mem.store ibuf_len2
            (min (late.len % 2 ^ 32) (w.2.mem.words ibuf_len2 % 2 ^ 32))).memcpy ibuf2
            late.data (min (late.len % 2 ^ 32) (w.2.mem.words ibuf_len2 % 2 ^ 32))) := by
  obtain ⟨hstubw, hsw, _⟩ := ljca_stub_find_ok _ _ _ _ hfind
  have hstub : stub < st.dev.stubs_list.length := by
    by_contra hc
    have hlen : w.2.dev.stubs_list.length = st.dev.stubs_list.length := by
      obtain ⟨s0, r, heq, hl⟩ := ljca_stub_write_ends_unlock st stub cmd obuf obuf_len ibuf
        ibuf_len wait_ack timeout env hsize hk hs
      rw [hw, heq]
      unfold ljca_stub_write_unlock
      simp only [ljca_dev.set_stub, List.length_set]
      exact hl
    omega
  obtain ⟨hcur, hstarted, hlen⟩ := ljca_stub_write_cur_cmd st stub cmd obuf obuf_len ibuf
    ibuf_len wait_ack timeout env hsize hk hs hstub
  rw [← hw] at hcur hstarted hlen
  have hnull : (w.2.dev.stub stub).ipacket = { ibuf_len := 0, ibuf := 0 } := by
    obtain ⟨s0, r, heq, hl⟩ := ljca_stub_write_ends_unlock st stub cmd obuf obuf_len ibuf
      ibuf_len wait_ack timeout env hsize hk hs
    rw [hw, heq]
    exact ljca_stub_write_unlock_ipacket s0 stub r (by omega)
  have hscur : s.cur_cmd = (late.cmd : Int) := by rw [← hsw, hcur, hcmd]
  have hsnull : ¬ (s.ipacket.ibuf ≠ 0 ∧ s.ipacket.ibuf_len ≠ 0) := by
    rw [← hsw, hnull]
    simp
  have hp : ljca_parse w.2 late
      = (0, { dev := w.2.dev.set_stub stub { s with acked := true }, mem := w.2.mem,
              trace := w.2.trace ++ [ljca_io.wake_up] }) := by
    unfold ljca_parse
    rw [hfind]
    simp only [hack, if_false, hscur, ne_eq, not_true_eq_false, hsnull]
  have hpl : (ljca_parse w.2 late).2.dev.stubs_list.length = w.2.dev.stubs_list.length :=
    ljca_parse_length w.2 late
  have hps : (ljca_parse w.2 late).2.dev.started = true := by
    rw [(ljca_parse_cur_cmd w.2 late stub).2, hstarted]
  refine ⟨hnull, hcur, by rw [hp], by rw [hp], ?_, ?_, ?_, ?_⟩
  · rw [hp]
    simp only []
    rw [ljca_dev_stub_set_stub _ _ _ hstubw]
  · intro cmd2 obuf2 obuf_len2 ibuf2 ibuf_len2 timeout2 env2 h1 h2 h3 h4 h5 h6
    have q := ljca_stub_write_quiet_timeout (ljca_parse w.2 late).2 stub cmd2 obuf2 obuf_len2
      ibuf2 ibuf_len2 timeout2 env2 h1 h2 hps (by rw [hpl]; exact hstubw) h3 h4 h5 h6
    refine ⟨q.1, ?_⟩
    rw [q.2, hp]
  · intro cmd2 obuf2 obuf_len2 ibuf2 ibuf_len2 timeout2 env2 u hne h1 h2 h3 h4 hrx h7 h8
    rcases hrx with ⟨h5, h6⟩ | ⟨h5, h6⟩
    · exact ljca_stub_write_other_cmd_rejected w.2 stub cmd2 obuf2 obuf_len2 ibuf2 ibuf_len2
        timeout2 env2 u s h1 h2 hstarted h3 h4 h5 h6 h7 (by rw [h8]; exact hfind)
        (by rw [h8]; exact hack) (by rw [h8, hcmd]; exact fun h => hne h.symm)
    · exact ljca_stub_write_other_cmd_during_write w.2 stub cmd2 obuf2 obuf_len2 ibuf2
        ibuf_len2 timeout2 env2 u s h1 h2 hstarted h3 h4 h5 h6 h7 (by rw [h8]; exact hfind)
        (by rw [h8]; exact hack) (by rw [h8, hcmd]; exact fun h => hne h.symm)
  · intro obuf2 obuf_len2 ibuf2 ibuf_len2 timeout2 env2 u h1 h2 h3 h4 hrx hrem h7 h8 hval
      hibuf hilen
    subst h8
    rcases hrx with ⟨h5, h6⟩ | ⟨h5, h6⟩
    · exact ljca_stub_write_single_reply w.2 stub cmd obuf2 obuf_len2 ibuf2 ibuf_len2
        timeout2 env2 u s h1 h2 hstarted h3 h4 h5 h6 h7 hval hfind hack hcmd hibuf hilen hrem
    · exact ljca_stub_write_reply_during_write w.2 stub cmd obuf2 obuf_len2 ibuf2 ibuf_len2
        timeout2 env2 u s h1 h2 hstarted h3 h4 h5 h6 h7 hval hfind hack hcmd hibuf hilen hrem

/-- Witness for C9 (amended): the timed-out exchange of command 5 on the GPIO stub and the
late response `ex_late`. -/
theorem ljca_late_reply_outcomes_witness :
    (ex_abandoned.2.dev.stub 1).ipacket = { ibuf_len := 0, ibuf := 0 } ∧
    (ex_abandoned.2.dev.stub 1).cur_cmd = ((5 : Nat) : Int) ∧
    (ljca_parse ex_abandoned.2 ex_late).1 = 0 ∧
    (ljca_parse ex_abandoned.2 ex_late).2.mem = ex_abandoned.2.mem ∧
    ((ljca_parse ex_abandoned.2 ex_late).2.dev.stub 1).acked = true ∧
    (∀ (cmd2 : Nat) (obuf2 : Option (List Nat)) (obuf_len2 ibuf2 ibuf_len2 timeout2 : Nat)
        (env2 : ljca_write_env),
      ljca_msg_len obuf_len2 ≤ LJCA_MAX_PACKET_SIZE → env2.kmalloc_ok = true →
      env2.bulk_ret = 0 → to_uint env2.bulk_actual = ljca_msg_len obuf_len2 →
      env2.rx_write = [] → env2.rx_wait = [] →
      (ljca_stub_write (ljca_parse ex_abandoned.2 ex_late).2 1 cmd2 obuf2 obuf_len2 ibuf2
          ibuf_len2 true timeout2 env2).1 = -ETIMEDOUT ∧
      (ljca_stub_write (ljca_parse ex_abandoned.2 ex_late).2 1 cmd2 obuf2 obuf_len2 ibuf2
          ibuf_len2 true timeout2 env2).2.mem = ex_abandoned.2.mem) ∧
    (∀ (cmd2 : Nat) (obuf2 : Option (List Nat)) (obuf_len2 ibuf2 ibuf_len2 timeout2 : Nat)
        (env2 : ljca_write_env) (u : urb),
      (cmd2 : Int) ≠ ((5 : Nat) : Int) →
      ljca_msg_len obuf_len2 ≤ LJCA_MAX_PACKET_SIZE → env2.kmalloc_ok = true →
      env2.bulk_ret = 0 → to_uint env2.bulk_actual = ljca_msg_len obuf_len2 →
      (env2.rx_write = [] ∧ env2.rx_wait = [u] ∨ env2.rx_write = [u] ∧ env2.rx_wait = []) →
      u.status = 0 → ljca_msg_of_buf u.transfer_buffer = ex_late →
      (ljca_stub_write ex_abandoned.2 1 cmd2 obuf2 obuf_len2 ibuf2 ibuf_len2 true timeout2
          env2).1 = -ETIMEDOUT ∧
      (ljca_stub_write ex_abandoned.2 1 cmd2 obuf2 obuf_len2 ibuf2 ibuf_len2 true timeout2
          env2).2.mem = ex_abandoned.2.mem) ∧
    (∀ (obuf2 : Option (List Nat)) (obuf_len2 ibuf2 ibuf_len2 timeout2 : Nat)
        (env2 : ljca_write_env) (u : urb),
      ljca_msg_len obuf_len2 ≤ LJCA_MAX_PACKET_SIZE → env2.kmalloc_ok = true →
      env2.bulk_ret = 0 → to_uint env2.bulk_actual = ljca_msg_len obuf_len2 →
      (env2.rx_write = [] ∧ env2.rx_wait = [u] ∨ env2.rx_write = [u] ∧ env2.rx_wait = []) →
      env2.remaining < 2 ^ 32 →
      u.status = 0 → ljca_msg_of_buf u.transfer_buffer = ex_late →
      ljca_validate ex_late u.actual_length = true → ibuf2 ≠ 0 → ibuf_len2 ≠ 0 →
      (ljca_stub_write ex_abandoned.2 1 5 obuf2 obuf_len2 ibuf2 ibuf_len2 true timeout2
          env2).1 = 0 ∧
      (ljca_stub_write ex_abandoned.2 1 5 obuf2 obuf_len2 ibuf2 ibuf_len2 true timeout2
          env2).2.mem
        = (ex_abandoned.2.mem.store ibuf_len2
            (min (ex_late.len % 2 ^ 32) (ex_abandoned.2.mem.words ibuf_len2 % 2 ^ 32))).memcpy
            ibuf2 ex_late.data
            (min (ex_late.len % 2 ^ 32) (ex_abandoned.2.mem.words ibuf_len2 % 2 ^ 32))) :=
  ljca_late_reply_outcomes ex_state 1 5 none 0 100 200 true 500 (ex_env 4) ex_abandoned
    ex_late (ex_abandoned.2.dev.stub 1) rfl (by decide) rfl rfl rfl (by decide) rfl

/-! ## Bring-up: the reset handshake -/

theorem ljca_stub_reset_id_of_priv (x : ljca_stub) (l : List Nat) (h : x.priv = l) :
    x.reset_id = l.getD 0 0 % 2 ^ 32 := by
  unfold ljca_stub.reset_id
  rw [h]

/-- C17 (counterexample): the counter holds 7 and the peripheral's reply has 5 payload
bytes, `07 00 00 00 63`; the reply is not exactly 4 bytes, yet the handshake succeeds and
bring-up goes on to enumerate. -/
theorem ljca_mng_reset_handshake_long_reply :
    (ljca_msg_of_buf (ex_reset_reply [7, 0, 0, 0, 99])).len = 5 ∧
    ljca_validate (ljca_msg_of_buf (ex_reset_reply [7, 0, 0, 0, 99]))
      (ex_reset_reply [7, 0, 0, 0, 99]).length = true ∧
    (ljca_mng_reset_handshake ex_boot 0 300 400
      (ex_env_reply 8 (ex_reset_reply [7, 0, 0, 0, 99]))).1 = 0 ∧
    (ljca_mng_reset_handshake ex_boot 0 300 400
      (ex_env_reply 8 (ex_reset_reply [7, 0, 0, 0, 99]))).2.mem.words 400 = 4 ∧
    (ljca_mng_link ex_boot 0 (ex_link_env [7, 0, 0, 0, 99])).1 = 0 ∧
    ljca_frames (ljca_mng_link ex_boot 0 (ex_link_env [7, 0, 0, 0, 99])).2.trace
      = [[1, 2, 5, 4, 7, 0, 0, 0], [1, 4, 5, 0], [1, 5, 5, 0], [1, 8, 5, 0]] := by
  decide

/-- C17 (amended): `ljca_mng_reset_handshake` sends the management stub's current 32-bit
counter as the id (little endian, in a `LJCA_MNG_RESET_NOTIFY` frame with ack requested)
and increments the counter.  When the peripheral's reply, a valid acknowledgement of that
command, is the one frame received, the handshake succeeds if and only if the reply
declares at least 4 payload bytes and its first 4 bytes are the id sent (the transport
cuts the reply to the 4-byte capacity, so bytes after the fourth are not looked at);
otherwise it fails with `-EINVAL`.  Whenever the handshake fails, `ljca_mng_link` returns
the handshake's result and state: no enumeration is attempted. -/
theorem ljca_mng_reset_handshake_echo (st : ljca_state) (stub p_ret p_ilen : Nat)
    (env : ljca_write_env) (genv ienv senv : ljca_enum_env) (u : urb) (s : ljca_stub)
    (hk : env.kmalloc_ok = true) (hs : st.dev.started = true)
    (hpriv : (st.dev.stub stub).priv ≠ [])
    (hret : env.bulk_ret = 0) (hact : to_uint env.bulk_actual = 8)
    (hrw : env.rx_write = []) (hrx : env.rx_wait = [u]) (hu : u.status = 0)
    (hval : ljca_validate (ljca_msg_of_buf u.transfer_buffer) u.actual_length = true)
    (hfind : ljca_stub_find st.dev (ljca_msg_of_buf u.transfer_buffer).type = .ok (stub, s))
    (hack : (ljca_msg_of_buf u.transfer_buffer).flags &&& LJCA_ACK_FLAG ≠ 0)
    (hcmd : (ljca_msg_of_buf u.transfer_buffer).cmd = LJCA_MNG_RESET_NOTIFY)
    (hlen : (ljca_msg_of_buf u.transfer_buffer).len < 256)
    (hp1 : p_ret ≠ 0) (hp2 : p_ilen ≠ 0) (hrem : env.remaining < 2 ^ 32) :
    ljca_frames (ljca_mng_reset_handshake st stub p_ret p_ilen env).2.trace
      = ljca_frames st.trace
        ++ [[(st.dev.stub stub).type, LJCA_MNG_RESET_NOTIFY,
             LJCA_CMPL_FLAG ||| LJCA_ACK_FLAG, 4]
            ++ cpu_to_le32 (st.dev.stub stub).reset_id] ∧
    ((ljca_mng_reset_handshake st stub p_ret p_ilen env).2.dev.stub stub).reset_id
      = ((st.dev.stub stub).reset_id + 1) % 2 ^ 32 ∧
    ((ljca_mng_reset_handshake st stub p_ret p_ilen env).1 = 0 ↔
      4 ≤ (ljca_msg_of_buf u.transfer_buffer).len ∧
      [(ljca_msg_of_buf u.transfer_buffer).data.getD 0 0,
       (ljca_msg_of_buf u.transfer_buffer).data.getD 1 0,
       (ljca_msg_of_buf u.transfer_buffer).data.getD 2 0,
       (ljca_msg_of_buf u.transfer_buffer).data.getD 3 0]
        = cpu_to_le32 (st.dev.stub stub).reset_id) ∧
    ((ljca_mng_reset_handshake st stub p_ret p_ilen env).1 ≠ 0 →
      (ljca_mng_reset_handshake st stub p_ret p_ilen env).1 = -EINVAL) ∧
    ((ljca_mng_reset_handshake st stub p_ret p_ilen env).1 ≠ 0 →
      ljca_mng_link st stub
          { reset_id_ret := p_ret, ilen := p_ilen, reset := env, gpio := genv, i2c := ienv,
            spi := senv }
        = ljca_mng_reset_handshake st stub p_ret p_ilen env) := by
  obtain ⟨hstub, hst, _⟩ := ljca_stub_find_ok _ _ _ _ hfind
  -- the state on which the exchange starts
  have hsize : ljca_msg_len 4 ≤ LJCA_MAX_PACKET_SIZE := by decide
  have hact8 : to_uint env.bulk_actual = ljca_msg_len 4 := by rw [hact]; rfl
  have hstub1 : ((st.dev.set_stub stub
      { (st.dev.stub stub) with
        priv := (st.dev.stub stub).priv.set 0
          (((st.dev.stub stub).reset_id + 1) % 2 ^ 32) }).stub stub)
      = { (st.dev.stub stub) with
          priv := (st.dev.stub stub).priv.set 0
            (((st.dev.stub stub).reset_id + 1) % 2 ^ 32) } :=
    ljca_dev_stub_set_stub _ _ _ hstub
  have hfind1 := ljca_stub_find_set_stub st.dev _ stub s
    { (st.dev.stub stub) with
      priv := (st.dev.stub stub).priv.set 0 (((st.dev.stub stub).reset_id + 1) % 2 ^ 32) }
    hfind (by rw [← hst])
  have hcmd' : (((ljca_msg_of_buf u.transfer_buffer).cmd : Nat) : Int)
      = ((LJCA_MNG_RESET_NOTIFY : Nat) : Int) := by rw [hcmd]
  have hshape := ljca_stub_write_same_shape
    { st with
      dev := (st.dev.set_stub stub
        { (st.dev.stub stub) with
          priv := (st.dev.stub stub).priv.set 0
            (((st.dev.stub stub).reset_id + 1) % 2 ^ 32) }),
      mem := ((st.mem.memcpy p_ret [0, 0, 0, 0] 4).store p_ilen 4) }
    stub LJCA_MNG_RESET_NOTIFY (some (cpu_to_le32 (st.dev.stub stub).reset_id)) 4 p_ret p_ilen
    true LJCA_USB_WRITE_ACK_TIMEOUT_MS env
  have hframes := (ljca_stub_write_frames
    { st with
      dev := (st.dev.set_stub stub
        { (st.dev.stub stub) with
          priv := (st.dev.stub stub).priv.set 0
            (((st.dev.stub stub).reset_id + 1) % 2 ^ 32) }),
      mem := ((st.mem.memcpy p_ret [0, 0, 0, 0] 4).store p_ilen 4) }
    stub LJCA_MNG_RESET_NOTIFY (some (cpu_to_le32 (st.dev.stub stub).reset_id)) 4 p_ret p_ilen
    true LJCA_USB_WRITE_ACK_TIMEOUT_MS env hsize hk hs).1
  obtain ⟨hr1, hrmem⟩ := ljca_stub_write_single_reply
    { st with
      dev := (st.dev.set_stub stub
        { (st.dev.stub stub) with
          priv := (st.dev.stub stub).priv.set 0
            (((st.dev.stub stub).reset_id + 1) % 2 ^ 32) }),
      mem := ((st.mem.memcpy p_ret [0, 0, 0, 0] 4).store p_ilen 4) }
    stub LJCA_MNG_RESET_NOTIFY (some (cpu_to_le32 (st.dev.stub stub).reset_id)) 4 p_ret p_ilen
    LJCA_USB_WRITE_ACK_TIMEOUT_MS env u _ hsize hk hs hret hact8 hrw hrx hu hval hfind1 hack
    hcmd' hp1 hp2 hrem
  -- the result of the handshake in terms of the exchange
  have htrace : (ljca_mng_reset_handshake st stub p_ret p_ilen env).2
      = (ljca_stub_write
          { st with
            dev := (st.dev.set_stub stub
              { (st.dev.stub stub) with
                priv := (st.dev.stub stub).priv.set 0
                  (((st.dev.stub stub).reset_id + 1) % 2 ^ 32) }),
            mem := ((st.mem.memcpy p_ret [0, 0, 0, 0] 4).store p_ilen 4) }
          stub LJCA_MNG_RESET_NOTIFY (some (cpu_to_le32 (st.dev.stub stub).reset_id)) 4 p_ret
          p_ilen true LJCA_USB_WRITE_ACK_TIMEOUT_MS env).2 := by
    unfold ljca_mng_reset_handshake
    simp only []
    split
    · rfl
    · split <;> rfl
  have hn : min ((ljca_msg_of_buf u.transfer_buffer).len % 2 ^ 32)
      ((((st.mem.memcpy p_ret [0, 0, 0, 0] 4).store p_ilen 4).words p_ilen) % 2 ^ 32)
      = min (ljca_msg_of_buf u.transfer_buffer).len 4 := by
    have h1 : (ljca_msg_of_buf u.transfer_buffer).len % 2 ^ 32
        = (ljca_msg_of_buf u.transfer_buffer).len := Nat.mod_eq_of_lt (by omega)
    have hw : ((st.mem.memcpy p_ret [0, 0, 0, 0] 4).store p_ilen 4).words p_ilen = 4 := by
      simp [ljca_mem.store, ljca_mem.memcpy]
    rw [h1, hw]
    rfl
  simp only [] at hrmem
  rw [hn] at hrmem
  have hres : (ljca_mng_reset_handshake st stub p_ret p_ilen env).1
      = if 4 ≤ (ljca_msg_of_buf u.transfer_buffer).len ∧
          [(ljca_msg_of_buf u.transfer_buffer).data.getD 0 0,
           (ljca_msg_of_buf u.transfer_buffer).data.getD 1 0,
           (ljca_msg_of_buf u.transfer_buffer).data.getD 2 0,
           (ljca_msg_of_buf u.transfer_buffer).data.getD 3 0]
            = cpu_to_le32 (st.dev.stub stub).reset_id then 0 else -EINVAL := by
    unfold ljca_mng_reset_handshake
    simp only [hr1, ne_eq, not_true_eq_false, if_false, hrmem]
    by_cases h4 : 4 ≤ (ljca_msg_of_buf u.transfer_buffer).len
    · have hmin : min (ljca_msg_of_buf u.transfer_buffer).len 4 = 4 := Nat.min_eq_right h4
      have hread : ljca_mem.read4
          ((((st.mem.memcpy p_ret [0, 0, 0, 0] 4).store p_ilen 4).store p_ilen 4).memcpy p_ret
            (ljca_msg_of_buf u.transfer_buffer).data 4) p_ret
          = [(ljca_msg_of_buf u.transfer_buffer).data.getD 0 0,
             (ljca_msg_of_buf u.transfer_buffer).data.getD 1 0,
             (ljca_msg_of_buf u.transfer_buffer).data.getD 2 0,
             (ljca_msg_of_buf u.transfer_buffer).data.getD 3 0] := by
        simp [ljca_mem.read4, ljca_mem.memcpy]
      have hword : ((((st.mem.memcpy p_ret [0, 0, 0, 0] 4).store p_ilen 4).store p_ilen
          4).memcpy p_ret (ljca_msg_of_buf u.transfer_buffer).data 4).words p_ilen = 4 := by
        simp [ljca_mem.store, ljca_mem.memcpy]
      rw [hmin, hread, hword]
      by_cases heq : [(ljca_msg_of_buf u.transfer_buffer).data.getD 0 0,
           (ljca_msg_of_buf u.transfer_buffer).data.getD 1 0,
           (ljca_msg_of_buf u.transfer_buffer).data.getD 2 0,
           (ljca_msg_of_buf u.transfer_buffer).data.getD 3 0]
            = cpu_to_le32 (st.dev.stub stub).reset_id
      · rw [if_neg (fun h => h.elim (fun h1 => h1 rfl) (fun h2 => h2 heq)), if_pos ⟨h4, heq⟩]
      · rw [if_pos (Or.inr heq), if_neg (fun h => heq h.2)]
    · have hmin : min (ljca_msg_of_buf u.transfer_buffer).len 4
          = (ljca_msg_of_buf u.transfer_buffer).len := Nat.min_eq_left (by omega)
      have hword : ((((st.mem.memcpy p_ret [0, 0, 0, 0] 4).store p_ilen 4).store p_ilen
          (ljca_msg_of_buf u.transfer_buffer).len).memcpy p_ret
          (ljca_msg_of_buf u.transfer_buffer).data
          (ljca_msg_of_buf u.transfer_buffer).len).words p_ilen
          = (ljca_msg_of_buf u.transfer_buffer).len := by
        simp [ljca_mem.store, ljca_mem.memcpy]
      rw [hmin, hword]
      have hne : ¬ (ljca_msg_of_buf u.transfer_buffer).len = 4 := by omega
      rw [if_pos (Or.inl hne), if_neg (fun h => h4 h.1)]
  refine ⟨?_, ?_, ?_, ?_, ?_⟩
  · rw [htrace, hframes]
    simp only []
    rw [hstub1]
    simp [ljca_stub_write_msg, ljca_msg.bytes, ljca_stub_write_flags, cpu_to_le32,
      ljca_msg_len, size_t_add, sizeof_ljca_msg]
  · have hp : ((ljca_mng_reset_handshake st stub p_ret p_ilen env).2.dev.stub stub).priv
        = (st.dev.stub stub).priv.set 0 (((st.dev.stub stub).reset_id + 1) % 2 ^ 32) := by
      rw [htrace]
      exact ((hshape.2.2.2 stub).2.1).trans (by rw [hstub1])
    rw [ljca_stub_reset_id_of_priv _ _ hp]
    cases hpl : (st.dev.stub stub).priv with
    | nil => exact absurd hpl hpriv
    | cons a rest =>
      simp only [List.set_cons_zero, List.getD_cons_zero]
      exact Nat.mod_mod _ _
  · rw [hres]
    constructor
    · intro h
      by_contra hc
      rw [if_neg hc] at h
      exact absurd h (by decide)
    · intro h
      rw [if_pos h]
  · intro h
    rw [hres] at h ⊢
    by_cases hc : 4 ≤ (ljca_msg_of_buf u.transfer_buffer).len ∧
        [(ljca_msg_of_buf u.transfer_buffer).data.getD 0 0,
         (ljca_msg_of_buf u.transfer_buffer).data.getD 1 0,
         (ljca_msg_of_buf u.transfer_buffer).data.getD 2 0,
         (ljca_msg_of_buf u.transfer_buffer).data.getD 3 0]
          = cpu_to_le32 (st.dev.stub stub).reset_id
    · rw [if_pos hc] at h
      exact absurd rfl h
    · rw [if_neg hc]
  · intro h
    unfold ljca_mng_link
    simp only [h, ne_eq, not_false_eq_true, if_true]

/-- Witness for C17 (amended): counter 7 on `ex_boot`, the peripheral echoes 7. -/
theorem ljca_mng_reset_handshake_echo_witness :
    ljca_frames (ljca_mng_reset_handshake ex_boot 0 300 400
        (ex_env_reply 8 (ex_reset_reply [7, 0, 0, 0]))).2.trace
      = ljca_frames ex_boot.trace
        ++ [[(ex_boot.dev.stub 0).type, LJCA_MNG_RESET_NOTIFY,
             LJCA_CMPL_FLAG ||| LJCA_ACK_FLAG, 4]
            ++ cpu_to_le32 (ex_boot.dev.stub 0).reset_id] ∧
    ((ljca_mng_reset_handshake ex_boot 0 300 400
        (ex_env_reply 8 (ex_reset_reply [7, 0, 0, 0]))).2.dev.stub 0).reset_id
      = ((ex_boot.dev.stub 0).reset_id + 1) % 2 ^ 32 ∧
    ((ljca_mng_reset_handshake ex_boot 0 300 400
        (ex_env_reply 8 (ex_reset_reply [7, 0, 0, 0]))).1 = 0 ↔
      4 ≤ (ljca_msg_of_buf (ex_reset_reply [7, 0, 0, 0])).len ∧
      [(ljca_msg_of_buf (ex_reset_reply [7, 0, 0, 0])).data.getD 0 0,
       (ljca_msg_of_buf (ex_reset_reply [7, 0, 0, 0])).data.getD 1 0,
       (ljca_msg_of_buf (ex_reset_reply [7, 0, 0, 0])).data.getD 2 0,
       (ljca_msg_of_buf (ex_reset_reply [7, 0, 0, 0])).data.getD 3 0]
        = cpu_to_le32 (ex_boot.dev.stub 0).reset_id) ∧
    ((ljca_mng_reset_handshake ex_boot 0 300 400
        (ex_env_reply 8 (ex_reset_reply [7, 0, 0, 0]))).1 ≠ 0 →
      (ljca_mng_reset_handshake ex_boot 0 300 400
        (ex_env_reply 8 (ex_reset_reply [7, 0, 0, 0]))).1 = -EINVAL) ∧
    ((ljca_mng_reset_handshake ex_boot 0 300 400
        (ex_env_reply 8 (ex_reset_reply [7, 0, 0, 0]))).1 ≠ 0 →
      ljca_mng_link ex_boot 0
          { reset_id_ret := 300, ilen := 400,
            reset := ex_env_reply 8 (ex_reset_reply [7, 0, 0, 0]),
            gpio := ex_enum_env ex_gpio_reply, i2c := ex_enum_env ex_i2c_reply,
            spi := ex_enum_env ex_spi_reply }
        = ljca_mng_reset_handshake ex_boot 0 300 400
            (ex_env_reply 8 (ex_reset_reply [7, 0, 0, 0]))) :=
  ljca_mng_reset_handshake_echo ex_boot 0 300 400 (ex_env_reply 8 (ex_reset_reply [7, 0, 0, 0]))
    (ex_enum_env ex_gpio_reply) (ex_enum_env ex_i2c_reply) (ex_enum_env ex_spi_reply)
    { status := 0, transfer_buffer := ex_reset_reply [7, 0, 0, 0],
      actual_length := (ex_reset_reply [7, 0, 0, 0]).length }
    ex_mng_stub rfl rfl (by decide) rfl (by decide) rfl rfl rfl (by decide) rfl (by decide)
    rfl (by decide) (by decide) (by decide) (by decide)

/-- The scenario of C17 evaluated: id 7 echoed as 7, the handshake returns 0 and bring-up
proceeds to the three enumerations; echoed as 8, the handshake returns `-EINVAL`,
`ljca_mng_link` returns it and the only frame written is the handshake frame; a 2-byte
reply and no reply at all (`-ETIMEDOUT`) abort bring-up too. -/
theorem ljca_mng_reset_handshake_eval :
    (ljca_mng_reset_handshake ex_boot 0 300 400
      (ex_env_reply 8 (ex_reset_reply [7, 0, 0, 0]))).1 = 0 ∧
    (ljca_mng_link ex_boot 0 (ex_link_env [7, 0, 0, 0])).1 = 0 ∧
    (ljca_mng_reset_handshake ex_boot 0 300 400
      (ex_env_reply 8 (ex_reset_reply [8, 0, 0, 0]))).1 = -EINVAL ∧
    (ljca_mng_link ex_boot 0 (ex_link_env [8, 0, 0, 0])).1 = -EINVAL ∧
    ljca_frames (ljca_mng_link ex_boot 0 (ex_link_env [8, 0, 0, 0])).2.trace
      = [[1, 2, 5, 4, 7, 0, 0, 0]] ∧
    (ljca_mng_link ex_boot 0 (ex_link_env [8, 0, 0, 0])).2.dev.ljcas = [] ∧
    (ljca_mng_link ex_boot 0 (ex_link_env [7, 0])).1 = -EINVAL ∧
    (ljca_mng_link ex_boot 0
      { ex_link_env [7, 0, 0, 0] with reset := ex_env 8 }).1 = -ETIMEDOUT ∧
    ljca_frames (ljca_mng_link ex_boot 0
      { ex_link_env [7, 0, 0, 0] with reset := ex_env 8 }).2.trace
      = [[1, 2, 5, 4, 7, 0, 0, 0]] := by
  decide

/-! ## Bring-up: the enumerations -/

theorem ljca_state_grows_from_refl (a : ljca_state) : a.grows_from a :=
  ⟨rfl, rfl, ⟨[], by simp⟩, ⟨[], by simp⟩⟩

theorem ljca_i2c_stub_init_loop_effect (desc : ljca_i2c_descriptor) (stub : Nat)
    (env : ljca_init_env) :
    ∀ (n i : Nat) (dev : ljca_dev),
      (ljca_i2c_stub_init_loop desc stub env n i dev).2.started = dev.started ∧
      (∃ c, (ljca_i2c_stub_init_loop desc stub env n i dev).2.ljcas = dev.ljcas ++ c) ∧
      ((ljca_i2c_stub_init_loop desc stub env n i dev).2.stubs_list = dev.stubs_list ∨
       (ljca_i2c_stub_init_loop desc stub env n i dev).2.stubs_list
         = dev.stubs_list.eraseIdx stub) := by
  intro n
  induction n with
  | zero => intro i dev; exact ⟨rfl, ⟨[], by simp [ljca_i2c_stub_init_loop]⟩, Or.inl rfl⟩
  | succ n ih =>
    intro i dev
    unfold ljca_i2c_stub_init_loop
    simp only []
    obtain ⟨hfail, hok⟩ := ljca_add_aux_dev_effect dev ljca_aux_name.ljca_i2c
      (dev.stub stub).type (i % 256) ((LJCA_ACPI_MATCH_I2C1 + i) % 256)
      (ljca_platform_data.i2c
        { id := (desc.info i).id, capacity := (desc.info i).capacity,
          intr_pin := (desc.info i).intr_pin }) (env.aux i)
    split
    · rename_i h
      rw [hfail h]
      exact ⟨rfl, ⟨[], by simp [ljca_stub_destroy]⟩, Or.inr rfl⟩
    · rename_i h
      have h0 := hok (not_not.mp h)
      obtain ⟨a1, ⟨c, a2⟩, a3⟩ := ih (i + 1)
        (ljca_add_aux_dev dev ljca_aux_name.ljca_i2c (dev.stub stub).type (i % 256)
          ((LJCA_ACPI_MATCH_I2C1 + i) % 256)
          (ljca_platform_data.i2c
            { id := (desc.info i).id, capacity := (desc.info i).capacity,
              intr_pin := (desc.info i).intr_pin }) (env.aux i)).2
      rw [h0] at a1 a2 a3
      rw [h0]
      exact ⟨a1, ⟨_, by rw [a2, List.append_assoc]⟩, a3⟩

theorem ljca_spi_stub_init_loop_effect (desc : ljca_spi_descriptor) (stub : Nat)
    (env : ljca_init_env) :
    ∀ (n i : Nat) (dev : ljca_dev),
      (ljca_spi_stub_init_loop desc stub env n i dev).2.started = dev.started ∧
      (∃ c, (ljca_spi_stub_init_loop desc stub env n i dev).2.ljcas = dev.ljcas ++ c) ∧
      ((ljca_spi_stub_init_loop desc stub env n i dev).2.stubs_list = dev.stubs_list ∨
       (ljca_spi_stub_init_loop desc stub env n i dev).2.stubs_list
         = dev.stubs_list.eraseIdx stub) := by
  intro n
  induction n with
  | zero => intro i dev; exact ⟨rfl, ⟨[], by simp [ljca_spi_stub_init_loop]⟩, Or.inl rfl⟩
  | succ n ih =>
    intro i dev
    unfold ljca_spi_stub_init_loop
    simp only []
    obtain ⟨hfail, hok⟩ := ljca_add_aux_dev_effect dev ljca_aux_name.ljca_spi
      (dev.stub stub).type (i % 256) ((LJCA_ACPI_MATCH_SPI1 + i) % 256)
      (ljca_platform_data.spi
        { id := (desc.info i).id, capacity := (desc.info i).capacity }) (env.aux i)
    split
    · rename_i h
      rw [hfail h]
      exact ⟨rfl, ⟨[], by simp [ljca_stub_destroy]⟩, Or.inr rfl⟩
    · rename_i h
      have h0 := hok (not_not.mp h)
      obtain ⟨a1, ⟨c, a2⟩, a3⟩ := ih (i + 1)
        (ljca_add_aux_dev dev ljca_aux_name.ljca_spi (dev.stub stub).type (i % 256)
          ((LJCA_ACPI_MATCH_SPI1 + i) % 256)
          (ljca_platform_data.spi
            { id := (desc.info i).id, capacity := (desc.info i).capacity }) (env.aux i)).2
      rw [h0] at a1 a2 a3
      rw [h0]
      exact ⟨a1, ⟨_, by rw [a2, List.append_assoc]⟩, a3⟩

/-- Whatever its outcome, `ljca_i2c_stub_init` leaves `started` alone, adds at most one
stub at the tail of the registry and only appends children. -/
theorem ljca_i2c_stub_init_effect (dev : ljca_dev) (desc : ljca_i2c_descriptor)
    (env : ljca_init_env) :
    (ljca_i2c_stub_init dev desc env).2.started = dev.started ∧
    (∃ l, (ljca_i2c_stub_init dev desc env).2.stubs_list = dev.stubs_list ++ l) ∧
    ∃ c, (ljca_i2c_stub_init dev desc env).2.ljcas = dev.ljcas ++ c := by
  unfold ljca_i2c_stub_init
  cases ha : env.stub_alloc_ok with
  | false => exact ⟨rfl, ⟨[], by simp [ljca_stub_alloc]⟩, ⟨[], by simp [ljca_stub_alloc]⟩⟩
  | true =>
    rw [ljca_stub_alloc_ok]
    simp only []
    obtain ⟨a1, a2, a3⟩ := ljca_i2c_stub_init_loop_effect desc dev.stubs_list.length env
      desc.num 0 { dev with stubs_list := dev.stubs_list ++ [ljca_stub_fresh LJCA_I2C_STUB 0] }
    refine ⟨a1, ?_, a2⟩
    rcases a3 with h | h
    · exact ⟨_, h⟩
    · refine ⟨[], ?_⟩
      rw [h]
      simp only []
      rw [List.eraseIdx_append_of_length_le (Nat.le_refl _)]
      simp

/-- Whatever its outcome, `ljca_spi_stub_init` leaves `started` alone, adds at most one
stub at the tail of the registry and only appends children. -/
theorem ljca_spi_stub_init_effect (dev : ljca_dev) (desc : ljca_spi_descriptor)
    (env : ljca_init_env) :
    (ljca_spi_stub_init dev desc env).2.started = dev.started ∧
    (∃ l, (ljca_spi_stub_init dev desc env).2.stubs_list = dev.stubs_list ++ l) ∧
    ∃ c, (ljca_spi_stub_init dev desc env).2.ljcas = dev.ljcas ++ c := by
  unfold ljca_spi_stub_init
  cases ha : env.stub_alloc_ok with
  | false => exact ⟨rfl, ⟨[], by simp [ljca_stub_alloc]⟩, ⟨[], by simp [ljca_stub_alloc]⟩⟩
  | true =>
    rw [ljca_stub_alloc_ok]
    simp only []
    obtain ⟨a1, a2, a3⟩ := ljca_spi_stub_init_loop_effect desc dev.stubs_list.length env
      desc.num 0 { dev with stubs_list := dev.stubs_list ++ [ljca_stub_fresh LJCA_SPI_STUB 0] }
    refine ⟨a1, ?_, a2⟩
    rcases a3 with h | h
    · exact ⟨_, h⟩
    · refine ⟨[], ?_⟩
      rw [h]
      simp only []
      rw [List.eraseIdx_append_of_length_le (Nat.le_refl _)]
      simp

/-- Whatever its outcome, `ljca_gpio_stub_init` leaves `started` alone, adds at most one
stub at the tail of the registry and only appends children. -/
theorem ljca_gpio_stub_init_effect (dev : ljca_dev) (desc : ljca_gpio_descriptor)
    (env : ljca_init_env) :
    (ljca_gpio_stub_init dev desc env).2.started = dev.started ∧
    (∃ l, (ljca_gpio_stub_init dev desc env).2.stubs_list = dev.stubs_list ++ l) ∧
    ∃ c, (ljca_gpio_stub_init dev desc env).2.ljcas = dev.ljcas ++ c := by
  unfold ljca_gpio_stub_init
  simp only []
  split
  · exact ⟨rfl, ⟨[], by simp⟩, ⟨[], by simp⟩⟩
  · cases ha : env.stub_alloc_ok with
    | false => exact ⟨rfl, ⟨[], by simp [ljca_stub_alloc]⟩, ⟨[], by simp [ljca_stub_alloc]⟩⟩
    | true =>
      rw [ljca_stub_alloc_ok]
      simp only []
      obtain ⟨hfail, hok⟩ := ljca_add_aux_dev_effect
        { dev with
          stubs_list := dev.stubs_list ++ [ljca_stub_fresh LJCA_GPIO_STUB (desc.bank_num * 8)] }
        ljca_aux_name.ljca_gpio
        (({ dev with
            stubs_list := dev.stubs_list
              ++ [ljca_stub_fresh LJCA_GPIO_STUB (desc.bank_num * 8)] } : ljca_dev).stub
          dev.stubs_list.length).type 0 LJCA_ACPI_MATCH_GPIO
        (ljca_platform_data.gpio
          { num := desc.pins_per_bank * desc.bank_num,
            valid_pin_map := bitmap_from_arr32
              [ljca_gpio_valid_pin_loop desc desc.bank_num 0 env.valid_pin 0,
               ljca_gpio_valid_pin_loop desc desc.bank_num 0 env.valid_pin 1]
              (desc.pins_per_bank * desc.bank_num) }) (env.aux 0)
      split
      · rename_i h
        rw [hfail h]
        refine ⟨rfl, ⟨[], ?_⟩, ⟨[], by simp [ljca_stub_destroy]⟩⟩
        simp only [ljca_stub_destroy]
        rw [List.eraseIdx_append_of_length_le (Nat.le_refl _)]
        simp
      · rename_i h
        rw [hok (not_not.mp h)]
        exact ⟨rfl, ⟨_, rfl⟩, ⟨_, rfl⟩⟩

theorem ljca_dev_grow_stub (a b : ljca_dev) (l : List ljca_stub)
    (h : a.stubs_list = b.stubs_list ++ l) (stub : Nat) (hstub : stub < b.stubs_list.length) :
    stub < a.stubs_list.length ∧ a.stub stub = b.stub stub := by
  refine ⟨by rw [h, List.length_append]; omega, ?_⟩
  unfold ljca_dev.stub
  rw [h, List.getD_append _ _ _ _ hstub]

theorem ljca_mng_enum_gpio_grows (st : ljca_state) (stub : Nat) (env : ljca_enum_env) :
    (ljca_mng_enum_gpio st stub env).2.grows_from
      (ljca_stub_write { st with mem := st.mem.store env.len LJCA_MAX_PAYLOAD_SIZE } stub
        LJCA_MNG_ENUM_GPIO none 0 env.buf env.len true LJCA_USB_ENUM_STUB_TIMEOUT_MS
        env.write).2 := by
  unfold ljca_mng_enum_gpio
  simp only []
  split
  · exact ljca_state_grows_from_refl _
  · split
    · exact ljca_state_grows_from_refl _
    · obtain ⟨a1, a2, a3⟩ := ljca_gpio_stub_init_effect
        (ljca_stub_write { st with mem := st.mem.store env.len LJCA_MAX_PAYLOAD_SIZE } stub
          LJCA_MNG_ENUM_GPIO none 0 env.buf env.len true LJCA_USB_ENUM_STUB_TIMEOUT_MS
          env.write).2.dev
        (ljca_gpio_descriptor_at
          (ljca_stub_write { st with mem := st.mem.store env.len LJCA_MAX_PAYLOAD_SIZE } stub
            LJCA_MNG_ENUM_GPIO none 0 env.buf env.len true LJCA_USB_ENUM_STUB_TIMEOUT_MS
            env.write).2.mem env.buf) env.init
      exact ⟨rfl, a1, a2, a3⟩

theorem ljca_mng_enum_i2c_grows (st : ljca_state) (stub : Nat) (env : ljca_enum_env) :
    (ljca_mng_enum_i2c st stub env).2.grows_from
      (ljca_stub_write { st with mem := st.mem.store env.len LJCA_MAX_PAYLOAD_SIZE } stub
        LJCA_MNG_ENUM_I2C none 0 env.buf env.len true LJCA_USB_ENUM_STUB_TIMEOUT_MS
        env.write).2 := by
  unfold ljca_mng_enum_i2c
  simp only []
  split
  · exact ljca_state_grows_from_refl _
  · obtain ⟨a1, a2, a3⟩ := ljca_i2c_stub_init_effect
      (ljca_stub_write { st with mem := st.mem.store env.len LJCA_MAX_PAYLOAD_SIZE } stub
        LJCA_MNG_ENUM_I2C none 0 env.buf env.len true LJCA_USB_ENUM_STUB_TIMEOUT_MS
        env.write).2.dev
      (ljca_i2c_descriptor_at
        (ljca_stub_write { st with mem := st.mem.store env.len LJCA_MAX_PAYLOAD_SIZE } stub
          LJCA_MNG_ENUM_I2C none 0 env.buf env.len true LJCA_USB_ENUM_STUB_TIMEOUT_MS
          env.write).2.mem env.buf) env.init
    exact ⟨rfl, a1, a2, a3⟩

theorem ljca_mng_enum_spi_grows (st : ljca_state) (stub : Nat) (env : ljca_enum_env) :
    (ljca_mng_enum_spi st stub env).2.grows_from
      (ljca_stub_write { st with mem := st.mem.store env.len LJCA_MAX_PAYLOAD_SIZE } stub
        LJCA_MNG_ENUM_SPI none 0 env.buf env.len true LJCA_USB_ENUM_STUB_TIMEOUT_MS
        env.write).2 := by
  unfold ljca_mng_enum_spi
  simp only []
  split
  · exact ljca_state_grows_from_refl _
  · obtain ⟨a1, a2, a3⟩ := ljca_spi_stub_init_effect
      (ljca_stub_write { st with mem := st.mem.store env.len LJCA_MAX_PAYLOAD_SIZE } stub
        LJCA_MNG_ENUM_SPI none 0 env.buf env.len true LJCA_USB_ENUM_STUB_TIMEOUT_MS
        env.write).2.dev
      (ljca_spi_descriptor_at
        (ljca_stub_write { st with mem := st.mem.store env.len LJCA_MAX_PAYLOAD_SIZE } stub
          LJCA_MNG_ENUM_SPI none 0 env.buf env.len true LJCA_USB_ENUM_STUB_TIMEOUT_MS
          env.write).2.mem env.buf) env.init
    exact ⟨rfl, a1, a2, a3⟩

/-- What one enumeration adds to the trace and keeps of the registry: exactly one frame
`type, cmd, CMPL|ACK, 0` on the outbound pipe, at most one sleep and then with the probe
timeout; the transport stays started and the stub that issued the command keeps its
position and type. -/
theorem ljca_enum_summary (st : ljca_state) (m : ljca_mem) (stub cmd buf len : Nat)
    (wenv : ljca_write_env) (R : ljca_state)
    (hR : R.grows_from
      (ljca_stub_write { st with mem := m } stub cmd none 0 buf len true
        LJCA_USB_ENUM_STUB_TIMEOUT_MS wenv).2)
    (hs : st.dev.started = true) (hk : wenv.kmalloc_ok = true)
    (hstub : stub < st.dev.stubs_list.length) :
    ljca_frames R.trace
      = ljca_frames st.trace
        ++ [[(st.dev.stub stub).type, cmd, LJCA_CMPL_FLAG ||| LJCA_ACK_FLAG, 0]] ∧
    (ljca_wait_timeouts R.trace = ljca_wait_timeouts st.trace ∨
     ljca_wait_timeouts R.trace
       = ljca_wait_timeouts st.trace ++ [LJCA_USB_ENUM_STUB_TIMEOUT_MS]) ∧
    R.dev.started = true ∧ stub < R.dev.stubs_list.length ∧
    (R.dev.stub stub).type = (st.dev.stub stub).type := by
  obtain ⟨ht, hst, ⟨l, hl⟩, _⟩ := hR
  obtain ⟨hf, hw⟩ := ljca_stub_write_frames { st with mem := m } stub cmd none 0 buf len true
    LJCA_USB_ENUM_STUB_TIMEOUT_MS wenv (by decide) hk hs
  obtain ⟨b1, _, b3, b4⟩ := ljca_stub_write_same_shape { st with mem := m } stub cmd none 0 buf
    len true LJCA_USB_ENUM_STUB_TIMEOUT_MS wenv
  simp only [] at hf hw b1 b3 b4
  obtain ⟨g1, g2⟩ := ljca_dev_grow_stub _ _ l hl stub (by rw [b3]; exact hstub)
  refine ⟨?_, ?_, ?_, g1, ?_⟩
  · rw [ht, hf]
    simp [ljca_stub_write_msg, ljca_msg.bytes, ljca_stub_write_flags, ljca_msg_len, size_t_add,
      sizeof_ljca_msg]
  · rw [ht]
    exact hw
  · rw [hst, b1]
    exact hs
  · rw [g2]
    exact (b4 stub).1

/-- The registry after the handshake: `started` and the position and type of the
management stub are as before, and the trace of the handshake is that of its exchange. -/
theorem ljca_mng_reset_handshake_shape (st : ljca_state) (stub p_ret p_ilen : Nat)
    (env : ljca_write_env) (hstub : stub < st.dev.stubs_list.length) :
    (ljca_mng_reset_handshake st stub p_ret p_ilen env).2.dev.started = st.dev.started ∧
    stub < (ljca_mng_reset_handshake st stub p_ret p_ilen env).2.dev.stubs_list.length ∧
    ((ljca_mng_reset_handshake st stub p_ret p_ilen env).2.dev.stub stub).type
      = (st.dev.stub stub).type := by
  have hshape := ljca_stub_write_same_shape
    { st with
      dev := (st.dev.set_stub stub
        { (st.dev.stub stub) with
          priv := (st.dev.stub stub).priv.set 0
            (((st.dev.stub stub).reset_id + 1) % 2 ^ 32) }),
      mem := ((st.mem.memcpy p_ret [0, 0, 0, 0] 4).store p_ilen 4) }
    stub LJCA_MNG_RESET_NOTIFY (some (cpu_to_le32 (st.dev.stub stub).reset_id)) 4 p_ret p_ilen
    true LJCA_USB_WRITE_ACK_TIMEOUT_MS env
  have hset := ljca_dev_set_stub_same_shape st.dev stub
    { (st.dev.stub stub) with
      priv := (st.dev.stub stub).priv.set 0 (((st.dev.stub stub).reset_id + 1) % 2 ^ 32) }
  have htrace : (ljca_mng_reset_handshake st stub p_ret p_ilen env).2
      = (ljca_stub_write
          { st with
            dev := (st.dev.set_stub stub
              { (st.dev.stub stub) with
                priv := (st.dev.stub stub).priv.set 0
                  (((st.dev.stub stub).reset_id + 1) % 2 ^ 32) }),
            mem := ((st.mem.memcpy p_ret [0, 0, 0, 0] 4).store p_ilen 4) }
          stub LJCA_MNG_RESET_NOTIFY (some (cpu_to_le32 (st.dev.stub stub).reset_id)) 4 p_ret
          p_ilen true LJCA_USB_WRITE_ACK_TIMEOUT_MS env).2 := by
    unfold ljca_mng_reset_handshake
    simp only []
    split
    · rfl
    · split <;> rfl
  rw [htrace]
  obtain ⟨b1, _, b3, b4⟩ := hshape
  simp only [] at b1 b3 b4
  have hlen : (st.dev.set_stub stub
      { (st.dev.stub stub) with
        priv := (st.dev.stub stub).priv.set 0
          (((st.dev.stub stub).reset_id + 1) % 2 ^ 32) }).stubs_list.length
      = st.dev.stubs_list.length := by simp [ljca_dev.set_stub]
  refine ⟨by rw [b1]; rfl, by rw [b3, hlen]; exact hstub, ?_⟩
  rw [(b4 stub).1, ljca_dev_stub_set_stub _ _ _ hstub]

/-- C18: once the reset handshake has succeeded, `ljca_mng_link` returns 0 whatever the
three enumerations return, and its final state is that of `ljca_mng_enum_spi` run after
`ljca_mng_enum_i2c` run after `ljca_mng_enum_gpio`, each on the state the previous one
left, none skipped.  When the three frame allocations succeed, the frames written after
the handshake are exactly the GPIO, I2C and SPI enumeration commands, in this order, and
every sleep on the ack wait queue after the handshake has the 20 ms probe timeout. -/
theorem ljca_mng_link_enumerates_all (st : ljca_state) (stub : Nat) (env : ljca_link_env)
    (hs : st.dev.started = true) (hstub : stub < st.dev.stubs_list.length)
    (hh : (ljca_mng_reset_handshake st stub env.reset_id_ret env.ilen env.reset).1 = 0) :
    (ljca_mng_link st stub env).1 = 0 ∧
    (ljca_mng_link st stub env).2
      = (ljca_mng_enum_spi
          (ljca_mng_enum_i2c
            (ljca_mng_enum_gpio
              (ljca_mng_reset_handshake st stub env.reset_id_ret env.ilen env.reset).2
              stub env.gpio).2
            stub env.i2c).2
          stub env.spi).2 ∧
    (env.gpio.write.kmalloc_ok = true → env.i2c.write.kmalloc_ok = true →
      env.spi.write.kmalloc_ok = true →
      ljca_frames (ljca_mng_link st stub env).2.trace
        = ljca_frames
            (ljca_mng_reset_handshake st stub env.reset_id_ret env.ilen env.reset).2.trace
          ++ [[(st.dev.stub stub).type, LJCA_MNG_ENUM_GPIO, LJCA_CMPL_FLAG ||| LJCA_ACK_FLAG, 0],
              [(st.dev.stub stub).type, LJCA_MNG_ENUM_I2C, LJCA_CMPL_FLAG ||| LJCA_ACK_FLAG, 0],
              [(st.dev.stub stub).type, LJCA_MNG_ENUM_SPI, LJCA_CMPL_FLAG ||| LJCA_ACK_FLAG, 0]] ∧
      ∃ ws, ljca_wait_timeouts (ljca_mng_link st stub env).2.trace
          = ljca_wait_timeouts
              (ljca_mng_reset_handshake st stub env.reset_id_ret env.ilen env.reset).2.trace
            ++ ws ∧
        ∀ w ∈ ws, w = LJCA_USB_ENUM_STUB_TIMEOUT_MS) := by
  have hlink : ljca_mng_link st stub env
      = (0, (ljca_mng_enum_spi
          (ljca_mng_enum_i2c
            (ljca_mng_enum_gpio
              (ljca_mng_reset_handshake st stub env.reset_id_ret env.ilen env.reset).2
              stub env.gpio).2
            stub env.i2c).2
          stub env.spi).2) := by
    unfold ljca_mng_link
    simp only [hh, ne_eq, not_true_eq_false, if_false]
  rw [hlink]
  refine ⟨rfl, rfl, ?_⟩
  intro kg ki ks
  obtain ⟨h1, h2, h3⟩ := ljca_mng_reset_handshake_shape st stub env.reset_id_ret env.ilen
    env.reset hstub
  obtain ⟨gf, gw, gs, gl, gt⟩ := ljca_enum_summary
    (ljca_mng_reset_handshake st stub env.reset_id_ret env.ilen env.reset).2 _ stub
    LJCA_MNG_ENUM_GPIO env.gpio.buf env.gpio.len env.gpio.write _
    (ljca_mng_enum_gpio_grows _ stub env.gpio) (by rw [h1]; exact hs) kg h2
  obtain ⟨jf, jw, js, jl, jt⟩ := ljca_enum_summary
    (ljca_mng_enum_gpio
      (ljca_mng_reset_handshake st stub env.reset_id_ret env.ilen env.reset).2 stub
      env.gpio).2 _ stub
    LJCA_MNG_ENUM_I2C env.i2c.buf env.i2c.len env.i2c.write _
    (ljca_mng_enum_i2c_grows _ stub env.i2c) gs ki gl
  obtain ⟨sf, sw, _, _, _⟩ := ljca_enum_summary
    (ljca_mng_enum_i2c
      (ljca_mng_enum_gpio
        (ljca_mng_reset_handshake st stub env.reset_id_ret env.ilen env.reset).2 stub
        env.gpio).2 stub env.i2c).2 _ stub
    LJCA_MNG_ENUM_SPI env.spi.buf env.spi.len env.spi.write _
    (ljca_mng_enum_spi_grows _ stub env.spi) js ks jl
  simp only []
  refine ⟨?_, ?_⟩
  · rw [sf, jf, gf, jt, gt, h3]
    simp
  · have e1 : ∃ w1, ljca_wait_timeouts
        (ljca_mng_enum_gpio
          (ljca_mng_reset_handshake st stub env.reset_id_ret env.ilen env.reset).2 stub
          env.gpio).2.trace
        = ljca_wait_timeouts
            (ljca_mng_reset_handshake st stub env.reset_id_ret env.ilen env.reset).2.trace
          ++ w1 ∧ ∀ w ∈ w1, w = LJCA_USB_ENUM_STUB_TIMEOUT_MS := by
      rcases gw with h | h
      · exact ⟨[], by rw [h]; simp, fun w hw => by cases hw⟩
      · exact ⟨[LJCA_USB_ENUM_STUB_TIMEOUT_MS], h, fun w hw => List.mem_singleton.mp hw⟩
    have e2 : ∃ w2, ljca_wait_timeouts
        (ljca_mng_enum_i2c
          (ljca_mng_enum_gpio
            (ljca_mng_reset_handshake st stub env.reset_id_ret env.ilen env.reset).2 stub
            env.gpio).2 stub env.i2c).2.trace
        = ljca_wait_timeouts
            (ljca_mng_enum_gpio
              (ljca_mng_reset_handshake st stub env.reset_id_ret env.ilen env.reset).2 stub
              env.gpio).2.trace
          ++ w2 ∧ ∀ w ∈ w2, w = LJCA_USB_ENUM_STUB_TIMEOUT_MS := by
      rcases jw with h | h
      · exact ⟨[], by rw [h]; simp, fun w hw => by cases hw⟩
      · exact ⟨[LJCA_USB_ENUM_STUB_TIMEOUT_MS], h, fun w hw => List.mem_singleton.mp hw⟩
    have e3 : ∃ w3, ljca_wait_timeouts
        (ljca_mng_enum_spi
          (ljca_mng_enum_i2c
            (ljca_mng_enum_gpio
              (ljca_mng_reset_handshake st stub env.reset_id_ret env.ilen env.reset).2 stub
              env.gpio).2 stub env.i2c).2 stub env.spi).2.trace
        = ljca_wait_timeouts
            (ljca_mng_enum_i2c
              (ljca_mng_enum_gpio
                (ljca_mng_reset_handshake st stub env.reset_id_ret env.ilen env.reset).2 stub
                env.gpio).2 stub env.i2c).2.trace
          ++ w3 ∧ ∀ w ∈ w3, w = LJCA_USB_ENUM_STUB_TIMEOUT_MS := by
      rcases sw with h | h
      · exact ⟨[], by rw [h]; simp, fun w hw => by cases hw⟩
      · exact ⟨[LJCA_USB_ENUM_STUB_TIMEOUT_MS], h, fun w hw => List.mem_singleton.mp hw⟩
    obtain ⟨w1, q1, a1⟩ := e1
    obtain ⟨w2, q2, a2⟩ := e2
    obtain ⟨w3, q3, a3⟩ := e3
    refine ⟨w1 ++ w2 ++ w3, by rw [q3, q2, q1]; simp only [List.append_assoc], ?_⟩
    intro w hw
    rcases List.mem_append.mp hw with h | h
    · rcases List.mem_append.mp h with h | h
      · exact a1 w h
      · exact a2 w h
    · exact a3 w h

/-- Witness for C18: bring-up on `ex_boot` with the peripheral answering every command. -/
theorem ljca_mng_link_enumerates_all_witness :
    (ljca_mng_link ex_boot 0 (ex_link_env [7, 0, 0, 0])).1 = 0 ∧
    (ljca_mng_link ex_boot 0 (ex_link_env [7, 0, 0, 0])).2
      = (ljca_mng_enum_spi
          (ljca_mng_enum_i2c
            (ljca_mng_enum_gpio
              (ljca_mng_reset_handshake ex_boot 0 (ex_link_env [7, 0, 0, 0]).reset_id_ret
                (ex_link_env [7, 0, 0, 0]).ilen (ex_link_env [7, 0, 0, 0]).reset).2
              0 (ex_link_env [7, 0, 0, 0]).gpio).2
            0 (ex_link_env [7, 0, 0, 0]).i2c).2
          0 (ex_link_env [7, 0, 0, 0]).spi).2 ∧
    ((ex_link_env [7, 0, 0, 0]).gpio.write.kmalloc_ok = true →
      (ex_link_env [7, 0, 0, 0]).i2c.write.kmalloc_ok = true →
      (ex_link_env [7, 0, 0, 0]).spi.write.kmalloc_ok = true →
      ljca_frames (ljca_mng_link ex_boot 0 (ex_link_env [7, 0, 0, 0])).2.trace
        = ljca_frames
            (ljca_mng_reset_handshake ex_boot 0 (ex_link_env [7, 0, 0, 0]).reset_id_ret
              (ex_link_env [7, 0, 0, 0]).ilen (ex_link_env [7, 0, 0, 0]).reset).2.trace
          ++ [[(ex_boot.dev.stub 0).type, LJCA_MNG_ENUM_GPIO, LJCA_CMPL_FLAG ||| LJCA_ACK_FLAG, 0],
              [(ex_boot.dev.stub 0).type, LJCA_MNG_ENUM_I2C, LJCA_CMPL_FLAG ||| LJCA_ACK_FLAG, 0],
              [(ex_boot.dev.stub 0).type, LJCA_MNG_ENUM_SPI, LJCA_CMPL_FLAG ||| LJCA_ACK_FLAG, 0]] ∧
      ∃ ws, ljca_wait_timeouts (ljca_mng_link ex_boot 0 (ex_link_env [7, 0, 0, 0])).2.trace
          = ljca_wait_timeouts
              (ljca_mng_reset_handshake ex_boot 0 (ex_link_env [7, 0, 0, 0]).reset_id_ret
                (ex_link_env [7, 0, 0, 0]).ilen (ex_link_env [7, 0, 0, 0]).reset).2.trace
            ++ ws ∧
        ∀ w ∈ ws, w = LJCA_USB_ENUM_STUB_TIMEOUT_MS) :=
  ljca_mng_link_enumerates_all ex_boot 0 (ex_link_env [7, 0, 0, 0]) rfl (by decide)
    (by decide)

/-- The scenario of C18 evaluated: the GPIO enumeration gets no reply and times out after
the probe timeout, a GPIO stub and child are absent, and the I2C and SPI enumerations are
still made and succeed; `ljca_mng_link` returns 0. -/
theorem ljca_mng_link_gpio_timeout_eval :
    (ljca_mng_enum_gpio
      (ljca_mng_reset_handshake ex_boot 0 300 400
        (ex_env_reply 8 (ex_reset_reply [7, 0, 0, 0]))).2 0
      { ex_enum_env ex_gpio_reply with write := ex_env 4 }).1 = -ETIMEDOUT ∧
    (ljca_mng_link ex_boot 0
      { ex_link_env [7, 0, 0, 0] with
        gpio := { ex_enum_env ex_gpio_reply with write := ex_env 4 } }).1 = 0 ∧
    ljca_frames (ljca_mng_link ex_boot 0
      { ex_link_env [7, 0, 0, 0] with
        gpio := { ex_enum_env ex_gpio_reply with write := ex_env 4 } }).2.trace
      = [[1, 2, 5, 4, 7, 0, 0, 0], [1, 4, 5, 0], [1, 5, 5, 0], [1, 8, 5, 0]] ∧
    ljca_wait_timeouts (ljca_mng_link ex_boot 0
      { ex_link_env [7, 0, 0, 0] with
        gpio := { ex_enum_env ex_gpio_reply with write := ex_env 4 } }).2.trace
      = [500, 20, 20, 20] ∧
    ((ljca_mng_link ex_boot 0
      { ex_link_env [7, 0, 0, 0] with
        gpio := { ex_enum_env ex_gpio_reply with write := ex_env 4 } }).2.dev.stubs_list.map
        (fun s => s.type)) = [1, 4, 5] ∧
    ((ljca_mng_link ex_boot 0
      { ex_link_env [7, 0, 0, 0] with
        gpio := { ex_enum_env ex_gpio_reply with write := ex_env 4 } }).2.dev.ljcas.map
        (fun c => (c.type, c.id))) = [(4, 0), (4, 1), (5, 0)] := by
  decide

/-! ## Bring-up: the size of an enumeration reply -/

/-- The GPIO enumeration compares the number of bytes received with the descriptor's
declared size, `2 + 6 * bank_num`: on a mismatch it returns `-EINVAL`, and the registry
keeps the shape it had before the call (no stub allocated, no child created). -/
theorem ljca_mng_enum_gpio_size_mismatch (st : ljca_state) (stub : Nat) (env : ljca_enum_env)
    (hret : (ljca_stub_write { st with mem := st.mem.store env.len LJCA_MAX_PAYLOAD_SIZE } stub
        LJCA_MNG_ENUM_GPIO none 0 env.buf env.len true LJCA_USB_ENUM_STUB_TIMEOUT_MS
        env.write).1 = 0)
    (hlen : (ljca_stub_write { st with mem := st.mem.store env.len LJCA_MAX_PAYLOAD_SIZE } stub
        LJCA_MNG_ENUM_GPIO none 0 env.buf env.len true LJCA_USB_ENUM_STUB_TIMEOUT_MS
        env.write).2.mem.words env.len
      ≠ 2 + 6 * (ljca_stub_write { st with mem := st.mem.store env.len LJCA_MAX_PAYLOAD_SIZE }
          stub LJCA_MNG_ENUM_GPIO none 0 env.buf env.len true LJCA_USB_ENUM_STUB_TIMEOUT_MS
          env.write).2.mem.bytes (env.buf + 1)) :
    (ljca_mng_enum_gpio st stub env).1 = -EINVAL ∧
    (ljca_mng_enum_gpio st stub env).2.dev.same_shape st.dev := by
  have hshape := ljca_stub_write_same_shape
    { st with mem := st.mem.store env.len LJCA_MAX_PAYLOAD_SIZE } stub
    LJCA_MNG_ENUM_GPIO none 0 env.buf env.len true LJCA_USB_ENUM_STUB_TIMEOUT_MS env.write
  unfold ljca_mng_enum_gpio
  simp only [hret, ne_eq, not_true_eq_false, if_false]
  rw [if_pos (by simpa [ljca_gpio_descriptor_size, ljca_gpio_descriptor_at] using hlen)]
  exact ⟨rfl, hshape⟩

/-- The I2C and SPI enumerations hand the buffer to the stub initialisation as soon as the
exchange has succeeded, whatever number of bytes was received. -/
theorem ljca_mng_enum_i2c_spi_unchecked (st : ljca_state) (stub : Nat) (env : ljca_enum_env) :
    ((ljca_stub_write { st with mem := st.mem.store env.len LJCA_MAX_PAYLOAD_SIZE } stub
        LJCA_MNG_ENUM_I2C none 0 env.buf env.len true LJCA_USB_ENUM_STUB_TIMEOUT_MS
        env.write).1 = 0 →
      (ljca_mng_enum_i2c st stub env).1
        = (ljca_i2c_stub_init
            (ljca_stub_write { st with mem := st.mem.store env.len LJCA_MAX_PAYLOAD_SIZE } stub
              LJCA_MNG_ENUM_I2C none 0 env.buf env.len true LJCA_USB_ENUM_STUB_TIMEOUT_MS
              env.write).2.dev
            (ljca_i2c_descriptor_at
              (ljca_stub_write { st with mem := st.mem.store env.len LJCA_MAX_PAYLOAD_SIZE }
                stub LJCA_MNG_ENUM_I2C none 0 env.buf env.len true
                LJCA_USB_ENUM_STUB_TIMEOUT_MS env.write).2.mem env.buf) env.init).1) ∧
    ((ljca_stub_write { st with mem := st.mem.store env.len LJCA_MAX_PAYLOAD_SIZE } stub
        LJCA_MNG_ENUM_SPI none 0 env.buf env.len true LJCA_USB_ENUM_STUB_TIMEOUT_MS
        env.write).1 = 0 →
      (ljca_mng_enum_spi st stub env).1
        = (ljca_spi_stub_init
            (ljca_stub_write { st with mem := st.mem.store env.len LJCA_MAX_PAYLOAD_SIZE } stub
              LJCA_MNG_ENUM_SPI none 0 env.buf env.len true LJCA_USB_ENUM_STUB_TIMEOUT_MS
              env.write).2.dev
            (ljca_spi_descriptor_at
              (ljca_stub_write { st with mem := st.mem.store env.len LJCA_MAX_PAYLOAD_SIZE }
                stub LJCA_MNG_ENUM_SPI none 0 env.buf env.len true
                LJCA_USB_ENUM_STUB_TIMEOUT_MS env.write).2.mem env.buf) env.init).1) := by
  refine ⟨fun h => ?_, fun h => ?_⟩
  · unfold ljca_mng_enum_i2c
    simp only [h, ne_eq, not_true_eq_false, if_false]
  · unfold ljca_mng_enum_spi
    simp only [h, ne_eq, not_true_eq_false, if_false]

/-- C19 (evaluation at the failing input): after the GPIO enumeration the I2C enumeration
receives a 1-byte reply declaring two controllers (declared size 7).  The reported length
is 1, yet `ljca_mng_enum_i2c` returns 0, an I2C stub is allocated and two I2C children
are created whose capability fields are the bytes the GPIO descriptor left in `buf`.  The
SPI enumeration does the same with a 1-byte reply declaring one controller (declared size
3).  The GPIO enumeration, given a 1-byte reply, returns `-EINVAL` and creates nothing. -/
theorem ljca_mng_enum_i2c_spi_accept_short_reply :
    (ljca_mng_enum_i2c ex_after_gpio 0 (ex_enum_env ex_i2c_short_reply)).2.mem.words 600 = 1 ∧
    ljca_i2c_descriptor_size
      ((ljca_mng_enum_i2c ex_after_gpio 0 (ex_enum_env ex_i2c_short_reply)).2.mem.bytes 500)
      = 7 ∧
    (ljca_mng_enum_i2c ex_after_gpio 0 (ex_enum_env ex_i2c_short_reply)).1 = 0 ∧
    ((ljca_mng_enum_i2c ex_after_gpio 0 (ex_enum_env ex_i2c_short_reply)).2.dev.stubs_list.map
        (fun s => s.type)) = [1, 3, 4] ∧
    ((ljca_mng_enum_i2c ex_after_gpio 0 (ex_enum_env ex_i2c_short_reply)).2.dev.ljcas.drop 1)
      = [{ type := 4, id := 0,
           auxdev := { name := ljca_aux_name.ljca_i2c, id := 0,
                       platform_data := ljca_platform_data.i2c
                         { id := 1, capacity := 0, intr_pin := 8 } } },
         { type := 4, id := 1,
           auxdev := { name := ljca_aux_name.ljca_i2c, id := 1,
                       platform_data := ljca_platform_data.i2c
                         { id := 255, capacity := 0, intr_pin := 0 } } }] ∧
    (ljca_mng_enum_spi ex_after_gpio 0 (ex_enum_env ex_spi_short_reply)).2.mem.words 600 = 1 ∧
    ljca_spi_descriptor_size
      ((ljca_mng_enum_spi ex_after_gpio 0 (ex_enum_env ex_spi_short_reply)).2.mem.bytes 500)
      = 3 ∧
    (ljca_mng_enum_spi ex_after_gpio 0 (ex_enum_env ex_spi_short_reply)).1 = 0 ∧
    ((ljca_mng_enum_spi ex_after_gpio 0 (ex_enum_env ex_spi_short_reply)).2.dev.stubs_list.map
        (fun s => s.type)) = [1, 3, 5] ∧
    ((ljca_mng_enum_spi ex_after_gpio 0 (ex_enum_env ex_spi_short_reply)).2.dev.ljcas.drop 1)
      = [{ type := 5, id := 0,
           auxdev := { name := ljca_aux_name.ljca_spi, id := 0,
                       platform_data := ljca_platform_data.spi
                         { id := 1, capacity := 0 } } }] ∧
    (ljca_mng_enum_gpio ex_boot 0 (ex_enum_env ex_gpio_short_reply)).1 = -EINVAL ∧
    ((ljca_mng_enum_gpio ex_boot 0 (ex_enum_env ex_gpio_short_reply)).2.dev.stubs_list.map
        (fun s => s.type)) = [1] ∧
    (ljca_mng_enum_gpio ex_boot 0 (ex_enum_env ex_gpio_short_reply)).2.dev.ljcas = [] := by
  decide

/-! ## Bring-up -/

/-- Bring-up evaluated end to end on `ex_boot` (counter 7): the peripheral echoes 7, and
describes one GPIO bank of 8 pins, two I2C controllers and one SPI controller. -/
theorem ljca_mng_link_eval :
    (ljca_mng_link ex_boot 0 (ex_link_env [7, 0, 0, 0])).1 = 0 ∧
    ljca_frames (ljca_mng_link ex_boot 0 (ex_link_env [7, 0, 0, 0])).2.trace
      = [[1, 2, 5, 4, 7, 0, 0, 0], [1, 4, 5, 0], [1, 5, 5, 0], [1, 8, 5, 0]] ∧
    ljca_wait_timeouts (ljca_mng_link ex_boot 0 (ex_link_env [7, 0, 0, 0])).2.trace
      = [500, 20, 20, 20] ∧
    ((ljca_mng_link ex_boot 0 (ex_link_env [7, 0, 0, 0])).2.dev.stubs_list.map
        (fun s => s.type)) = [1, 3, 4, 5] ∧
    (ljca_mng_link ex_boot 0 (ex_link_env [7, 0, 0, 0])).2.dev.ljcas
      = [{ type := 3, id := 0,
           auxdev := { name := ljca_aux_name.ljca_gpio, id := 0,
                       platform_data := ljca_platform_data.gpio
                         { num := 8, valid_pin_map := 255 } } },
         { type := 4, id := 0,
           auxdev := { name := ljca_aux_name.ljca_i2c, id := 0,
                       platform_data := ljca_platform_data.i2c
                         { id := 0, capacity := 1, intr_pin := 2 } } },
         { type := 4, id := 1,
           auxdev := { name := ljca_aux_name.ljca_i2c, id := 1,
                       platform_data := ljca_platform_data.i2c
                         { id := 1, capacity := 3, intr_pin := 4 } } },
         { type := 5, id := 0,
           auxdev := { name := ljca_aux_name.ljca_spi, id := 0,
                       platform_data := ljca_platform_data.spi
                         { id := 0, capacity := 1 } } }] ∧
    ((ljca_mng_link ex_boot 0 (ex_link_env [7, 0, 0, 0])).2.dev.stub 0).priv = [8] := by
  decide

/-! ## Inbound dispatcher: re-arming the receive -/

theorem ljca_submits_append (a b : List ljca_io) :
    ljca_submits (a ++ b) = ljca_submits a + ljca_submits b := by
  simp [ljca_submits]

theorem ljca_submits_stub_notify (stub : ljca_stub) (cmd : Nat) (d : List Nat) (len : Nat) :
    ljca_submits (ljca_stub_notify stub cmd d len) = 0 := by
  unfold ljca_submits ljca_stub_notify
  rw [List.length_eq_zero, List.filter_eq_nil_iff]
  intro e he
  obtain ⟨x, _, rfl⟩ := List.mem_map.mp he
  simp

/-- What `ljca_parse` appends to the trace holds no URB submission. -/
theorem ljca_parse_submits (st : ljca_state) (header : ljca_msg) :
    ∃ mid, (ljca_parse st header).2.trace = st.trace ++ mid ∧ ljca_submits mid = 0 := by
  unfold ljca_parse
  split
  · exact ⟨[], by simp, rfl⟩
  · rename_i i stub _
    by_cases h1 : header.flags &&& LJCA_ACK_FLAG = 0
    · rw [if_pos h1]
      exact ⟨_, rfl, ljca_submits_stub_notify stub _ _ _⟩
    · rw [if_neg h1]
      by_cases h2 : stub.cur_cmd ≠ (header.cmd : Int)
      · rw [if_pos h2]
        exact ⟨[], by simp, rfl⟩
      · rw [if_neg h2]
        exact ⟨[ljca_io.wake_up], rfl, rfl⟩

/-- The four exits of `ljca_read_complete`, one equation each. -/
theorem ljca_read_complete_paths (st : ljca_state) (u : urb) :
    (u.unlinked → ljca_read_complete st u = st) ∧
    (u.status ≠ 0 → ¬ u.unlinked →
      ljca_read_complete st u = { st with trace := st.trace ++ [ljca_io.submit_urb] }) ∧
    (u.status = 0 → ljca_validate (ljca_msg_of_buf u.transfer_buffer) u.actual_length = false →
      ljca_read_complete st u = { st with trace := st.trace ++ [ljca_io.submit_urb] }) ∧
    (u.status = 0 → ljca_validate (ljca_msg_of_buf u.transfer_buffer) u.actual_length = true →
      ljca_read_complete st u =
        { (ljca_parse st (ljca_msg_of_buf u.transfer_buffer)).2 with
          trace := (ljca_parse st (ljca_msg_of_buf u.transfer_buffer)).2.trace
            ++ [ljca_io.submit_urb] }) := by
  refine ⟨fun hu => ?_, fun h0 hu => ?_, fun h0 hv => ?_, fun h0 hv => ?_⟩
  · have hne : u.status ≠ 0 := by
      intro h0
      have hu2 := hu
      unfold urb.unlinked at hu2
      rw [h0] at hu2
      revert hu2
      decide
    unfold urb.unlinked at hu
    unfold ljca_read_complete
    simp only []
    rw [if_pos hne, if_pos hu]
  · unfold urb.unlinked at hu
    unfold ljca_read_complete
    simp only []
    rw [if_pos h0, if_neg hu]
  · unfold ljca_read_complete
    simp only []
    rw [if_neg (not_not.mpr h0), hv]
    rfl
  · unfold ljca_read_complete
    simp only []
    rw [if_neg (not_not.mpr h0), hv]
    rfl

/-- C23: `ljca_read_complete` leaves the state as it is, without resubmitting, when the
completion status is `-ENOENT`, `-ECONNRESET` or `-ESHUTDOWN`.  On every other completion
(receive error, malformed frame, unknown stub, command mismatch, event, accepted
acknowledgement) it submits the URB exactly once, as the last thing it does.  A completion
with a non-zero status, and a frame that fails `ljca_validate`, change nothing but that:
the frame does not reach `ljca_parse`, so the registry and caller memory are untouched and
no callback or wake-up is recorded. -/
theorem ljca_read_complete_resubmits_once (st : ljca_state) (u : urb) :
    (u.unlinked → ljca_read_complete st u = st) ∧
    (¬ u.unlinked →
      ljca_submits (ljca_read_complete st u).trace = ljca_submits st.trace + 1 ∧
      ∃ mid, (ljca_read_complete st u).trace = st.trace ++ mid ++ [ljca_io.submit_urb] ∧
        ljca_submits mid = 0) ∧
    (¬ u.unlinked →
      u.status ≠ 0 ∨ ljca_validate (ljca_msg_of_buf u.transfer_buffer) u.actual_length = false →
      ljca_read_complete st u = { st with trace := st.trace ++ [ljca_io.submit_urb] }) := by
  obtain ⟨p1, p2, p3, p4⟩ := ljca_read_complete_paths st u
  refine ⟨p1, fun hu => ?_, fun hu hbad => ?_⟩
  · have key : ∃ mid, (ljca_read_complete st u).trace = st.trace ++ mid ++ [ljca_io.submit_urb] ∧
        ljca_submits mid = 0 := by
      by_cases h0 : u.status = 0
      · cases hv : ljca_validate (ljca_msg_of_buf u.transfer_buffer) u.actual_length
        · rw [p3 h0 hv]
          exact ⟨[], by simp, rfl⟩
        · obtain ⟨mid, hmid, hz⟩ := ljca_parse_submits st (ljca_msg_of_buf u.transfer_buffer)
          rw [p4 h0 hv]
          exact ⟨mid, by simp only [hmid], hz⟩
      · rw [p2 h0 hu]
        exact ⟨[], by simp, rfl⟩
    refine ⟨?_, key⟩
    obtain ⟨mid, hmid, hz⟩ := key
    rw [hmid, ljca_submits_append, ljca_submits_append, hz]
    rfl
  · by_cases h0 : u.status = 0
    · rcases hbad with h | h
      · exact absurd h0 h
      · exact p3 h0 h
    · exact p2 h0 hu

/-- C23 at concrete completions on `ex_pending`: a receive error (`-EPROTO`, 71) and a
frame one byte short are answered by one resubmission and nothing else. -/
theorem ljca_read_complete_resubmits_once_witness :
    (ljca_submits
        (ljca_read_complete ex_pending { ex_urb_reply with status := -71 }).trace
      = ljca_submits ex_pending.trace + 1 ∧
     ∃ mid, (ljca_read_complete ex_pending { ex_urb_reply with status := -71 }).trace
        = ex_pending.trace ++ mid ++ [ljca_io.submit_urb] ∧ ljca_submits mid = 0) ∧
    ljca_read_complete ex_pending ex_urb_short
      = { ex_pending with trace := ex_pending.trace ++ [ljca_io.submit_urb] } :=
  ⟨(ljca_read_complete_resubmits_once ex_pending { ex_urb_reply with status := -71 }).2.1
      (by decide),
   (ljca_read_complete_resubmits_once ex_pending ex_urb_short).2.2 (by decide)
      (Or.inr (by decide))⟩

/-- The six completion paths evaluated on `ex_pending` (GPIO stub awaiting the reply to
command 4): unlink, receive error, malformed frame, unknown stub, command mismatch, event,
accepted acknowledgement. -/
theorem ljca_read_complete_paths_eval :
    (ljca_read_complete ex_pending { ex_urb_reply with status := -ESHUTDOWN }).trace = [] ∧
    (ljca_read_complete ex_pending { ex_urb_reply with status := -71 }).trace
      = [ljca_io.submit_urb] ∧
    (ljca_read_complete ex_pending ex_urb_short).trace = [ljca_io.submit_urb] ∧
    (ljca_read_complete ex_pending
      { status := 0, transfer_buffer := [9, 4, 3, 0], actual_length := 4 }).trace
      = [ljca_io.submit_urb] ∧
    (ljca_read_complete ex_pending
      { status := 0, transfer_buffer := [3, 5, 3, 0], actual_length := 4 }).trace
      = [ljca_io.submit_urb] ∧
    (ljca_read_complete ex_state
      { status := 0, transfer_buffer := [3, 6, 0, 1, 42], actual_length := 5 }).trace
      = [ljca_io.event_cb 77 88 6 [42] 1, ljca_io.submit_urb] ∧
    (ljca_read_complete ex_pending ex_urb_reply).trace
      = [ljca_io.wake_up, ljca_io.submit_urb] := by
  decide

/-! ## Event fan-out: the listener-list invariant -/

theorem ljca_stub_find_mem (dev : ljca_dev) (type i : Nat) (s : ljca_stub)
    (h : ljca_stub_find dev type = .ok (i, s)) : s ∈ dev.stubs_list := by
  obtain ⟨hi, hs, _⟩ := ljca_stub_find_ok dev type i s h
  rw [← hs]
  unfold ljca_dev.stub
  rw [List.getD_eq_getElem _ _ hi]
  exact List.getElem_mem _

theorem ljca_unregister_event_cb_loop_sublist (id : Nat) :
    ∀ l : List ljca_event_cb_entry, (ljca_unregister_event_cb_loop id l).Sublist l := by
  intro l
  induction l with
  | nil => exact List.Sublist.slnil
  | cons x rest ih =>
    unfold ljca_unregister_event_cb_loop
    by_cases hx : x.id = id
    · rw [if_pos hx]
      exact List.sublist_cons_self x rest
    · rw [if_neg hx]
      exact ih.cons₂ x

theorem ljca_dev_set_stub_listeners_nodup (dev : ljca_dev) (i : Nat) (t : ljca_stub)
    (hdev : dev.listeners_nodup) (ht : (t.event_entrys.map (fun e => e.id)).Nodup) :
    (dev.set_stub i t).listeners_nodup := by
  intro s hs
  rcases List.mem_or_eq_of_mem_set hs with h | h
  · exact hdev s h
  · rw [h]
    exact ht

/-- A registration call keeps the listener lists free of duplicates, whatever the
allocation result and whatever `ret` holds when the search loop starts. -/
theorem ljca_register_event_cb_listeners_nodup (dev : ljca_dev) (l : ljca)
    (event_cb context : Nat) (kzalloc_ok : Bool) (ret_uninit : Int)
    (hdev : dev.listeners_nodup) :
    (ljca_register_event_cb dev l event_cb context kzalloc_ok ret_uninit).2.listeners_nodup := by
  unfold ljca_register_event_cb
  cases hf : ljca_stub_find dev l.type with
  | error e => exact hdev
  | ok r =>
    obtain ⟨i, stub⟩ := r
    simp only []
    cases kzalloc_ok
    · exact hdev
    · simp only [Bool.not_true, Bool.false_eq_true, if_false]
      by_cases hret : ljca_register_event_cb_loop l.id ret_uninit stub.event_entrys = 0
      · rw [if_pos hret]
        refine ljca_dev_set_stub_listeners_nodup dev i _ hdev ?_
        have hold := hdev stub (ljca_stub_find_mem dev l.type i stub hf)
        have hfresh : l.id ∉ stub.event_entrys.map (fun e => e.id) := by
          intro hmem
          obtain ⟨e, he, hid⟩ := List.mem_map.mp hmem
          have hb := ljca_register_event_cb_loop_dup l.id ret_uninit stub.event_entrys
            ⟨e, he, hid⟩
          rw [hb] at hret
          revert hret
          decide
        simp only [List.map_append, List.map_cons, List.map_nil]
        rw [List.nodup_append]
        refine ⟨hold, List.nodup_singleton _, ?_⟩
        intro a ha hb
        rw [List.mem_singleton] at hb
        rw [hb] at ha
        exact hfresh ha
      · rw [if_neg hret]
        exact hdev

/-- A removal call keeps the listener lists free of duplicates. -/
theorem ljca_unregister_event_cb_listeners_nodup (dev : ljca_dev) (l : ljca)
    (hdev : dev.listeners_nodup) : (ljca_unregister_event_cb dev l).listeners_nodup := by
  unfold ljca_unregister_event_cb
  cases hf : ljca_stub_find dev l.type with
  | error e => exact hdev
  | ok r =>
    obtain ⟨i, stub⟩ := r
    simp only []
    refine ljca_dev_set_stub_listeners_nodup dev i _ hdev ?_
    have hold := hdev stub (ljca_stub_find_mem dev l.type i stub hf)
    exact hold.sublist ((ljca_unregister_event_cb_loop_sublist l.id stub.event_entrys).map _)

theorem ljca_event_calls_listeners_nodup (calls : List ljca_event_call) :
    ∀ dev : ljca_dev, dev.listeners_nodup → (ljca_event_calls dev calls).listeners_nodup := by
  induction calls with
  | nil => intro dev h; exact h
  | cons c cs ih =>
    intro dev h
    have hstep : ljca_event_calls dev (c :: cs) = ljca_event_calls (c.apply dev) cs := rfl
    rw [hstep]
    apply ih
    cases c with
    | register l event_cb context kzalloc_ok ret_uninit =>
      exact ljca_register_event_cb_listeners_nodup dev l event_cb context kzalloc_ok ret_uninit h
    | unregister l => exact ljca_unregister_event_cb_listeners_nodup dev l h

/-- C24: starting from a registry whose listener lists are all empty, after any sequence of
`ljca_register_event_cb` and `ljca_unregister_event_cb` calls (any handles, callbacks and
contexts, any allocation results, any value of the uninitialised `ret`), no two entries of
any stub's listener list have the same identity. -/
theorem ljca_event_entrys_nodup (dev : ljca_dev) (calls : List ljca_event_call)
    (hempty : ∀ s ∈ dev.stubs_list, s.event_entrys = []) :
    ∀ s ∈ (ljca_event_calls dev calls).stubs_list,
      (s.event_entrys.map (fun e => e.id)).Nodup := by
  apply ljca_event_calls_listeners_nodup calls dev
  intro s hs
  rw [hempty s hs]
  exact List.nodup_nil

/-- C24 on `ex_boot` extended by an empty GPIO stub: the listener list of the GPIO stub
after the calls `ex_event_calls`. -/
theorem ljca_event_entrys_nodup_witness :
    ((((ljca_event_calls
        { ex_boot.dev with stubs_list := ex_boot.dev.stubs_list ++ [ljca_stub_fresh 3 0] }
        ex_event_calls).stub 1).event_entrys).map (fun e => e.id)).Nodup :=
  ljca_event_entrys_nodup
    { ex_boot.dev with stubs_list := ex_boot.dev.stubs_list ++ [ljca_stub_fresh 3 0] }
    ex_event_calls (by decide) _ (by decide)

/-- The listener lists after `ex_event_calls`: the duplicate of identity 0 was refused, the
removal took the first registration of 0 out, the failed allocation and the registration
with a non-zero initial `ret` added nothing. -/
theorem ljca_event_calls_eval :
    (ljca_event_calls
        { ex_boot.dev with stubs_list := ex_boot.dev.stubs_list ++ [ljca_stub_fresh 3 0] }
        ex_event_calls).stubs_list.map (fun s => s.event_entrys)
      = [[{ id := 4, notify := 83, context := 94 }],
         [{ id := 1, notify := 79, context := 90 }, { id := 0, notify := 80, context := 91 }]] := by
  decide

/-! ## Bring-up: the `valid_pin` array of `ljca_gpio_stub_init` -/

theorem ljca_gpio_valid_pin_stores_mem : ∀ (n i j : Nat),
    j ∈ ljca_gpio_valid_pin_stores n i ↔ i ≤ j ∧ j < i + n := by
  intro n
  induction n with
  | zero => intro i j; simp [ljca_gpio_valid_pin_stores]
  | succ n ih =>
    intro i j
    unfold ljca_gpio_valid_pin_stores
    rw [List.mem_cons, ih]
    omega

/-- With at most as many banks as the array has elements, every store is inside the
array and the checked loop computes what the unchecked one does: the array it returns has
the length it had, and holds at each index the word the unchecked loop leaves there. -/
theorem ljca_gpio_valid_pin_loop_checked_ok (desc : ljca_gpio_descriptor) :
    ∀ (n i : Nat) (valid_pin : List Nat), i + n ≤ valid_pin.length →
      ∃ w, ljca_gpio_valid_pin_loop_checked desc n i valid_pin = some w ∧
        w.length = valid_pin.length ∧
        ∀ j, w.getD j 0
          = ljca_gpio_valid_pin_loop desc n i (fun k => valid_pin.getD k 0) j := by
  intro n
  induction n with
  | zero => intro i v _; exact ⟨v, rfl, rfl, fun _ => rfl⟩
  | succ n ih =>
    intro i v h
    unfold ljca_gpio_valid_pin_loop_checked ljca_gpio_valid_pin_loop
    rw [if_pos (by omega)]
    obtain ⟨w, hw, hl, hj⟩ := ih (i + 1) (v.set i (desc.bank_desc i).valid_pins)
      (by rw [List.length_set]; omega)
    refine ⟨w, hw, by rw [hl, List.length_set], ?_⟩
    intro j
    rw [hj j]
    have hf : (fun k => (v.set i (desc.bank_desc i).valid_pins).getD k 0)
        = fun k => if k = i then (desc.bank_desc i).valid_pins else v.getD k 0 := by
      funext k
      by_cases hk : k = i
      · rw [if_pos hk, hk, List.getD_eq_getElem _ _ (by rw [List.length_set]; omega)]
        simp
      · rw [if_neg hk]
        simp only [List.getD_eq_getElem?_getD, List.getElem?_set]
        rw [if_neg (fun h => hk h.symm)]
    rw [hf]

/-- With more banks than the array has elements, a store falls outside the array. -/
theorem ljca_gpio_valid_pin_loop_checked_overrun (desc : ljca_gpio_descriptor) :
    ∀ (n i : Nat) (valid_pin : List Nat), i ≤ valid_pin.length → valid_pin.length < i + n →
      ljca_gpio_valid_pin_loop_checked desc n i valid_pin = none := by
  intro n
  induction n with
  | zero => intro i v h1 h2; omega
  | succ n ih =>
    intro i v h1 h2
    unfold ljca_gpio_valid_pin_loop_checked
    by_cases hi : i < v.length
    · rw [if_pos hi]
      apply ih
      · rw [List.length_set]; omega
      · rw [List.length_set]; omega
    · rw [if_neg hi]

/-- C25 (evaluation at the failing input): the descriptor with three banks of one pin
passes the check `gpio_num > LJCA_MAX_GPIO_NUM` (3 pins), the loop then stores at the
indices 0, 1 and 2 of `valid_pin`, which has 2 elements: index 2 is outside the array, and
the bounds-checked loop fails.  A reply of 20 payload bytes carrying this descriptor passes
the length check of `ljca_mng_enum_gpio`, which returns 0 and creates the GPIO child. -/
theorem ljca_gpio_stub_init_valid_pin_overrun :
    ¬ (ex_gpio_desc_3_banks.pins_per_bank * ex_gpio_desc_3_banks.bank_num > LJCA_MAX_GPIO_NUM) ∧
    ljca_gpio_valid_pin_size = 2 ∧
    ljca_gpio_valid_pin_stores ex_gpio_desc_3_banks.bank_num 0 = [0, 1, 2] ∧
    (∃ i ∈ ljca_gpio_valid_pin_stores ex_gpio_desc_3_banks.bank_num 0,
      ¬ i < ljca_gpio_valid_pin_size) ∧
    ljca_gpio_valid_pin_loop_checked ex_gpio_desc_3_banks ex_gpio_desc_3_banks.bank_num 0
      [0, 0] = none ∧
    (ljca_gpio_stub_init ex_boot.dev ex_gpio_desc_3_banks ex_init_ok).1 = 0 ∧
    (ljca_mng_enum_gpio ex_boot 0 (ex_enum_env ex_gpio_reply_3_banks)).1 = 0 ∧
    (ljca_mng_enum_gpio ex_boot 0 (ex_enum_env ex_gpio_reply_3_banks)).2.dev.ljcas
      = [ljca_gpio_child 3 3 1] := by
  decide

/-- The stores of `ljca_gpio_stub_init` stay inside `valid_pin` exactly when the
descriptor has at most two banks, whatever the number of pins per bank is. -/
theorem ljca_gpio_valid_pin_stores_in_bounds (desc : ljca_gpio_descriptor) :
    (∀ i ∈ ljca_gpio_valid_pin_stores desc.bank_num 0, i < ljca_gpio_valid_pin_size)
      ↔ desc.bank_num ≤ 2 := by
  have hsize : ljca_gpio_valid_pin_size = 2 := by decide
  rw [hsize]
  constructor
  · intro h
    by_contra hb
    have h2 := h 2 ((ljca_gpio_valid_pin_stores_mem desc.bank_num 0 2).mpr (by omega))
    omega
  · intro hb i hi
    have := (ljca_gpio_valid_pin_stores_mem desc.bank_num 0 i).mp hi
    omega

/-- The word the loop leaves at an index depends only on the word that was there. -/
theorem ljca_gpio_valid_pin_loop_congr (desc : ljca_gpio_descriptor) (j : Nat) :
    ∀ (n i : Nat) (f g : Nat → Nat), f j = g j →
      ljca_gpio_valid_pin_loop desc n i f j = ljca_gpio_valid_pin_loop desc n i g j := by
  intro n
  induction n with
  | zero => intro i f g h; exact h
  | succ n ih =>
    intro i f g h
    unfold ljca_gpio_valid_pin_loop
    apply ih
    simp only [h]

/-- With at most two banks no store leaves the array, and the bounds-checked function
returns what `ljca_gpio_stub_init` returns. -/
theorem ljca_gpio_stub_init_checked_in_bounds (dev : ljca_dev) (desc : ljca_gpio_descriptor)
    (env : ljca_init_env) (hbanks : desc.bank_num ≤ ljca_gpio_valid_pin_size) :
    ljca_gpio_stub_init_checked dev desc env = some (ljca_gpio_stub_init dev desc env) := by
  have hb : desc.bank_num ≤ 2 := hbanks
  obtain ⟨w, hw, hl, hj⟩ := ljca_gpio_valid_pin_loop_checked_ok desc desc.bank_num 0
    [env.valid_pin 0, env.valid_pin 1] (by simp only [List.length_cons, List.length_nil]; omega)
  have h0 : w.getD 0 0 = ljca_gpio_valid_pin_loop desc desc.bank_num 0 env.valid_pin 0 := by
    rw [hj 0]
    exact ljca_gpio_valid_pin_loop_congr desc 0 _ _ _ _ rfl
  have h1 : w.getD 1 0 = ljca_gpio_valid_pin_loop desc desc.bank_num 0 env.valid_pin 1 := by
    rw [hj 1]
    exact ljca_gpio_valid_pin_loop_congr desc 1 _ _ _ _ rfl
  have hweq : w = [ljca_gpio_valid_pin_loop desc desc.bank_num 0 env.valid_pin 0,
      ljca_gpio_valid_pin_loop desc desc.bank_num 0 env.valid_pin 1] := by
    rw [← h0, ← h1]
    match w, hl with
    | [a, b], _ => rfl
  unfold ljca_gpio_stub_init_checked ljca_gpio_stub_init
  simp only []
  split
  · rfl
  · cases ha : env.stub_alloc_ok with
    | false => simp [ljca_stub_alloc]
    | true =>
      rw [ljca_stub_alloc_ok]
      simp only [hw, hweq]
      split <;> rfl

/-- With more than two banks in an accepted descriptor and the stub allocated, a store
leaves the array: the bounds-checked function has no result. -/
theorem ljca_gpio_stub_init_checked_overrun (dev : ljca_dev) (desc : ljca_gpio_descriptor)
    (env : ljca_init_env)
    (hacc : desc.pins_per_bank * desc.bank_num ≤ LJCA_MAX_GPIO_NUM)
    (halloc : env.stub_alloc_ok = true)
    (hbanks : ljca_gpio_valid_pin_size < desc.bank_num) :
    ljca_gpio_stub_init_checked dev desc env = none := by
  have hb : 2 < desc.bank_num := hbanks
  have hov := ljca_gpio_valid_pin_loop_checked_overrun desc desc.bank_num 0
    [env.valid_pin 0, env.valid_pin 1] (Nat.zero_le _)
    (by simp only [List.length_cons, List.length_nil]; omega)
  unfold ljca_gpio_stub_init_checked
  simp only []
  rw [if_neg (by omega), halloc, ljca_stub_alloc_ok]
  simp only [hov]

/-- An accepted GPIO descriptor with at most two banks: when the stub allocation and the
child addition succeed, the bounds-checked function returns 0 with one fresh GPIO stub and
exactly one child, with identity 0 and pin count `pins_per_bank * bank_num`. -/
theorem ljca_gpio_stub_init_checked_child (dev : ljca_dev) (desc : ljca_gpio_descriptor)
    (env : ljca_init_env) (halloc : env.stub_alloc_ok = true)
    (hacc : desc.pins_per_bank * desc.bank_num ≤ LJCA_MAX_GPIO_NUM)
    (hbanks : desc.bank_num ≤ ljca_gpio_valid_pin_size)
    (haux : (env.aux 0).all_ok = true)
    (hroom : dev.ljcas.length < LJCA_ACPI_MATCH_MAX) :
    ∃ valid_pin_map,
      ljca_gpio_stub_init_checked dev desc env
        = some (0, { dev with
                stubs_list := dev.stubs_list
                  ++ [ljca_stub_fresh LJCA_GPIO_STUB (desc.bank_num * 8)],
                ljcas := dev.ljcas
                  ++ [ljca_gpio_child LJCA_GPIO_STUB (desc.pins_per_bank * desc.bank_num)
                        valid_pin_map] }) := by
  obtain ⟨m, hm⟩ := (ljca_stub_init_children dev desc
    { num := 0, info := fun _ => { id := 0, capacity := 0, intr_pin := 0 } }
    { num := 0, info := fun _ => { id := 0, capacity := 0 } } env halloc (fun _ h => absurd h (Nat.not_lt_zero _))
    (by have : LJCA_ACPI_MATCH_MAX = 5 := rfl; simp only [Nat.add_zero]; omega)
    (fun _ h => absurd h (Nat.not_lt_zero _))
    (by have : LJCA_ACPI_MATCH_MAX = 5 := rfl; simp only [Nat.add_zero]; omega) hacc hbanks haux hroom).2.2.2
  exact ⟨m, by rw [ljca_gpio_stub_init_checked_in_bounds dev desc env hbanks, hm]⟩

/-- C20 (evaluation at the failing input): the GPIO descriptor with three banks of one pin
is accepted (3 pins, at most 64), yet it has more banks than `valid_pin` has elements.
Before the child is added, the loop stores bank 2 at index 2 of the two-element array: the
word behind the array, 0 before, holds 1 afterwards, and the function with its stores
checked against the bounds of the array has no result, so no child with identity 0 and
pin count 3 is assured.  The descriptor with two banks of 32 pins does give the one child
with identity 0 and pin count 64. -/
theorem ljca_gpio_stub_init_checked_three_banks :
    ¬ (ex_gpio_desc_3_banks.pins_per_bank * ex_gpio_desc_3_banks.bank_num > LJCA_MAX_GPIO_NUM) ∧
    ex_init_ok.stub_alloc_ok = true ∧
    ¬ ex_gpio_desc_3_banks.bank_num ≤ ljca_gpio_valid_pin_size ∧
    ex_init_ok.valid_pin 2 = 0 ∧
    ljca_gpio_valid_pin_loop ex_gpio_desc_3_banks ex_gpio_desc_3_banks.bank_num 0
      ex_init_ok.valid_pin 2 = 1 ∧
    ljca_gpio_stub_init_checked ex_boot.dev ex_gpio_desc_3_banks ex_init_ok = none ∧
    (ljca_gpio_stub_init_checked ex_boot.dev ex_gpio_desc ex_init_ok).map
        (fun r => (r.1, r.2.ljcas))
      = some (0, [ljca_gpio_child 3 64 18446744073709551615]) := by
  decide

/-! ## Bring-up: children and their stubs -/

/-- C26 (evaluation at the failing input): the peripheral describes one GPIO bank, two I2C
controllers and three SPI controllers.  The third SPI addition hits the limit of five
children and returns `-EINVAL`; `ljca_spi_stub_init` destroys the SPI stub and returns, the
two SPI children added before stay in `dev->ljcas`.  `ljca_mng_link` returns 0, the
registry holds no stub of type 5, and `ljca_transfer` on the SPI child's handle fails with
`-ENODEV` without writing anything.  The same happens to the first I2C child when the
allocation for the second one fails. -/
theorem ljca_mng_link_child_without_stub :
    (ljca_mng_link ex_boot 0 ex_link_env_6_children).1 = 0 ∧
    (ljca_mng_link ex_boot 0 ex_link_env_6_children).2.dev.ljcas.map (fun l => (l.type, l.id))
      = [(3, 0), (4, 0), (4, 1), (5, 0), (5, 1)] ∧
    (ljca_mng_link ex_boot 0 ex_link_env_6_children).2.dev.stubs_list.map (fun s => s.type)
      = [1, 3, 4] ∧
    (ljca_transfer (ljca_mng_link ex_boot 0 ex_link_env_6_children).2
        ((ljca_mng_link ex_boot 0 ex_link_env_6_children).2.dev.ljcas.getD 3 { type := 0, id := 0 })
        1 (some [0, 0, 0]) 3 0 0 (ex_env 7)).1 = -ENODEV ∧
    ljca_frames (ljca_transfer (ljca_mng_link ex_boot 0 ex_link_env_6_children).2
        ((ljca_mng_link ex_boot 0 ex_link_env_6_children).2.dev.ljcas.getD 3 { type := 0, id := 0 })
        1 (some [0, 0, 0]) 3 0 0 (ex_env 7)).2.trace
      = ljca_frames (ljca_mng_link ex_boot 0 ex_link_env_6_children).2.trace ∧
    (ljca_mng_link ex_boot 0 ex_link_env_i2c_nomem).1 = 0 ∧
    (ljca_mng_link ex_boot 0 ex_link_env_i2c_nomem).2.dev.ljcas.map (fun l => (l.type, l.id))
      = [(3, 0), (4, 0), (5, 0)] ∧
    (ljca_mng_link ex_boot 0 ex_link_env_i2c_nomem).2.dev.stubs_list.map (fun s => s.type)
      = [1, 3, 5] ∧
    (ljca_transfer (ljca_mng_link ex_boot 0 ex_link_env_i2c_nomem).2
        ((ljca_mng_link ex_boot 0 ex_link_env_i2c_nomem).2.dev.ljcas.getD 1 { type := 0, id := 0 })
        1 (some [0, 0, 0]) 3 0 0 (ex_env 7)).1 = -ENODEV := by
  decide

/-! ## Boot image download: `load_boot` -/

theorem min_t_u16_le (a b : Nat) : min_t_u16 a b ≤ a % 65536 ∧ min_t_u16 a b ≤ a := by
  unfold min_t_u16
  norm_num
  omega

theorem u32_sub_of_le (a b : Nat) (hb : b ≤ a) (ha : a < 4294967296) : u32_sub a b = a - b := by
  unfold u32_sub
  norm_num
  omega

/-- Once `remain` is 65536 or more, the loop of `load_boot` cannot finish while the
transfers succeed: `remain` goes down to a positive multiple of 65536 and stays there,
the `u16` chunk length being 0 from then on. -/
theorem load_boot_loop_stuck (image : Nat → Nat) :
    ∀ (fuel ptr remain : Nat) (sent : List vsc_rom_master_frame),
      65536 ≤ remain → remain < 4294967296 →
      load_boot_loop image (fun _ => 0) fuel ptr remain sent = none := by
  intro fuel
  induction fuel with
  | zero =>
    intro ptr remain sent h1 _
    unfold load_boot_loop
    rw [if_pos (by omega)]
  | succ fuel ih =>
    intro ptr remain sent h1 h2
    unfold load_boot_loop
    rw [if_pos (by omega)]
    simp only [ne_eq, not_true_eq_false, if_false]
    have hle := min_t_u16_le remain sizeof_dl_cont_payload
    rw [u32_sub_of_le _ _ hle.2 h2]
    apply ih
    · omega
    · omega

/-- C28 (evaluation at the failing input): for a non-null image of 65536 bytes and
transfers that all succeed, `load_boot` does not return within any number of iterations.
The chunk length `min_t(u16, remain, 248)` is 0 because 65536 is 0 as a `u16`, the frame
built carries no payload and no end flag, and `remain` is still 65536 after the iteration.
When the fourth transfer fails, the four frames sent are all empty. -/
theorem load_boot_size_65536_never_returns :
    (∀ (fuel : Nat) (image : Nat → Nat),
      load_boot fuel image (fun _ => 0) 4096 65536 = none) ∧
    min_t_u16 65536 sizeof_dl_cont_payload = 0 ∧
    u32_sub 65536 (min_t_u16 65536 sizeof_dl_cont_payload) = 65536 ∧
    (load_boot 9 (fun _ => 170) (fun i => if i = 3 then -5 else 0) 4096 65536).map
        (fun r => (r.1, r.2.map (fun f => (f.len, f.end_flag))))
      = some (-5, [(0, 0), (0, 0), (0, 0), (0, 0)]) := by
  refine ⟨fun fuel image => ?_, by decide, by decide, by decide⟩
  unfold load_boot
  rw [if_neg (by decide)]
  exact load_boot_loop_stuck image fuel 4096 (to_uint 65536) [] (by decide) (by decide)

theorem load_boot_loop_done (image : Nat → Nat) (xfer : Nat → Int) (fuel ptr : Nat)
    (sent : List vsc_rom_master_frame) :
    load_boot_loop image xfer fuel ptr 0 sent = some (0, sent) := by
  cases fuel <;> rfl

theorem load_boot_frame_count_bounds (size : Nat) :
    size ≤ 248 * load_boot_frame_count size ∧ 248 * load_boot_frame_count size < size + 248 := by
  unfold load_boot_frame_count
  omega

theorem load_boot_chunk_len (rem : Nat) (h : rem < 65536) :
    min_t_u16 rem sizeof_dl_cont_payload = min 248 rem := by
  unfold min_t_u16 sizeof_dl_cont_payload VSC_ROM_PKG_SIZE
  norm_num
  omega

/-- Below 65536 bytes the loop of `load_boot`, entered at frame `j` with `248 * j` bytes
done and all transfers succeeding, sends the frames `j`, `j + 1`, ... of the closed form
`load_boot_frame_at` and returns 0. -/
theorem load_boot_loop_frames (image : Nat → Nat) (data size : Nat) (hsize : size < 65536) :
    ∀ (fuel j : Nat) (sent : List vsc_rom_master_frame),
      j ≤ load_boot_frame_count size → load_boot_frame_count size - j ≤ fuel →
      load_boot_loop image (fun _ => 0) fuel (data + 248 * j) (size - 248 * j) sent
        = some (0, sent ++ (List.range' j (load_boot_frame_count size - j)).map
            (load_boot_frame_at image data size)) := by
  have hk := load_boot_frame_count_bounds size
  intro fuel
  induction fuel with
  | zero =>
    intro j sent hj hfuel
    have hjk : load_boot_frame_count size - j = 0 := by omega
    have hrem : size - 248 * j = 0 := by omega
    rw [hjk, hrem, load_boot_loop_done]
    simp
  | succ fuel ih =>
    intro j sent hj hfuel
    by_cases hrem : size - 248 * j > 0
    · have hjk : load_boot_frame_count size - j = (load_boot_frame_count size - j - 1) + 1 := by
        omega
      rw [hjk, List.range'_succ, List.map_cons]
      unfold load_boot_loop
      rw [if_pos hrem]
      simp only [ne_eq, not_true_eq_false, if_false]
      have hcur := load_boot_chunk_len (size - 248 * j) (by omega)
      have hframe : load_boot_frame image (data + 248 * j) (size - 248 * j)
          (min_t_u16 (size - 248 * j) sizeof_dl_cont_payload)
          = load_boot_frame_at image data size j := by
        unfold load_boot_frame load_boot_frame_at
        rw [hcur]
        have hc : (size - 248 * j = min 248 (size - 248 * j)) ↔
            (j + 1 = load_boot_frame_count size) := by omega
        have hs : sizeof_dl_cont_payload = 248 := rfl
        simp only [hc, hs]
      rw [hframe, u32_sub_of_le _ _ (by rw [hcur]; omega) (by omega)]
      by_cases hlast : j + 1 = load_boot_frame_count size
      · have h0 : size - 248 * j - min_t_u16 (size - 248 * j) sizeof_dl_cont_payload = 0 := by
          rw [hcur]; omega
        have h1 : load_boot_frame_count size - j - 1 = 0 := by omega
        rw [h0, h1, load_boot_loop_done]
        simp
      · have h0 : size - 248 * j - min_t_u16 (size - 248 * j) sizeof_dl_cont_payload
            = size - 248 * (j + 1) := by
          rw [hcur]; omega
        have h1 : data + 248 * j + min_t_u16 (size - 248 * j) sizeof_dl_cont_payload
            = data + 248 * (j + 1) := by
          rw [hcur]; omega
        have h2 : load_boot_frame_count size - j - 1 = load_boot_frame_count size - (j + 1) := by
          omega
        rw [h0, h1, h2, ih (j + 1) _ (by omega) (by omega)]
        simp
    · have hjk : load_boot_frame_count size - j = 0 := by omega
      have hrem0 : size - 248 * j = 0 := by omega
      rw [hjk, hrem0, load_boot_loop_done]
      simp

theorem load_boot_len_sum_aux (size : Nat) : ∀ k : Nat,
    ((List.range k).map (fun j => min 248 (size - 248 * j))).sum = min size (248 * k) := by
  intro k
  induction k with
  | zero => simp
  | succ k ih =>
    rw [List.range_succ, List.map_append, List.sum_append, ih]
    simp only [List.map_cons, List.map_nil, List.sum_cons, List.sum_nil]
    omega

/-- For images of fewer than 65536 bytes the download does terminate: with a non-null
image, `0 < size < 65536` and every transfer succeeding, `load_boot` returns 0 once the
bound on the iterations is at least `size / 248` rounded up; the frames sent are those of
`load_boot_frame_at`, each carries between 1 and 248 bytes, the lengths sum to `size`, and
the end flag is 1 on the last frame and 0 on the others. -/
theorem load_boot_below_65536 (fuel : Nat) (image : Nat → Nat) (data size : Nat)
    (hdata : data ≠ 0) (h1 : 0 < size) (h2 : size < 65536)
    (hfuel : (size + 247) / 248 ≤ fuel) :
    load_boot fuel image (fun _ => 0) data (size : Int)
      = some (0, (List.range ((size + 247) / 248)).map (load_boot_frame_at image data size)) ∧
    (∀ j, j < (size + 247) / 248 →
      1 ≤ (load_boot_frame_at image data size j).len ∧
      (load_boot_frame_at image data size j).len ≤ 248 ∧
      ((load_boot_frame_at image data size j).end_flag = 1 ↔ j + 1 = (size + 247) / 248) ∧
      (j + 1 ≠ (size + 247) / 248 → (load_boot_frame_at image data size j).end_flag = 0)) ∧
    (((List.range ((size + 247) / 248)).map (load_boot_frame_at image data size)).map
      (fun f => f.len)).sum = size := by
  have hk := load_boot_frame_count_bounds size
  have hcount : load_boot_frame_count size = (size + 247) / 248 := rfl
  refine ⟨?_, ?_, ?_⟩
  · have hloop := load_boot_loop_frames image data size h2 fuel 0 [] (Nat.zero_le _)
      (by rw [hcount]; omega)
    rw [Nat.mul_zero, Nat.sub_zero, Nat.sub_zero, Nat.add_zero, List.nil_append,
      ← List.range_eq_range'] at hloop
    unfold load_boot
    rw [if_neg (by
      rw [not_or]
      exact ⟨hdata, by omega⟩)]
    have hu : to_uint (size : Int) = size := by
      unfold to_uint
      omega
    rw [hu, hloop]
    rfl
  · intro j hj
    unfold load_boot_frame_at
    simp only []
    rw [hcount]
    refine ⟨by omega, by omega, ?_, ?_⟩
    · constructor
      · intro h
        by_contra hne
        rw [if_neg hne] at h
        cases h
      · intro h
        rw [if_pos h]
    · intro h
      rw [if_neg h]
  · rw [List.map_map]
    have hfun : ((fun f => f.len) ∘ load_boot_frame_at image data size)
        = fun j => min 248 (size - 248 * j) := rfl
    rw [hfun, load_boot_len_sum_aux]
    omega

/-- The download of a 500-byte image evaluated: three frames of 248, 248 and 4 bytes, the
end flag on the third. -/
theorem load_boot_eval :
    (load_boot 3 (fun a => a % 256) (fun _ => 0) 4096 500).map
        (fun r => (r.1, r.2.map (fun f => (f.len, f.end_flag))))
      = some (0, [(248, 0), (248, 0), (4, 1)]) ∧
    (load_boot 3 (fun a => a % 256) (fun _ => 0) 4096 500).map
        (fun r => r.2.map (fun f => f.payload.take 5))
      = some [[0, 1, 2, 3, 4], [248, 249, 250, 251, 252], [240, 241, 242, 243, 0]] ∧
    (load_boot 2 (fun a => a % 256) (fun _ => 0) 4096 500).isNone = true ∧
    (load_boot 3 (fun a => a % 256) (fun _ => 0) 0 500).map (fun r => r.1) = some (-EINVAL) ∧
    (load_boot 3 (fun a => a % 256) (fun _ => 0) 4096 0).map (fun r => r.1) = some (-EINVAL) :=
  ⟨by decide, by decide, by decide, by decide, by decide⟩

/-! ## SPI controller: the speed index -/

/-- C29 (evaluation at the failing input): a request of 24 MHz selects index 0 (24 MHz),
a request of 48 MHz selects index 4 (4.8 MHz, the slowest): `DIV_ROUND_UP` gives 1, halved
it is 0, and `0 - 1` in `unsigned int` is `0xFFFFFFFF`, which `min_t(u8, ...)` turns into
255.  The conversion to `u8` also loses the high bits of large quotients: a request of
241 Hz selects index 0 (99584 is 0 as a `u8`) while 4.8 MHz selects index 4. -/
theorem ljca_spi_transfer_one_div_not_monotone :
    ljca_spi_transfer_one_div LJCA_SPI_BUS_MAX_HZ 24000000 = LJCA_SPI_BUS_SPEED_24M ∧
    ljca_spi_transfer_one_div LJCA_SPI_BUS_MAX_HZ 48000000 = LJCA_SPI_BUS_SPEED_4_8M ∧
    ¬ (ljca_spi_transfer_one_div LJCA_SPI_BUS_MAX_HZ 48000000
        ≤ ljca_spi_transfer_one_div LJCA_SPI_BUS_MAX_HZ 24000000) ∧
    DIV_ROUND_UP LJCA_SPI_BUS_MAX_HZ 48000000 = 1 ∧
    u32_sub (DIV_ROUND_UP LJCA_SPI_BUS_MAX_HZ 48000000 / 2) 1 = 4294967295 ∧
    ljca_spi_transfer_one_div LJCA_SPI_BUS_MAX_HZ 241 = LJCA_SPI_BUS_SPEED_24M ∧
    u32_sub (DIV_ROUND_UP LJCA_SPI_BUS_MAX_HZ 241 / 2) 1 = 99584 ∧
    ljca_spi_transfer_one_div LJCA_SPI_BUS_MAX_HZ 4800000 = LJCA_SPI_BUS_SPEED_4_8M ∧
    ¬ (ljca_spi_transfer_one_div LJCA_SPI_BUS_MAX_HZ 4800000
        ≤ ljca_spi_transfer_one_div LJCA_SPI_BUS_MAX_HZ 241) := by
  decide

theorem DIV_ROUND_UP_max_hz (s : Nat) (h0 : 0 < s) (h1 : s ≤ 48000000) :
    DIV_ROUND_UP LJCA_SPI_BUS_MAX_HZ s = 47999999 / s + 1 := by
  unfold DIV_ROUND_UP u32_sub LJCA_SPI_BUS_MAX_HZ
  have h : ((48000000 + s) % 2 ^ 32 + 2 ^ 32 - 1 % 2 ^ 32) % 2 ^ 32 = 47999999 + s := by
    norm_num
    omega
  rw [h, Nat.add_div_right _ h0]

/-- Between 93568 Hz and 47999999 Hz the speed index is monotone: the quotient is at least
2 there, so `/ 2 - 1` does not wrap, and the value is at most 255, so the conversion to
`u8` loses nothing. -/
theorem ljca_spi_transfer_one_div_monotone_between (s1 s2 : Nat) (h1 : 93568 ≤ s1)
    (h12 : s1 ≤ s2) (h2 : s2 < 48000000) :
    ljca_spi_transfer_one_div LJCA_SPI_BUS_MAX_HZ s2
      ≤ ljca_spi_transfer_one_div LJCA_SPI_BUS_MAX_HZ s1 := by
  unfold ljca_spi_transfer_one_div
  rw [DIV_ROUND_UP_max_hz s1 (by omega) (by omega), DIV_ROUND_UP_max_hz s2 (by omega) (by omega)]
  have hmono : 47999999 / s2 ≤ 47999999 / s1 := Nat.div_le_div_left h12 (by omega)
  have hlow : 1 ≤ 47999999 / s2 := Nat.div_pos (by omega) (by omega)
  have hhigh : 47999999 / s1 < 513 := by
    apply Nat.div_lt_of_lt_mul
    omega
  generalize 47999999 / s1 = a at hmono hhigh
  generalize 47999999 / s2 = b at hmono hlow
  unfold min_t_u8 u32_sub LJCA_SPI_BUS_SPEED_MIN LJCA_SPI_BUS_SPEED_4_8M
  norm_num
  omega

/-- The speed index on the wire: `ljca_spi_transfer_one` for a 1-byte write at 24 MHz and
at 48 MHz, starting from a controller initialised at 12 MHz.  The second byte of the init
packet (the speed) is 0 for the 24 MHz request and 4 for the 48 MHz request. -/
theorem ljca_spi_transfer_one_eval :
    (ljca_spi_transfer_one 1 ex_spi_state { ex_spi_dev with speed := 1 } LJCA_SPI_BUS_MAX_HZ 0
        { tx_buf := 3000, rx_buf := 0, len := 1, speed_hz := 24000000 } 700
        (ex_env_reply 7 [5, 1, 1, 0]) (fun _ => ex_env_reply 7 [5, 3, 1, 2, 64, 1])).map
        (fun r => (r.1, r.2.1.speed, ljca_frames r.2.2.trace))
      = some (0, 0, [[5, 1, 5, 3, 0, 0, 0], [5, 3, 5, 3, 64, 1, 1]]) ∧
    (ljca_spi_transfer_one 1 ex_spi_state { ex_spi_dev with speed := 1 } LJCA_SPI_BUS_MAX_HZ 0
        { tx_buf := 3000, rx_buf := 0, len := 1, speed_hz := 48000000 } 700
        (ex_env_reply 7 [5, 1, 1, 0]) (fun _ => ex_env_reply 7 [5, 3, 1, 2, 64, 1])).map
        (fun r => (r.1, r.2.1.speed, ljca_frames r.2.2.trace))
      = some (0, 4, [[5, 1, 5, 3, 0, 4, 0], [5, 3, 5, 3, 64, 1, 1]]) := by
  decide

/-! ## MEI message read: `mei_vsc_read_slots` -/

/-- The return value of `mei_vsc_read_slots` is 0 when the requested length equals the
header's length field and that length plus the header size equals the number of bytes
received, and `-EINVAL` otherwise; in the second case nothing is copied. -/
theorem mei_vsc_read_slots_ret (hdr : mei_msg_hdr_decl) (hw : mei_vsc_hw) (mem : Nat → Nat)
    (buf len : Nat) :
    ((len = hdr.length hw.rx_buf ∧ size_t_add (hdr.length hw.rx_buf) hdr.size = hw.rx_len) →
      (mei_vsc_read_slots hdr hw mem buf len).1 = 0) ∧
    (¬ (len = hdr.length hw.rx_buf ∧ size_t_add (hdr.length hw.rx_buf) hdr.size = hw.rx_len) →
      mei_vsc_read_slots hdr hw mem buf len = (-EINVAL, mem)) := by
  unfold mei_vsc_read_slots
  constructor
  · intro h
    rw [if_neg (by rw [not_or, not_not, not_not]; exact h)]
  · intro h
    rw [if_pos (by
      by_cases h1 : len = hdr.length hw.rx_buf
      · exact Or.inr (fun h2 => h ⟨h1, h2⟩)
      · exact Or.inl h1)]

/-- C22 (evaluation at the failing input): with a received message of 12 bytes whose
header declares 8 payload bytes, a request for 4 bytes returns `-EINVAL` (-22), not 0, and
copies nothing; so does a request for 8 bytes when only 10 bytes were received.  Whatever
the header layout is, a request one byte longer than the header's length field returns
`-EINVAL`.  The matching request (8 bytes of 12) returns 0. -/
theorem mei_vsc_read_slots_not_always_zero :
    (mei_vsc_read_slots ex_mei_msg_hdr ex_mei_hw (fun _ => 0) 1000 4).1 = -22 ∧
    (List.range 8).map ((mei_vsc_read_slots ex_mei_msg_hdr ex_mei_hw (fun _ => 0) 1000 4).2
        ∘ (fun k => 1000 + k)) = [0, 0, 0, 0, 0, 0, 0, 0] ∧
    (mei_vsc_read_slots ex_mei_msg_hdr { ex_mei_hw with rx_len := 10 } (fun _ => 0) 1000 8).1
      = -EINVAL ∧
    (∀ (hdr : mei_msg_hdr_decl) (hw : mei_vsc_hw) (mem : Nat → Nat) (buf : Nat),
      (mei_vsc_read_slots hdr hw mem buf (hdr.length hw.rx_buf + 1)).1 = -EINVAL) ∧
    (mei_vsc_read_slots ex_mei_msg_hdr ex_mei_hw (fun _ => 0) 1000 8).1 = 0 ∧
    (List.range 8).map ((mei_vsc_read_slots ex_mei_msg_hdr ex_mei_hw (fun _ => 0) 1000 8).2
        ∘ (fun k => 1000 + k)) = [11, 12, 13, 14, 15, 16, 17, 18] := by
  refine ⟨by decide, by decide, by decide, ?_, by decide, by decide⟩
  intro hdr hw mem buf
  unfold mei_vsc_read_slots
  rw [if_pos (Or.inl (by omega))]

/-! ## SPI controller: `ljca_spi_read_write` -/

/-- C27 (evaluation at the failing input): a read fragment of 1 byte into the buffer at
address 1000 is answered by a reply whose payload is the two header bytes alone, the length
byte being 127.  `ljca_spi_read_write` returns 0 with `ibuf_len = 2` (no data byte was
received) and copies 127 bytes to the receive buffer: the bytes at 1000 to 1126 are
overwritten with what `ibuf` and the memory behind it held (7), the byte at 1127 is
untouched, although one byte was requested. -/
theorem ljca_spi_read_write_copies_declared_len :
    (ljca_spi_read_write ex_spi_state ex_spi_dev 0 1000 1 0 1 LJCA_SPI_READ 700
        (ex_env_reply 8 ex_spi_reply_127)).1 = 0 ∧
    (ljca_spi_read_write ex_spi_state ex_spi_dev 0 1000 1 0 1 LJCA_SPI_READ 700
        (ex_env_reply 8 ex_spi_reply_127)).2.mem.words 700 = 2 ∧
    ljca_frames (ljca_spi_read_write ex_spi_state ex_spi_dev 0 1000 1 0 1 LJCA_SPI_READ 700
        (ex_env_reply 8 ex_spi_reply_127)).2.trace = [[5, 2, 5, 4, 64, 2, 1, 0]] ∧
    [1000, 1001, 1002, 1063, 1126, 1127].map ex_spi_state.mem.bytes = [0, 0, 0, 0, 0, 0] ∧
    [1000, 1001, 1002, 1063, 1126, 1127].map
        (ljca_spi_read_write ex_spi_state ex_spi_dev 0 1000 1 0 1 LJCA_SPI_READ 700
          (ex_env_reply 8 ex_spi_reply_127)).2.mem.bytes
      = [7, 7, 7, 7, 7, 0] := by
  decide

/-! ## SPI controller: fragmentation in `ljca_spi_transfer` -/

theorem ljca_spi_transfer_loop_done (ljca_spi : ljca_spi_dev)
    (tx_data rx_data cmd p_ibuf_len : Nat) (envs : Nat → ljca_write_env)
    (fuel i offset : Nat) (st : ljca_state) :
    ljca_spi_transfer_loop ljca_spi tx_data rx_data cmd p_ibuf_len envs fuel i 0 offset st
      = some (0, st) := by
  cases fuel <;> rfl

theorem ljca_spi_fragment_count_bounds (len : Nat) :
    len ≤ 58 * ljca_spi_fragment_count len ∧ 58 * ljca_spi_fragment_count len < len + 58 := by
  unfold ljca_spi_fragment_count
  omega

theorem ljca_spi_cur_len (rem : Nat) (h : rem < 4294967296) :
    min_t_uint rem LJCA_SPI_MAX_XFER_SIZE = min 58 rem := by
  unfold min_t_uint LJCA_SPI_MAX_XFER_SIZE LJCA_SPI_BUF_SIZE sizeof_spi_xfer_packet
  norm_num
  omega

/-- The loop of `ljca_spi_transfer`, entered at fragment `j` with `58 * j` bytes done,
issues the fragments `j`, `j + 1`, ... of the specification, in order, and stops at the
first one that fails. -/
theorem ljca_spi_transfer_loop_issue (ljca_spi : ljca_spi_dev)
    (tx_data rx_data p_ibuf_len len : Nat) (envs : Nat → ljca_write_env)
    (hlen : len < 4294967296) :
    ∀ (fuel j : Nat) (st : ljca_state),
      j ≤ ljca_spi_fragment_count len → ljca_spi_fragment_count len - j ≤ fuel →
      ljca_spi_transfer_loop ljca_spi tx_data rx_data (ljca_spi_transfer_cmd tx_data rx_data)
          p_ibuf_len envs fuel j (len - 58 * j) (58 * j) st
        = some (ljca_spi_issue ljca_spi tx_data rx_data p_ibuf_len envs
            ((List.range' j (ljca_spi_fragment_count len - j)).map (ljca_spi_fragment_at len))
            st) := by
  have hk := ljca_spi_fragment_count_bounds len
  intro fuel
  induction fuel with
  | zero =>
    intro j st hj hfuel
    have hjk : ljca_spi_fragment_count len - j = 0 := by omega
    have hrem : len - 58 * j = 0 := by omega
    rw [hjk, hrem]
    rfl
  | succ fuel ih =>
    intro j st hj hfuel
    by_cases hrem : len - 58 * j > 0
    · have hjk : ljca_spi_fragment_count len - j = (ljca_spi_fragment_count len - j - 1) + 1 := by
        omega
      rw [hjk, List.range'_succ, List.map_cons]
      unfold ljca_spi_transfer_loop ljca_spi_issue
      rw [if_pos hrem]
      simp only []
      have hcur := ljca_spi_cur_len (len - 58 * j) (by omega)
      have hissue : (ljca_spi_fragment_at len j).issue st ljca_spi tx_data rx_data p_ibuf_len envs
          = ljca_spi_read_write st ljca_spi
              (if tx_data ≠ 0 then tx_data + 58 * j else 0)
              (if rx_data ≠ 0 then rx_data + 58 * j else 0)
              (min_t_uint (len - 58 * j) LJCA_SPI_MAX_XFER_SIZE) j
              (if min_t_uint (len - 58 * j) LJCA_SPI_MAX_XFER_SIZE = len - 58 * j then 1 else 0)
              (ljca_spi_transfer_cmd tx_data rx_data) p_ibuf_len (envs j) := by
        unfold ljca_spi_fragment.issue ljca_spi_fragment_at
        simp only []
        rw [hcur]
        have hc : (j + 1 = ljca_spi_fragment_count len) ↔ (min 58 (len - 58 * j) = len - 58 * j) := by
          omega
        simp only [hc]
      rw [← hissue]
      by_cases hret : ((ljca_spi_fragment_at len j).issue st ljca_spi tx_data rx_data p_ibuf_len
          envs).1 ≠ 0
      · rw [if_pos hret, if_pos hret]
      · rw [if_neg hret, if_neg hret]
        by_cases hlast : j + 1 = ljca_spi_fragment_count len
        · have h0 : len - 58 * j - min_t_uint (len - 58 * j) LJCA_SPI_MAX_XFER_SIZE = 0 := by
            rw [hcur]; omega
          have h1 : ljca_spi_fragment_count len - j - 1 = 0 := by omega
          rw [h0, h1, ljca_spi_transfer_loop_done]
          rfl
        · have h0 : len - 58 * j - min_t_uint (len - 58 * j) LJCA_SPI_MAX_XFER_SIZE
              = len - 58 * (j + 1) := by
            rw [hcur]; omega
          have h1 : 58 * j + min_t_uint (len - 58 * j) LJCA_SPI_MAX_XFER_SIZE = 58 * (j + 1) := by
            rw [hcur]; omega
          have h2 : ljca_spi_fragment_count len - j - 1 = ljca_spi_fragment_count len - (j + 1) := by
            omega
          rw [h0, h1, h2]
          exact ih (j + 1) _ (by omega) (by omega)
    · have hjk : ljca_spi_fragment_count len - j = 0 := by omega
      have hrem0 : len - 58 * j = 0 := by omega
      rw [hjk, hrem0, ljca_spi_transfer_loop_done]
      rfl

theorem ljca_spi_fragments_at (len j : Nat) (f : ljca_spi_fragment)
    (h : (ljca_spi_fragments len)[j]? = some f) :
    j < ljca_spi_fragment_count len ∧ f = ljca_spi_fragment_at len j := by
  unfold ljca_spi_fragments at h
  rw [List.getElem?_map] at h
  cases hr : (List.range (ljca_spi_fragment_count len))[j]? with
  | none => rw [hr] at h; cases h
  | some x =>
    rw [hr] at h
    have hx := List.getElem?_range (m := j) (n := ljca_spi_fragment_count len)
    by_cases hj : j < ljca_spi_fragment_count len
    · rw [List.getElem?_range hj] at hr
      cases hr
      simp only [Option.map_some', Option.some.injEq] at h
      exact ⟨hj, h.symm⟩
    · rw [List.getElem?_eq_none (by simpa using hj)] at hr
      cases hr

theorem ljca_spi_fragments_len_sum_aux (len : Nat) : ∀ k : Nat,
    ((List.range k).map (fun j => min 58 (len - 58 * j))).sum = min len (58 * k) := by
  intro k
  induction k with
  | zero => simp
  | succ k ih =>
    rw [List.range_succ, List.map_append, List.sum_append, ih]
    simp only [List.map_cons, List.map_nil, List.sum_cons, List.sum_nil]
    omega

/-- What `ljca_spi_read_write` hands to `ljca_transfer` for a fragment of at most 58
bytes: 4 bytes for a read (header and the 16-bit count), 2 bytes more than the fragment
for a write or a write-read. -/
theorem ljca_spi_obuf_len_fragment (mem : ljca_mem) (ljca_spi : ljca_spi_dev)
    (w_data len id complete cmd p_ibuf_len : Nat) (hlen : len ≤ 58) :
    ljca_spi_obuf_len
        ((ljca_spi_w_packet mem ljca_spi w_data len id complete cmd).store p_ibuf_len
          LJCA_SPI_BUF_SIZE) ljca_spi
      = if cmd = LJCA_SPI_READ then 4 else 2 + len := by
  unfold ljca_spi_obuf_len ljca_spi_w_packet
  by_cases hc : cmd = LJCA_SPI_READ
  · simp only [if_pos hc]
    simp [ljca_mem.store, ljca_mem.store_byte, s8_of_byte, spi_xfer_packet_struct_size,
      sizeof_spi_xfer_packet]
  · simp only [if_neg hc]
    have hb : ((((mem.store_byte ljca_spi.obuf (ljca_spi_indicator ljca_spi id complete)).store_byte
        (ljca_spi.obuf + 1) (len % 256)).memcpy (ljca_spi.obuf + 2)
        (((mem.store_byte ljca_spi.obuf (ljca_spi_indicator ljca_spi id complete)).store_byte
          (ljca_spi.obuf + 1) (len % 256)).read w_data len)
        len).store p_ibuf_len LJCA_SPI_BUF_SIZE).bytes (ljca_spi.obuf + 1) = len % 256 := by
      simp [ljca_mem.store, ljca_mem.store_byte, ljca_mem.memcpy]
    rw [hb]
    have h1 : len % 256 = len := by omega
    have hs : s8_of_byte (len % 256) = (len : Int) := by
      unfold s8_of_byte
      rw [h1, h1, if_pos (by omega)]
    have h2 : ((len : Int) % 2 ^ 64).toNat = len := by omega
    have hsz : spi_xfer_packet_struct_size (len : Int) = len + 2 := by
      unfold spi_xfer_packet_struct_size sizeof_spi_xfer_packet
      rw [h2, if_neg (by omega)]
    rw [hs, hsz]
    omega

/-- C30: for a transfer of `len` bytes, `1 ≤ len ≤ 65535`, with a transmit or a receive
buffer, `ljca_spi_transfer` returns once the bound on the iterations is at least
`len / 58` rounded up, and what it does is to issue the fragments of the specification in
order through `ljca_spi_read_write`, stopping at the first one that fails (so every
fragment is issued when each one succeeds).  There are `len / 58` rounded up fragments;
fragment `j` has number `j` and offset `58 * j`, the offsets are consecutive from 0 (each
is the previous offset plus the previous length), every length is between 1 and 58, the
lengths sum to `len`, and the complete indicator is 1 on the last fragment and 0 on the
others.  The payload handed to `ljca_transfer` for a fragment is at most 60 bytes and its
frame at most `LJCA_MAX_PACKET_SIZE` bytes, so the size check of `ljca_stub_write` lets it
pass.  With neither buffer the function returns `-EINVAL` and the state is unchanged. -/
theorem ljca_spi_transfer_fragments (fuel : Nat) (st : ljca_state) (ljca_spi : ljca_spi_dev)
    (tx_data rx_data len p_ibuf_len : Nat) (envs : Nat → ljca_write_env)
    (hlen1 : 1 ≤ len) (hlen2 : len ≤ 65535) (hbuf : tx_data ≠ 0 ∨ rx_data ≠ 0)
    (hfuel : (len + 57) / 58 ≤ fuel) :
    ljca_spi_transfer fuel st ljca_spi tx_data rx_data len p_ibuf_len envs
      = some (ljca_spi_issue ljca_spi tx_data rx_data p_ibuf_len envs (ljca_spi_fragments len)
          st) ∧
    (ljca_spi_fragments len).length = (len + 57) / 58 ∧
    (∀ j f, (ljca_spi_fragments len)[j]? = some f →
      f.id = j ∧ f.offset = 58 * j ∧ 1 ≤ f.len ∧ f.len ≤ 58 ∧
      (j + 1 = (len + 57) / 58 → f.complete = 1) ∧
      (j + 1 ≠ (len + 57) / 58 → f.complete = 0)) ∧
    (∀ f, (ljca_spi_fragments len)[0]? = some f → f.offset = 0) ∧
    (∀ j f g, (ljca_spi_fragments len)[j]? = some f → (ljca_spi_fragments len)[j + 1]? = some g →
      g.offset = f.offset + f.len) ∧
    ((ljca_spi_fragments len).map (fun f => f.len)).sum = len ∧
    (∀ f ∈ ljca_spi_fragments len, ∀ (mem : ljca_mem) (w_data : Nat),
      ljca_spi_obuf_len
          ((ljca_spi_w_packet mem ljca_spi w_data f.len f.id f.complete
              (ljca_spi_transfer_cmd tx_data rx_data)).store p_ibuf_len LJCA_SPI_BUF_SIZE)
          ljca_spi ≤ LJCA_SPI_BUF_SIZE ∧
      ljca_msg_len (ljca_spi_obuf_len
          ((ljca_spi_w_packet mem ljca_spi w_data f.len f.id f.complete
              (ljca_spi_transfer_cmd tx_data rx_data)).store p_ibuf_len LJCA_SPI_BUF_SIZE)
          ljca_spi) ≤ LJCA_MAX_PACKET_SIZE) ∧
    ljca_spi_transfer fuel st ljca_spi 0 0 len p_ibuf_len envs = some (-EINVAL, st) := by
  have hk := ljca_spi_fragment_count_bounds len
  have hcount : ljca_spi_fragment_count len = (len + 57) / 58 := rfl
  have hat : ∀ j f, (ljca_spi_fragments len)[j]? = some f →
      j < (len + 57) / 58 ∧ f.id = j ∧ f.offset = 58 * j ∧ f.len = min 58 (len - 58 * j) ∧
      f.complete = if j + 1 = (len + 57) / 58 then 1 else 0 := by
    intro j f h
    obtain ⟨hj, hf⟩ := ljca_spi_fragments_at len j f h
    rw [hf]
    exact ⟨hj, rfl, rfl, rfl, rfl⟩
  refine ⟨?_, ?_, ?_, ?_, ?_, ?_, ?_, ?_⟩
  · have hloop := ljca_spi_transfer_loop_issue ljca_spi tx_data rx_data p_ibuf_len len envs
      (by omega) fuel 0 st (Nat.zero_le _) (by rw [hcount]; omega)
    have hm : len % 2 ^ 16 = len := by omega
    rw [Nat.mul_zero, Nat.sub_zero, Nat.sub_zero, ← List.range_eq_range'] at hloop
    unfold ljca_spi_transfer
    rw [hm]
    unfold ljca_spi_fragments
    rw [← hloop]
    unfold ljca_spi_transfer_cmd
    by_cases h1 : tx_data ≠ 0 ∧ rx_data ≠ 0
    · rw [if_pos h1, if_pos h1]
    · rw [if_neg h1, if_neg h1]
      by_cases h2 : tx_data ≠ 0
      · rw [if_pos h2, if_pos h2]
      · rw [if_neg h2, if_neg h2]
        have h3 : rx_data ≠ 0 := by
          rcases hbuf with h | h
          · exact absurd h h2
          · exact h
        rw [if_pos h3]
  · unfold ljca_spi_fragments
    rw [List.length_map, List.length_range]
    rfl
  · intro j f h
    obtain ⟨hj, h1, h2, h3, h4⟩ := hat j f h
    refine ⟨h1, h2, by omega, by omega, ?_, ?_⟩
    · intro hl
      rw [h4, if_pos hl]
    · intro hl
      rw [h4, if_neg hl]
  · intro f h
    obtain ⟨_, _, h2, _, _⟩ := hat 0 f h
    rw [h2]
  · intro j f g hf hg
    obtain ⟨_, _, f2, f3, _⟩ := hat j f hf
    obtain ⟨hj, _, g2, _, _⟩ := hat (j + 1) g hg
    omega
  · unfold ljca_spi_fragments
    rw [List.map_map]
    have hfun : ((fun f => f.len) ∘ ljca_spi_fragment_at len)
        = fun j => min 58 (len - 58 * j) := rfl
    rw [hfun, ljca_spi_fragments_len_sum_aux]
    omega
  · intro f hf mem w_data
    obtain ⟨j, hj⟩ := List.getElem?_of_mem hf
    obtain ⟨_, _, _, h3, _⟩ := hat j f hj
    rw [ljca_spi_obuf_len_fragment mem ljca_spi w_data f.len f.id f.complete _ p_ibuf_len
      (by omega)]
    have hm : ∀ n, n ≤ 60 → ljca_msg_len n ≤ LJCA_MAX_PACKET_SIZE := by
      intro n hn
      unfold ljca_msg_len size_t_add sizeof_ljca_msg LJCA_MAX_PACKET_SIZE
      omega
    have h60 : LJCA_SPI_BUF_SIZE = 60 := rfl
    rw [h60]
    split
    · exact ⟨by omega, hm 4 (by omega)⟩
    · exact ⟨by omega, hm _ (by omega)⟩
  · unfold ljca_spi_transfer
    simp

/-- C30 on the example transport: a 60-byte write from the buffer at address 3000. -/
theorem ljca_spi_transfer_fragments_witness :
    ljca_spi_transfer 2 ex_spi_state ex_spi_dev 3000 0 60 700 ex_spi_envs
      = some (ljca_spi_issue ex_spi_dev 3000 0 700 ex_spi_envs (ljca_spi_fragments 60)
          ex_spi_state) ∧
    (ljca_spi_fragments 60).length = (60 + 57) / 58 ∧
    ((ljca_spi_fragments 60).map (fun f => f.len)).sum = 60 ∧
    ljca_spi_transfer 2 ex_spi_state ex_spi_dev 0 0 60 700 ex_spi_envs
      = some (-EINVAL, ex_spi_state) :=
  have h := ljca_spi_transfer_fragments 2 ex_spi_state ex_spi_dev 3000 0 60 700 ex_spi_envs
    (by decide) (by decide) (Or.inl (by decide)) (by decide)
  ⟨h.1, h.2.1, h.2.2.2.2.2.1, h.2.2.2.2.2.2.2⟩

/-- The 60-byte write evaluated: two fragments, 58 bytes at offset 0 and 2 bytes at offset
58, the second one complete; on the wire, a frame of 64 bytes (envelope, indicator 0,
length 58, the bytes 1 to 58) and a frame of 8 bytes (envelope, indicator 65, length 2,
the bytes 59 and 60).  A 59-byte read asks for 58 bytes, then for 1 byte. -/
theorem ljca_spi_transfer_eval :
    ljca_spi_fragments 60
      = [{ id := 0, offset := 0, len := 58, complete := 0 },
         { id := 1, offset := 58, len := 2, complete := 1 }] ∧
    (ljca_spi_transfer 2 ex_spi_state ex_spi_dev 3000 0 60 700 ex_spi_envs).map
        (fun r => (r.1, (ljca_frames r.2.trace).map
          (fun f => (f.length, f.take 6, f.drop (f.length - 2)))))
      = some (0, [(64, [5, 3, 5, 60, 0, 58], [57, 58]), (8, [5, 3, 5, 4, 65, 2], [59, 60])]) ∧
    (ljca_spi_transfer 2 ex_spi_state ex_spi_dev 0 1000 59 700
        (fun i => if i = 0 then ex_env_reply 8 [5, 2, 1, 3, 0, 1, 9]
          else ex_env_reply 8 [5, 2, 1, 3, 64, 1, 8])).map
        (fun r => (r.1, ljca_frames r.2.trace, [1000, 1057, 1058, 1059].map r.2.mem.bytes))
      = some (0, [[5, 2, 5, 4, 0, 2, 58, 0], [5, 2, 5, 4, 65, 2, 1, 0]], [9, 0, 8, 0]) ∧
    (ljca_spi_transfer 1 ex_spi_state ex_spi_dev 3000 0 60 700 ex_spi_envs).isNone = true ∧
    (ljca_spi_fragments 58).map (fun f => (f.offset, f.len, f.complete)) = [(0, 58, 1)] ∧
    (ljca_spi_fragments 117).map (fun f => (f.offset, f.len, f.complete))
      = [(0, 58, 0), (58, 58, 0), (116, 1, 1)] := by
  decide

theorem s8_of_byte_bounds (b : Nat) : -128 ≤ s8_of_byte b ∧ s8_of_byte b ≤ 127 := by
  unfold s8_of_byte
  split <;> omega

/-- When `ljca_spi_read_write` returns 0 with a receive buffer, the number of bytes it has
copied there is the length byte of the reply, a number between 1 and 127 chosen by the
peripheral; neither the requested `len` nor the received length `ibuf_len` bounds it. -/
theorem ljca_spi_read_write_copy_len (st : ljca_state) (ljca_spi : ljca_spi_dev)
    (w_data r_data len id complete cmd p_ibuf_len : Nat) (env : ljca_write_env)
    (hret : (ljca_spi_read_write st ljca_spi w_data r_data len id complete cmd p_ibuf_len
      env).1 = 0)
    (hr : r_data ≠ 0) :
    ∃ (post : ljca_state) (n : Nat), 1 ≤ n ∧ n ≤ 127 ∧
      (n : Int) = ljca_spi_r_packet_len post.mem ljca_spi ∧
      (ljca_spi_read_write st ljca_spi w_data r_data len id complete cmd p_ibuf_len env).2.mem
        = post.mem.memcpy r_data (post.mem.read (ljca_spi.ibuf + 2) n) n := by
  unfold ljca_spi_read_write at hret ⊢
  simp only [] at hret ⊢
  split at hret
  · rename_i h
    exact absurd hret h
  · split at hret
    · have hne : (- EIO : Int) ≠ 0 := by decide
      exact absurd hret hne
    · rename_i h1 h2
      rw [if_neg h1, if_neg h2, if_pos hr]
      rw [not_or] at h2
      have hb := s8_of_byte_bounds
        ((ljca_transfer
          { st with
            mem := (ljca_spi_w_packet st.mem ljca_spi w_data len id complete cmd).store
              p_ibuf_len LJCA_SPI_BUF_SIZE }
          ljca_spi.ljca (cmd % 256)
          (some (((ljca_spi_w_packet st.mem ljca_spi w_data len id complete cmd).store
            p_ibuf_len LJCA_SPI_BUF_SIZE).read ljca_spi.obuf
            (ljca_spi_obuf_len ((ljca_spi_w_packet st.mem ljca_spi w_data len id complete
              cmd).store p_ibuf_len LJCA_SPI_BUF_SIZE) ljca_spi)))
          (ljca_spi_obuf_len ((ljca_spi_w_packet st.mem ljca_spi w_data len id complete
            cmd).store p_ibuf_len LJCA_SPI_BUF_SIZE) ljca_spi)
          ljca_spi.ibuf p_ibuf_len env).2.mem.bytes (ljca_spi.ibuf + 1))
      have hpos := h2.2
      unfold ljca_spi_r_packet_len at hpos ⊢
      refine ⟨_, _, ?_, ?_, ?_, rfl⟩
      · omega
      · omega
      · omega

end LJCA
